import Mathlib

/-!
Verification of the glpi-whatsapp ticket bot.

This file shallowly embeds the TypeScript sources (text normalisation,
the ticket-text parser, candidate matching, the GLPI HTTP retry logic and
the `TicketFlow` state machine) as executable Lean definitions and proves
the stated properties about them.

Modelling conventions:
* JS strings are modelled as Lean `String`/`List Char` over Unicode scalar
  values.  `String.prototype.normalize("NFD")` is modelled character-wise by
  the finite decomposition table `nfdTable`, which covers the accented Latin
  letters this system processes; all other characters are NFD-stable in the
  model.  `toUpperCase` is modelled by the ASCII case map (the letters this
  system compares are ASCII after mark stripping).
* `async`/`await` sequencing is modelled by explicit state passing: each
  handler takes and returns the session, the backend-oracle world and a list
  of emitted effects (replies, reactions, polls, backend calls).
* Backend calls are oracles: search functions are part of a fixed
  environment, consumable results (ticket creation, uploads, poll delivery,
  media downloads) are lists consumed call by call.
-/

/-! ## Character model: JS whitespace, combining marks, NFD, case map -/

/-- The character class matched by the JS regex `\s` (also the set trimmed by
`String.prototype.trim` and by `Number()` coercion). -/
def isJsWs (c : Char) : Bool :=
  c.toNat == 32 || c.toNat == 9 || c.toNat == 10 || c.toNat == 11 ||
  c.toNat == 12 || c.toNat == 13 || c.toNat == 0xA0 || c.toNat == 0x1680 ||
  (0x2000 ≤ c.toNat && c.toNat ≤ 0x200A) || c.toNat == 0x2028 ||
  c.toNat == 0x2029 || c.toNat == 0x202F || c.toNat == 0x205F ||
  c.toNat == 0x3000 || c.toNat == 0xFEFF

/-- The combining-mark range `[̀-ͯ]` removed by the normalizers. -/
def isCombiningMark (c : Char) : Bool :=
  0x300 ≤ c.toNat && c.toNat ≤ 0x36F

/-- Character-wise model of `String.prototype.normalize("NFD")`: canonical
decompositions of the precomposed Latin letters processed by this system.
Characters not listed are NFD-stable in the model. -/
def nfdTable : List (Char × List Char) :=
  [('á', ['a', '́']), ('é', ['e', '́']), ('í', ['i', '́']),
   ('ó', ['o', '́']), ('ú', ['u', '́']),
   ('Á', ['A', '́']), ('É', ['E', '́']), ('Í', ['I', '́']),
   ('Ó', ['O', '́']), ('Ú', ['U', '́']),
   ('à', ['a', '̀']), ('è', ['e', '̀']), ('ì', ['i', '̀']),
   ('ò', ['o', '̀']), ('ù', ['u', '̀']),
   ('À', ['A', '̀']), ('È', ['E', '̀']), ('Ì', ['I', '̀']),
   ('Ò', ['O', '̀']), ('Ù', ['U', '̀']),
   ('ä', ['a', '̈']), ('ë', ['e', '̈']), ('ï', ['i', '̈']),
   ('ö', ['o', '̈']), ('ü', ['u', '̈']),
   ('Ä', ['A', '̈']), ('Ë', ['E', '̈']), ('Ï', ['I', '̈']),
   ('Ö', ['O', '̈']), ('Ü', ['U', '̈']),
   ('ñ', ['n', '̃']), ('Ñ', ['N', '̃']),
   ('ã', ['a', '̃']), ('õ', ['o', '̃']),
   ('Ã', ['A', '̃']), ('Õ', ['O', '̃']),
   ('â', ['a', '̂']), ('ê', ['e', '̂']), ('î', ['i', '̂']),
   ('ô', ['o', '̂']), ('û', ['u', '̂']),
   ('Â', ['A', '̂']), ('Ê', ['E', '̂']), ('Î', ['I', '̂']),
   ('Ô', ['O', '̂']), ('Û', ['U', '̂']),
   ('ç', ['c', '̧']), ('Ç', ['C', '̧'])]

/-- First-match association-list lookup (JS object property access). -/
def tableLookup {β : Type} : List (Char × β) → Char → Option β
  | [], _ => none
  | (k, v) :: rest, c => if c = k then some v else tableLookup rest c

/-- NFD decomposition of a single character (table-driven). -/
def nfdChar (c : Char) : List Char :=
  (tableLookup nfdTable c).getD [c]

/-- NFD decomposition of a character list. -/
def nfdL (l : List Char) : List Char := l.flatMap nfdChar

/-- Model of `.replace(/[̀-ͯ]/g, "")`. -/
def stripMarks (l : List Char) : List Char :=
  l.filter (fun c => !isCombiningMark c)

/-- Model of `.replace(/P+/g, r)` for a character class `P`: every maximal
run of characters satisfying `p` is replaced by the single character `r`. -/
def replaceRuns (p : Char → Bool) (r : Char) : List Char → List Char
  | [] => []
  | [c] => if p c then [r] else [c]
  | a :: b :: rest =>
    if p a && p b then replaceRuns p r (b :: rest)
    else (if p a then r else a) :: replaceRuns p r (b :: rest)

/-- Model of `.replace(/\s+/g, " ")`. -/
def collapseWs (l : List Char) : List Char := replaceRuns isJsWs ' ' l

/-- Drop leading JS whitespace. -/
def trimLead (l : List Char) : List Char := l.dropWhile isJsWs

/-- Drop trailing JS whitespace. -/
def trimTrail : List Char → List Char
  | [] => []
  | c :: rest =>
    match trimTrail rest with
    | [] => if isJsWs c then [] else [c]
    | r => c :: r

/-- Model of `String.prototype.trim()`. -/
def trimBoth (l : List Char) : List Char := trimTrail (trimLead l)

/-- ASCII case map: model of `toUpperCase` on the characters this system
compares (all ASCII after mark stripping). -/
def toUpperChar (c : Char) : Char :=
  if 97 ≤ c.toNat ∧ c.toNat ≤ 122 then Char.ofNat (c.toNat - 32) else c

/-- Model of `normalizeText` (src/text.ts lines 9-16): NFD, strip combining
marks, collapse whitespace runs to single spaces, trim, uppercase. -/
def normalizeTextL (l : List Char) : List Char :=
  (trimBoth (collapseWs (stripMarks (nfdL l)))).map toUpperChar

/-- String-level `normalizeText`. -/
def normalizeText (s : String) : String := ⟨normalizeTextL s.data⟩

/-- Model of `normalizeTemplateKey` (src/text.ts lines 1-7): NFD, strip
combining marks, trim, uppercase (no whitespace collapsing). -/
def normalizeTemplateKeyL (l : List Char) : List Char :=
  (trimBoth (stripMarks (nfdL l))).map toUpperChar

/-- String-level `normalizeTemplateKey`. -/
def normalizeTemplateKey (s : String) : String := ⟨normalizeTemplateKeyL s.data⟩

/-- String-level trim. -/
def trimS (s : String) : String := ⟨trimBoth s.data⟩

/-! ## Well-formedness predicates for normalized output (claim C9) -/

/-- The first character, if any, is not JS whitespace. -/
def noLeadWs (l : List Char) : Bool :=
  match l with
  | [] => true
  | c :: _ => !isJsWs c

/-- The last character, if any, is not JS whitespace. -/
def noTrailWs (l : List Char) : Bool :=
  match l.getLast? with
  | none => true
  | some c => !isJsWs c

/-- No two consecutive characters satisfy `p`. -/
def noDoubleRun (p : Char → Bool) : List Char → Bool
  | [] => true
  | [_] => true
  | a :: b :: rest => !(p a && p b) && noDoubleRun p (b :: rest)

/-! ## JS string helpers -/

/-- JS truthiness of a `string | undefined` value (`undefined` and `""` are falsy). -/
def strTruthy : Option String → Bool
  | none => false
  | some s => !(s == "")

/-- Model of `a || b` on `string | undefined` values. -/
def jsOr (a b : Option String) : Option String :=
  if strTruthy a then a else b

/-- Model of `a ?? b` on `string | undefined` values. -/
def jsNullish (a b : Option String) : Option String :=
  match a with
  | some v => some v
  | none => b

/-- Model of `value || ""` on a `string | undefined` value. -/
def strOfOpt (o : Option String) : String :=
  match o with
  | none => ""
  | some s => s

/-- Split a character list at every occurrence of `sep`. -/
def splitOnChar (sep : Char) : List Char → List (List Char)
  | [] => [[]]
  | c :: rest =>
    if c = sep then [] :: splitOnChar sep rest
    else
      match splitOnChar sep rest with
      | [] => [[c]]
      | p :: ps => (c :: p) :: ps

/-- Find the first occurrence of `sep` and return the parts before and after it. -/
def splitAtFirst (sep : Char) : List Char → Option (List Char × List Char)
  | [] => none
  | c :: rest =>
    if c = sep then some ([], rest)
    else (splitAtFirst sep rest).map (fun p => (c :: p.1, p.2))

/-- Model of `String.prototype.includes(pat)` for a nonempty needle. -/
def hasSub (pat : List Char) : List Char → Bool
  | [] => pat.isEmpty
  | c :: rest => pat.isPrefixOf (c :: rest) || hasSub pat rest

/-- Model of `indexOf(pat)` followed by slicing: the parts strictly before the
first occurrence of `pat` and strictly after it. -/
def splitAtSub (pat : List Char) : List Char → Option (List Char × List Char)
  | [] => if pat.isEmpty then some ([], []) else none
  | c :: rest =>
    if pat.isPrefixOf (c :: rest) then some ([], (c :: rest).drop pat.length)
    else (splitAtSub pat rest).map (fun p => (c :: p.1, p.2))

/-- Accumulator-based splitting of a character list into maximal non-whitespace
words; models `.split(/\s+/)` followed by dropping empty pieces. -/
def wordsOfAux : List Char → List Char → List (List Char)
  | [], acc => if acc.isEmpty then [] else [acc.reverse]
  | c :: rest, acc =>
    if isJsWs c then
      if acc.isEmpty then wordsOfAux rest [] else acc.reverse :: wordsOfAux rest []
    else wordsOfAux rest (c :: acc)

/-- Whitespace words of a string. -/
def wordsOf (s : String) : List String :=
  (wordsOfAux s.data []).map (fun w => ⟨w⟩)

/-- First-match association-list lookup with string keys (JS object access). -/
def strLookup {β : Type} : List (String × β) → String → Option β
  | [], _ => none
  | (k, v) :: rest, s => if s = k then some v else strLookup rest s

/-! ## Ticket parser (src/unnamed/part_001 lines 1-331, `ticket-parser.ts`) -/

/-- The fields of a ticket draft (the value type of `KEY_MAP`). -/
inductive TicketField where
  | solicitante | asignado | problema | categoria | nombre | dni
  | celular | correo | cargo | dependencia | piso
deriving DecidableEq

/-- `TicketDraft` (src/types.ts): accumulated ticket fields.  Optional string
fields are `Option String`; absent means `undefined`. -/
structure TicketDraft where
  solicitante : Option String := none
  asignado : Option String := none
  problema : Option String := none
  categoria : Option String := none
  nombre : Option String := none
  dni : Option String := none
  celular : Option String := none
  correo : Option String := none
  cargo : Option String := none
  dependencia : Option String := none
  piso : Option String := none
  rawText : String := ""
  isComplete : Bool := false
deriving DecidableEq

/-- Assign `data[field] = value` for the non-special fields of the key-value
template loop. -/
def setField (d : TicketDraft) : TicketField → String → TicketDraft
  | .solicitante, v => { d with solicitante := some v }
  | .asignado, v => { d with asignado := some v }
  | .problema, v => { d with problema := some v }
  | .categoria, v => { d with categoria := some v }
  | .nombre, v => { d with nombre := some v }
  | .dni, v => { d with dni := some v }
  | .celular, v => { d with celular := some v }
  | .correo, v => { d with correo := some v }
  | .cargo, v => { d with cargo := some v }
  | .dependencia, v => { d with dependencia := some v }
  | .piso, v => { d with piso := some v }

/-- The key synonym table `KEY_MAP`. -/
def keyMap : List (String × TicketField) :=
  [("SOLICITANTE", .solicitante), ("USUARIO", .solicitante),
   ("USUARIO SOLICITANTE", .solicitante),
   ("ASIGNADO", .asignado), ("TECNICO", .asignado), ("RESPONSABLE", .asignado),
   ("PROBLEMA", .problema), ("DESCRIPCION", .problema), ("SOLICITUD", .problema),
   ("INCIDENTE", .problema), ("SOLICITUD O INCIDENTE", .problema),
   ("SOLICITUD INCIDENTE", .problema),
   ("CATEGORIA", .categoria), ("CATEGORIA PROBLEMA", .categoria),
   ("SISTEMA", .categoria), ("BIEN", .categoria), ("SISTEMA O BIEN", .categoria),
   ("SISTEMA BIEN", .categoria),
   ("NOMBRE", .nombre), ("NOMBRES", .nombre), ("NOMBRE COMPLETO", .nombre),
   ("APELLIDOS", .nombre), ("APELLIDOS Y NOMBRES", .nombre),
   ("DNI", .dni), ("DNI SOLICITANTE", .dni), ("SOLICITANTE DNI", .dni),
   ("DOCUMENTO", .dni), ("DOCUMENTO IDENTIDAD", .dni), ("DOC IDENTIDAD", .dni),
   ("N DNI", .dni), ("NRO DNI", .dni), ("NRO DE DNI", .dni),
   ("NUMERO DNI", .dni), ("NUMERO DE DNI", .dni),
   ("CELULAR", .celular), ("CEL", .celular), ("TELEFONO", .celular),
   ("TELEFONO CELULAR", .celular), ("TELEFONO MOVIL", .celular),
   ("MOVIL", .celular),
   ("CORREO", .correo), ("EMAIL", .correo), ("E MAIL", .correo),
   ("MAIL", .correo), ("CORREO ELECTRONICO", .correo),
   ("CARGO", .cargo), ("PUESTO", .cargo), ("FUNCION", .cargo),
   ("DEPENDENCIA", .dependencia), ("OFICINA", .dependencia),
   ("AREA", .dependencia), ("UNIDAD", .dependencia), ("SEDE", .dependencia),
   ("PISO", .piso)]

/-- Is the character kept by the key filter `[^A-Z0-9 ]`? -/
def isKeyChar (c : Char) : Bool :=
  (65 ≤ c.toNat && c.toNat ≤ 90) || (48 ≤ c.toNat && c.toNat ≤ 57) || c == ' '

/-- Map the masculine ordinal and the degree sign to a space (`[º°]`). -/
def degreeToSpace (c : Char) : Char :=
  if c.toNat = 0xBA ∨ c.toNat = 0xB0 then ' ' else c

/-- Model of `normalizeTicketKey`: `normalizeTemplateKey`, degree signs to
spaces, runs outside `[A-Z0-9 ]` to a space, whitespace collapsed, trimmed. -/
def normalizeTicketKey (s : String) : String :=
  ⟨trimBoth (collapseWs (replaceRuns (fun c => !isKeyChar c) ' '
    ((normalizeTemplateKeyL s.data).map degreeToSpace)))⟩

/-- Split on `\s*-\s*` then trim and drop empty parts (`splitByDash`). -/
def splitByDash (s : String) : List String :=
  (((splitOnChar '-' s.data).map trimBoth).filter (fun p => !p.isEmpty)).map
    (fun p => (⟨p⟩ : String))

/-- Model of `looksLikeDni`: exactly 8 digit characters after removing
non-digits. -/
def looksLikeDni (s : String) : Bool :=
  (s.data.filter Char.isDigit).length == 8

/-- Model of `extractDni` (src/unnamed/part_000 lines 191-194): the digit
characters of the value if there are exactly 8 of them. -/
def extractDni (s : String) : Option String :=
  let digits := s.data.filter Char.isDigit
  if digits.length = 8 then some ⟨digits⟩ else none

/-- The `PROBLEM_HINTS` token set. -/
def problemHints : List String :=
  ["NO", "SIN", "ERROR", "FALLA", "FALLANDO", "PROBLEMA", "SOLICITO",
   "SOLICITUD", "SOLICITAR", "IMPRIME", "IMPRIMIR", "IMPRESORA", "CORREO",
   "EMAIL", "OUTLOOK", "INTERNET", "RED", "VPN", "SISTEMA", "APLICACION",
   "APP", "PC", "CPU", "LAPTOP", "NOTEBOOK", "MONITOR", "ESCANER", "SCANNER",
   "CLAVE", "CONTRASENA", "PASSWORD", "ACCESO", "INGRESAR", "ENTRAR",
   "CUENTA", "BLOQUEO", "BLOQUEADO", "BLOQUEADA", "LENTO", "LENTA",
   "ACTUALIZAR", "ACTUALIZACION", "INSTALAR", "INSTALACION", "CAMBIO",
   "CAMBIAR", "URGENTE"]

/-- Model of `tokenizeWords`: whitespace tokens of the template-normalized
value. -/
def tokenizeWords (s : String) : List String :=
  (wordsOfAux (normalizeTemplateKeyL s.data) []).map (fun w => ⟨w⟩)

/-- Model of `hasProblemHints`. -/
def hasProblemHints (s : String) : Bool :=
  (tokenizeWords s).any (fun t => problemHints.contains t)

/-- Model of `looksLikeName`: 2 to 6 purely alphabetic tokens, none of which
is a problem keyword. -/
def looksLikeName (s : String) : Bool :=
  let tokens := tokenizeWords s
  if tokens.length < 2 || 6 < tokens.length then false
  else if hasProblemHints s then false
  else tokens.all (fun t => !t.data.isEmpty && t.data.all (fun c => 65 ≤ c.toNat && c.toNat ≤ 90))

/-- Model of `looksLikeProblem`: contains a digit or a problem keyword. -/
def looksLikeProblem (s : String) : Bool :=
  s.data.any Char.isDigit || hasProblemHints s

/-- Model of `buildDraft` (parser version with enriched fields): `null` unless
some recognized field is truthy; infers the national-ID and display-name from
the requester value and derives `isComplete`. -/
def buildDraft (data : TicketDraft) (rawText : String) : Option TicketDraft :=
  let hasAny :=
    strTruthy data.solicitante || strTruthy data.asignado ||
    strTruthy data.problema || strTruthy data.categoria ||
    strTruthy data.nombre || strTruthy data.dni || strTruthy data.celular ||
    strTruthy data.correo || strTruthy data.cargo ||
    strTruthy data.dependencia || strTruthy data.piso
  if !hasAny then none
  else
    let solicitante := data.solicitante
    let inferredDni := jsOr data.dni
      (if strTruthy solicitante && looksLikeDni (strOfOpt solicitante) then
        solicitante else none)
    let inferredNombre := jsOr data.nombre
      (if !strTruthy inferredDni && strTruthy solicitante then solicitante
       else none)
    let finalSolicitante := jsNullish solicitante (jsNullish inferredDni inferredNombre)
    some { data with
      solicitante := finalSolicitante
      dni := inferredDni
      nombre := inferredNombre
      rawText := rawText
      isComplete := strTruthy finalSolicitante && strTruthy data.problema }

/-- Drop one trailing carriage return (the `\r?` of the line splitter). -/
def dropCR (l : List Char) : List Char :=
  match l.reverse with
  | '\r' :: rest => rest.reverse
  | _ => l

/-- Model of `body.split(/\r?\n/)`. -/
def splitLines (s : String) : List String :=
  (splitOnChar '\n' s.data).map (fun p => (⟨dropCR p⟩ : String))

/-- One iteration of the key-value template loop. -/
def kvStep (acc : TicketDraft) (line : String) : TicketDraft :=
  match splitAtFirst ':' line.data with
  | none => acc
  | some (rawKey, rest) =>
    let value := trimS ⟨rest⟩
    if rawKey.isEmpty || value = "" then acc
    else
      match strLookup keyMap (normalizeTicketKey ⟨rawKey⟩) with
      | none => acc
      | some TicketField.dni =>
        { acc with dni := some value, solicitante := some value }
      | some TicketField.nombre =>
        let acc1 := { acc with nombre := some value }
        if strTruthy acc.solicitante then acc1
        else { acc1 with solicitante := some value }
      | some f => setField acc f value

/-- Model of `parseKeyValueTemplate` (v1). -/
def parseKeyValueTemplate (body : String) : Option TicketDraft :=
  let lines := ((splitLines body).map trimS).filter (fun l => l ≠ "")
  if lines.isEmpty then none
  else buildDraft (lines.foldl kvStep {}) body

/-- Model of `parseInlineTemplate` (v1). -/
def parseInlineTemplate (body : String) : Option TicketDraft :=
  match splitAtSub ['=', '>'] body.data with
  | none => none
  | some (leftRaw, rightRaw) =>
    let left := trimS ⟨leftRaw⟩
    let right := trimS ⟨rightRaw⟩
    if left = "" && right = "" then none
    else
      let leftParts := splitByDash left
      let rightParts := splitByDash right
      let solicitante0 : Option String := leftParts.get? 0
      let asignado0 : Option String :=
        if 1 < leftParts.length then leftParts.get? 1 else none
      let problema0 : Option String := some right
      let useRight := !strTruthy solicitante0 && 2 ≤ rightParts.length
      let solicitante := if useRight then rightParts.get? 1 else solicitante0
      let problema := if useRight then rightParts.get? 0 else problema0
      let asignado :=
        if useRight && (!strTruthy asignado0 && 3 ≤ rightParts.length) then
          rightParts.get? 2
        else asignado0
      buildDraft { solicitante := solicitante, asignado := asignado, problema := problema } body

/-- Model of `parseLooseDashTemplate` (v1). -/
def parseLooseDashTemplate (body : String) : Option TicketDraft :=
  if hasSub ['=', '>'] body.data then none
  else
    match splitByDash body with
    | [first, second] =>
      if first = "" || second = "" then none
      else
        let firstDni := looksLikeDni first
        let secondDni := looksLikeDni second
        if firstDni && !secondDni then
          buildDraft { solicitante := some first, problema := some second } body
        else if secondDni && !firstDni then
          buildDraft { solicitante := some second, problema := some first } body
        else
          let firstNameLike := looksLikeName first
          let secondNameLike := looksLikeName second
          if firstNameLike && !secondNameLike then
            buildDraft { solicitante := some first, problema := some second } body
          else if secondNameLike && !firstNameLike then
            buildDraft { solicitante := some second, problema := some first } body
          else
            let firstProblemLike := looksLikeProblem first
            let secondProblemLike := looksLikeProblem second
            if firstProblemLike && !secondProblemLike then
              buildDraft { solicitante := some second, problema := some first } body
            else if secondProblemLike && !firstProblemLike then
              buildDraft { solicitante := some first, problema := some second } body
            else if second.data.length ≤ first.data.length then
              buildDraft { solicitante := some second, problema := some first } body
            else
              buildDraft { solicitante := some first, problema := some second } body
    | _ => none

/-- Model of `parseTicketText` (v1): the three strategies in order, first
success wins. -/
def parseTicketText (body : String) : Option TicketDraft :=
  match parseKeyValueTemplate body with
  | some d => some d
  | none =>
    match parseInlineTemplate body with
    | some d => some d
    | none => parseLooseDashTemplate body

/-- The draft produced by the key-value template for the witness body
`"SOLICITANTE: 73872028\nPROBLEMA: x"`. -/
def kvDraftWitness : TicketDraft :=
  { solicitante := some "73872028", problema := some "x",
    dni := some "73872028", rawText := "SOLICITANTE: 73872028\nPROBLEMA: x",
    isComplete := true }

/-! ## Model of JS `Number()` string coercion

Values are exact rationals; binary64 rounding is not modelled.  The
non-finite results (`NaN`, `±Infinity`) are modelled as `none`: the flow only
ever tests `Number.isInteger` on the result, which is false for each. -/

/-- Numeric value of a digit sequence. -/
def natOfDigits (l : List Char) : Nat :=
  l.foldl (fun a c => a * 10 + (c.toNat - 48)) 0

/-- Value of a hexadecimal digit character. -/
def hexVal (c : Char) : Option Nat :=
  if 48 ≤ c.toNat ∧ c.toNat ≤ 57 then some (c.toNat - 48)
  else if 65 ≤ c.toNat ∧ c.toNat ≤ 70 then some (c.toNat - 55)
  else if 97 ≤ c.toNat ∧ c.toNat ≤ 102 then some (c.toNat - 87)
  else none

/-- Parse a nonempty digit string in the given radix (`0x`/`0o`/`0b` bodies). -/
def parseRadixDigits (radix : Nat) (l : List Char) : Option Nat :=
  if l.isEmpty then none
  else
    l.foldl (fun acc c =>
      match acc, hexVal c with
      | some a, some d => if d < radix then some (a * radix + d) else none
      | _, _ => none) (some 0)

/-- Parse the decimal mantissa `digits [. digits]` or `. digits`; returns its
value and the unconsumed rest. -/
def parseDecMantissa (l : List Char) : Option (ℚ × List Char) :=
  let ip := l.takeWhile Char.isDigit
  let r1 := l.dropWhile Char.isDigit
  match r1 with
  | '.' :: r2 =>
    let fp := r2.takeWhile Char.isDigit
    let r3 := r2.dropWhile Char.isDigit
    if ip.isEmpty ∧ fp.isEmpty then none
    else some ((natOfDigits ip : ℚ) + (natOfDigits fp : ℚ) / (10 : ℚ) ^ fp.length, r3)
  | _ => if ip.isEmpty then none else some ((natOfDigits ip : ℚ), r1)

/-- Parse an unsigned decimal literal with optional exponent. -/
def jsToNumberCore (l : List Char) : Option ℚ :=
  match parseDecMantissa l with
  | none => none
  | some (m, rest) =>
    match rest with
    | [] => some m
    | c :: r2 =>
      if c = 'e' ∨ c = 'E' then
        let (neg, r3) : Bool × List Char :=
          match r2 with
          | '+' :: r => (false, r)
          | '-' :: r => (true, r)
          | r => (false, r)
        let ds := r3.takeWhile Char.isDigit
        let r4 := r3.dropWhile Char.isDigit
        if ds.isEmpty ∨ !r4.isEmpty then none
        else
          let e := natOfDigits ds
          some (if neg then m / (10 : ℚ) ^ e else m * (10 : ℚ) ^ e)
      else none

/-- Model of `Number(s)` on a string: trim, empty is `0`, signed decimal with
optional fraction and exponent, `0x`/`0o`/`0b` radix literals (unsigned),
`Infinity` and unparsable input give `none`. -/
def jsToNumber (s : String) : Option ℚ :=
  match trimBoth s.data with
  | [] => some 0
  | '+' :: rest =>
    if rest = "Infinity".data then none else jsToNumberCore rest
  | '-' :: rest =>
    if rest = "Infinity".data then none else (jsToNumberCore rest).map Neg.neg
  | '0' :: c :: rest =>
    if c = 'x' ∨ c = 'X' then (parseRadixDigits 16 rest).map (fun n => (n : ℚ))
    else if c = 'o' ∨ c = 'O' then (parseRadixDigits 8 rest).map (fun n => (n : ℚ))
    else if c = 'b' ∨ c = 'B' then (parseRadixDigits 2 rest).map (fun n => (n : ℚ))
    else jsToNumberCore ('0' :: c :: rest)
  | l => if l = "Infinity".data then none else jsToNumberCore l

/-! ## GLPI user candidates and candidate matching
(src/unnamed/part_000 lines 116-179) -/

/-- A backend user candidate.  The contact fields are optional; their use in
`applyResolvedCandidate` (src/unnamed/part_000 lines 900-953) fixes the
field set. -/
structure GlpiUserCandidate where
  id : String
  login : Option String := none
  firstname : Option String := none
  realname : Option String := none
  dni : Option String := none
  email : Option String := none
  mobile : Option String := none
  phone : Option String := none
  category : Option String := none
  title : Option String := none
  location : Option String := none
  entity : Option String := none
  floor : Option String := none
deriving DecidableEq

/-- Model of `x?.trim() || ""`. -/
def optTrim (o : Option String) : String :=
  match o with
  | none => ""
  | some s => trimS s

/-- Model of `a || b` on plain strings. -/
def strOr (a b : String) : String :=
  if a ≠ "" then a else b

/-- Model of `formatCandidateName`. -/
def formatCandidateName (c : GlpiUserCandidate) : String :=
  let first := optTrim c.firstname
  let last := optTrim c.realname
  let fullName := trimS (String.intercalate " " (([first, last].filter (fun x => x ≠ ""))))
  strOr fullName (strOr (strOfOpt c.login) c.id)

/-- Model of `buildCandidateLabel`. -/
def buildCandidateLabel (c : GlpiUserCandidate) : String :=
  let base := formatCandidateName c
  if strTruthy c.login ∧ strOfOpt c.login ≠ base then
    base ++ " (login: " ++ strOfOpt c.login ++ ")"
  else base

/-- Occurrences of `x` in `l`. -/
def countOcc (l : List String) (x : String) : Nat :=
  (l.filter (fun y => y = x)).length

/-- Model of `buildCandidateOptionNames`: poll option labels, with the login
appended only for display names that collide after normalization. -/
def buildCandidateOptionNames (cands : List GlpiUserCandidate) : List String :=
  let baseNames := cands.map formatCandidateName
  let normalized := baseNames.map normalizeText
  (cands.zip (baseNames.zip normalized)).map
    (fun p => if 1 < countOcc normalized p.2.2 then buildCandidateLabel p.1 else p.2.1)

/-- Order-preserving deduplication (`Array.from(new Set(...))`). -/
def dedupAux : List String → List String → List String
  | [], _ => []
  | x :: rest, seen =>
    if seen.contains x then dedupAux rest seen
    else x :: dedupAux rest (x :: seen)

/-- Model of `buildCandidateMatchKeys`: normalized full name, reversed name
and login, deduplicated. -/
def buildCandidateMatchKeys (c : GlpiUserCandidate) : List String :=
  let first := optTrim c.firstname
  let last := optTrim c.realname
  let fullName := trimS (String.intercalate " " ([first, last].filter (fun x => x ≠ "")))
  let reversed := trimS (String.intercalate " " ([last, first].filter (fun x => x ≠ "")))
  let login := optTrim c.login
  dedupAux (([fullName, reversed, login].filter (fun x => x ≠ "")).map normalizeText) []

/-- Model of `matchCandidateInput` (src/unnamed/part_000 lines 159-179): a
numeric reply selects by 1-based index, otherwise the normalized reply is
compared against each candidate's match keys. -/
def matchCandidateInput (input : String) (candidates : List GlpiUserCandidate) :
    Option GlpiUserCandidate :=
  let trimmed := trimS input
  if trimmed = "" then none
  else
    let byIndex : Option GlpiUserCandidate :=
      match jsToNumber trimmed with
      | some q =>
        if q.den = 1 ∧ 1 ≤ q.num ∧ q.num ≤ candidates.length then
          candidates.get? (q.num.toNat - 1)
        else none
      | none => none
    match byIndex with
    | some c => some c
    | none =>
      let normalized := normalizeText trimmed
      candidates.find? (fun c => (buildCandidateMatchKeys c).contains normalized)

/-! ## TicketFlow model (src/unnamed/part_000)

The flow is modelled for one fixed session key (claims are per session); the
session store is an `Option TicketSession`.  `Date.now()` is modelled by the
monotone counter `World.now`.  The `Buffer` base64 re-encoding round-trip in
`uploadAttachment` is modelled as the identity on the sanitized string. -/

/-- The resolution role (`"solicitante" | "tecnico"`). -/
inductive Role where
  | solicitante
  | tecnico
deriving DecidableEq

/-- The literal role string. -/
def roleStr : Role → String
  | .solicitante => "solicitante"
  | .tecnico => "tecnico"

/-- A downloaded media payload. -/
structure MediaPayload where
  data : String
  mimetype : String
  filename : Option String
deriving DecidableEq

/-- An open disambiguation request. -/
structure PendingSelection where
  role : Role
  candidates : List GlpiUserCandidate
  pollMessageId : Option String
  awaitingPoll : Bool
deriving DecidableEq

/-- Per-conversation session state. -/
structure TicketSession where
  draft : Option TicketDraft
  ticketId : Option String
  attachments : List MediaPayload
  awaitingText : Bool
  uploadedCount : Nat
  resolvedRequesterId : Option String
  resolvedAssigneeId : Option String
  pendingSelection : Option PendingSelection
deriving DecidableEq

/-- The session created by a start command. -/
def freshSession : TicketSession :=
  { draft := none, ticketId := none, attachments := [], awaitingText := true,
    uploadedCount := 0, resolvedRequesterId := none, resolvedAssigneeId := none,
    pendingSelection := none }

deriving instance DecidableEq for Except

/-- Observable effects: outbound channel commands and backend calls. -/
inductive Effect where
  | reply (text : String)
  | react (emoji : String)
  | sendPoll (title : String) (options : List String) (allowMultiple : Bool)
      (result : Option String)
  | searchDni (dni : String) (result : Except String (List GlpiUserCandidate))
  | searchName (name : String) (strict : Bool) (result : List GlpiUserCandidate)
  | defaultRequesterLookup (result : Option String)
  | createTicket (ticketIdAtCall : Option String) (title : String)
      (content : String) (requesterId : String) (assigneeId : Option String)
      (result : Except String (Option String))
  | uploadDocument (ticketId : String) (media : MediaPayload) (filename : String)
      (base64 : String) (ok : Bool)
  | mediaReceived (media : MediaPayload)
deriving DecidableEq

/-- Static environment: configuration plus the deterministic search oracles. -/
structure Env where
  glpiEnabled : Bool
  defaultCategoryId : Int
  defaultCategoryName : Option String
  technicianByPhone : List (String × String)
  dniResults : String → Except String (List GlpiUserCandidate)
  nameResults : String → Bool → List GlpiUserCandidate
  defaultRequesterId : Option String
  hasSendPoll : Bool
  hasReact : Bool

/-- Consumable backend/channel oracles and the clock counter. -/
structure World where
  createResults : List (Except String (Option String))
  uploadResults : List Bool
  pollResults : List (Option String)
  mediaResults : List (Option MediaPayload)
  now : Nat
deriving DecidableEq

/-- Consume the next ticket-creation result. -/
def takeCreate (w : World) : Except String (Option String) × World :=
  match w.createResults with
  | [] => (.error "sin resultado", w)
  | r :: rest => (r, { w with createResults := rest })

/-- Consume the next upload result. -/
def takeUpload (w : World) : Bool × World :=
  match w.uploadResults with
  | [] => (false, w)
  | r :: rest => (r, { w with uploadResults := rest })

/-- Consume the next poll-delivery result. -/
def takePoll (w : World) : Option String × World :=
  match w.pollResults with
  | [] => (none, w)
  | r :: rest => (r, { w with pollResults := rest })

/-- Consume the next media-download result. -/
def takeMedia (w : World) : Option MediaPayload × World :=
  match w.mediaResults with
  | [] => (none, w)
  | r :: rest => (r, { w with mediaResults := rest })

/-- Model of `tryReact`: a best-effort reaction when the channel supports it. -/
def reactEff (env : Env) (emoji : String) : List Effect :=
  if env.hasReact then [.react emoji] else []

/-- Sender fields used by authorization and technician resolution. -/
structure SenderInfo where
  senderNumber : Option String
  senderLabel : Option String
deriving DecidableEq

/-- An inbound chat message for the modelled session key. -/
structure Msg where
  body : String
  senderNumber : Option String
  senderId : Option String
  senderLabel : Option String
  hasMedia : Bool
deriving DecidableEq

/-- An inbound poll vote for the modelled session key. -/
structure PollVote where
  senderNumber : Option String
  senderId : Option String
  senderLabel : Option String
  pollMessageId : Option String
  selectedOptionIds : List Int
  selectedOptionNames : List String
deriving DecidableEq

/-- The sender of a message. -/
def senderOfMsg (m : Msg) : SenderInfo := ⟨m.senderNumber, m.senderLabel⟩

/-- The sender of a poll vote. -/
def senderOfVote (v : PollVote) : SenderInfo := ⟨v.senderNumber, v.senderLabel⟩

/-- `START_COMMANDS` with their normalized forms. -/
def startCommands : List (String × String) :=
  [("INICIAR TICKET", normalizeText "INICIAR TICKET"),
   ("OPEN TCK", normalizeText "OPEN TCK")]

/-- `END_COMMANDS` with their normalized forms. -/
def endCommands : List (String × String) :=
  [("FINALIZAR TICKET", normalizeText "FINALIZAR TICKET"),
   ("CLOSE TCK", normalizeText "CLOSE TCK")]

/-- Model of `matchCommand`: the first command whose normalized form prefixes
the normalized body. -/
def matchCommand (normalizedBody : String) (commands : List (String × String)) :
    Option (String × String) :=
  commands.find? (fun c => c.2.data.isPrefixOf normalizedBody.data)

/-- Case-insensitive (ASCII) character comparison, the `i` regex flag. -/
def charCI (a b : Char) : Bool := toUpperChar a == toUpperChar b

/-- Match one command token case-insensitively; returns the rest on success. -/
def matchTokenCI : List Char → List Char → Option (List Char)
  | [], l => some l
  | _ :: _, [] => none
  | t :: ts, c :: cs => if charCI t c then matchTokenCI ts cs else none

/-- Require at least one whitespace character, then skip the run (`\s+`). -/
def skipWs1 : List Char → Option (List Char)
  | [] => none
  | c :: rest => if isJsWs c then some (rest.dropWhile isJsWs) else none

/-- Match the command tokens separated by `\s+`. -/
def matchCmdTokens : List String → List Char → Option (List Char)
  | [], l => some l
  | [t], l => matchTokenCI t.data l
  | t :: ts, l =>
    match matchTokenCI t.data l with
    | none => none
    | some r =>
      match skipWs1 r with
      | none => none
      | some r2 => matchCmdTokens ts r2

/-- Model of `stripCommandBody`: remove the leading
`^\s*TOK1\s+TOK2...\s*[:\-]?\s*` match (case-insensitive) and trim; an
unmatched body is only trimmed. -/
def stripCommandBody (body command : String) : String :=
  let tokens := wordsOf (trimS command)
  match matchCmdTokens tokens (body.data.dropWhile isJsWs) with
  | none => trimS body
  | some rest =>
    let r1 := rest.dropWhile isJsWs
    let r2 :=
      match r1 with
      | ':' :: r => r
      | '-' :: r => r
      | r => r
    trimS ⟨r2.dropWhile isJsWs⟩

/-- Model of `normalizePhone`: the digit characters, or `none` if there are
none (or no value). -/
def normalizePhone (v : Option String) : Option String :=
  match v with
  | none => none
  | some s =>
    let d := s.data.filter Char.isDigit
    if d.isEmpty then none else some ⟨d⟩

/-- Model of `normalizeName`: `normalizeText`, runs outside `[A-Z ]` to a
space, whitespace collapsed, trimmed. -/
def normalizeName (s : String) : String :=
  ⟨trimBoth (collapseWs (replaceRuns
    (fun c => !((65 ≤ c.toNat && c.toNat ≤ 90) || c == ' ')) ' '
    (normalizeText s).data))⟩

/-- Model of `buildTechnicianNameEntries`: `(normalized name, phone)` pairs,
skipping labels that normalize to the empty string. -/
def buildTechnicianNameEntries (m : List (String × String)) :
    List (String × String) :=
  m.filterMap (fun p =>
    let n := normalizeName p.2
    if n = "" then none else some (n, p.1))

/-- Model of `resolveSenderNumber`: direct phone, phone embedded in the
label, exact normalized-label match, then substring match against the
technician directory. -/
def resolveSenderNumber (env : Env) (s : SenderInfo) : Option String :=
  let direct :=
    match normalizePhone s.senderNumber with
    | some d => if strTruthy (strLookup env.technicianByPhone d) then some d else none
    | none => none
  match direct with
  | some d => some d
  | none =>
    let label := strOfOpt s.senderLabel
    let byLabelNumber :=
      match normalizePhone (some label) with
      | some d => if strTruthy (strLookup env.technicianByPhone d) then some d else none
      | none => none
    match byLabelNumber with
    | some d => some d
    | none =>
      let normalizedLabel := normalizeName label
      if normalizedLabel = "" then none
      else
        let entries := buildTechnicianNameEntries env.technicianByPhone
        match entries.find? (fun e => e.1 = normalizedLabel) with
        | some e => some e.2
        | none =>
          match entries.find? (fun e =>
            hasSub e.1.data normalizedLabel.data ||
            hasSub normalizedLabel.data e.1.data) with
          | some e => some e.2
          | none => none

/-- Model of `isAuthorizedSender`. -/
def isAuthorizedSender (env : Env) (s : SenderInfo) : Bool :=
  (resolveSenderNumber env s).isSome

/-- Model of `buildUnauthorizedMessage`. -/
def buildUnauthorizedMessage (env : Env) (s : SenderInfo) : String :=
  let resolved := resolveSenderNumber env s
  let fallbackNumber := normalizePhone s.senderNumber
  let mention := jsOr resolved fallbackNumber
  if strTruthy mention then
    "Lo lamento @" ++ strOfOpt mention ++ " tienes que estar en la lista de tecnicos."
  else
    let label := optTrim s.senderLabel
    "Lo lamento " ++ (if label ≠ "" then label else "@mencion") ++
      " tienes que estar en la lista de tecnicos."

/-- Model of `resolveTechnicianFromSender`. -/
def resolveTechnicianFromSender (env : Env) (s : SenderInfo) : Option String :=
  match resolveSenderNumber env s with
  | none => none
  | some num =>
    match strLookup env.technicianByPhone num with
    | some v => if v ≠ "" then some (trimS v) else none
    | none => none

/-- Model of `escapeHtml`, character-wise. -/
def escapeHtmlChar (c : Char) : List Char :=
  if c = '&' then "&amp;".data
  else if c = '<' then "&lt;".data
  else if c = '>' then "&gt;".data
  else if c.toNat = 34 then "&quot;".data
  else if c.toNat = 39 then "&#39;".data
  else [c]

/-- Model of `escapeHtml`. -/
def escapeHtml (s : String) : String := ⟨s.data.flatMap escapeHtmlChar⟩

/-- Model of `buildTicketTitle`: prefix plus problem, truncated to 250. -/
def buildTicketTitle (problem : String) : String :=
  let title := trimS ("Solicitud o incidente: " ++ problem)
  if 250 < title.data.length then ⟨title.data.take 250⟩ else title

/-- Model of `buildTicketContent`: the labeled HTML paragraph block. -/
def buildTicketContent (draft : TicketDraft) : String :=
  let labelStyle := "font-weight: bold; color: navy;"
  let solicitanteValue := strOfOpt draft.solicitante
  let dniValue := strOfOpt (jsOr draft.dni (extractDni solicitanteValue))
  let nombreValue := strOfOpt (jsOr draft.nombre
    (if dniValue = "" ∧ solicitanteValue ≠ "" then some solicitanteValue else none))
  let problema := escapeHtml (strOfOpt draft.problema)
  let categoria := escapeHtml (strOfOpt draft.categoria)
  let nombre := escapeHtml nombreValue
  let dni := escapeHtml dniValue
  let celular := escapeHtml (strOfOpt draft.celular)
  let correo := escapeHtml (strOfOpt draft.correo)
  let cargo := escapeHtml (strOfOpt draft.cargo)
  let dependencia := escapeHtml (strOfOpt draft.dependencia)
  let piso := escapeHtml (strOfOpt draft.piso)
  String.intercalate "\n"
    [s!"<p><span style=\"{labelStyle}\">Solicitud o incidente:</span> {problema}</p>",
     s!"<p><span style=\"{labelStyle}\">Sistema o bien:</span> {categoria}</p>",
     s!"<p><span style=\"{labelStyle}\">Nombre:</span> {nombre}</p>",
     s!"<p><span style=\"{labelStyle}\">N° DNI:</span> {dni}</p>",
     s!"<p><span style=\"{labelStyle}\">Celular:</span> {celular}</p>",
     s!"<p><span style=\"{labelStyle}\">Correo:</span> {correo}</p>",
     s!"<p><span style=\"{labelStyle}\">Cargo:</span> {cargo}</p>",
     s!"<p><span style=\"{labelStyle}\">Dependencia:</span> {dependencia}</p>",
     s!"<p><span style=\"{labelStyle}\">Piso:</span> {piso}</p>"]

/-- The media-type extension map of `deriveFilename`. -/
def extensionMap : List (String × String) :=
  [("image/jpeg", "jpg"), ("image/png", "png"), ("image/gif", "gif"),
   ("application/pdf", "pdf"),
   ("application/vnd.openxmlformats-officedocument.spreadsheetml.sheet", "xlsx"),
   ("application/vnd.ms-excel", "xls"),
   ("application/vnd.openxmlformats-officedocument.wordprocessingml.document", "docx"),
   ("application/msword", "doc"), ("text/plain", "txt")]

/-- Model of `deriveFilename`. -/
def deriveFilename (media : MediaPayload) (fallbackBase : String) : String :=
  if strTruthy media.filename then strOfOpt media.filename
  else fallbackBase ++ "." ++ (strLookup extensionMap media.mimetype).getD "bin"

/-- Model of `normalizeBase64Payload` up to the final `Buffer` re-encoding
round-trip, which is modelled as the identity on the sanitized string. -/
def normalizeBase64Payload (data : String) : String :=
  let t0 := trimS data
  let t1 :=
    match splitAtSub "base64,".data t0.data with
    | some (_, after) => after
    | none => t0.data
  let t2 := t1.filter (fun c => !isJsWs c)
  let t3 := t2.map (fun c => if c = '-' then '+' else if c = '_' then '/' else c)
  let padding := t3.length % 4
  ⟨if padding = 2 then t3 ++ ['=', '=']
    else if padding = 3 then t3 ++ ['=']
    else t3⟩

/-- Model of `applyResolvedCandidate` (src/unnamed/part_000 lines 900-953):
cache the resolved id and back-fill sparse draft fields from the candidate. -/
def applyResolvedCandidate (s : TicketSession) (role : Role)
    (c : GlpiUserCandidate) : TicketSession :=
  let name := formatCandidateName c
  match role with
  | .solicitante =>
    let s1 := { s with resolvedRequesterId := some c.id }
    match s1.draft with
    | none => s1
    | some d0 =>
      let d1 := { d0 with solicitante := some name }
      let d2 := if strTruthy d1.nombre then d1 else { d1 with nombre := some name }
      let d3 :=
        if strTruthy d2.dni then d2
        else
          match jsNullish (extractDni (strOfOpt c.dni)) (extractDni (strOfOpt c.login)) with
          | some dni => { d2 with dni := some dni }
          | none => d2
      let d4 :=
        if strTruthy d3.correo then d3
        else if strTruthy c.email then { d3 with correo := c.email } else d3
      let d5 :=
        if strTruthy d4.celular then d4
        else
          let mobile := optTrim c.mobile
          let phone := optTrim c.phone
          if mobile ≠ "" then { d4 with celular := some mobile }
          else if phone ≠ "" then { d4 with celular := some phone }
          else d4
      let d6 :=
        if strTruthy d5.cargo then d5
        else
          let cargo := strOr (optTrim c.category) (optTrim c.title)
          if cargo ≠ "" then { d5 with cargo := some cargo } else d5
      let d7 :=
        if strTruthy d6.dependencia then d6
        else
          let dependencia := strOr (optTrim c.location) (optTrim c.entity)
          if dependencia ≠ "" then { d6 with dependencia := some dependencia } else d6
      let d8 :=
        if !strTruthy d7.piso ∧ strTruthy c.floor then { d7 with piso := c.floor }
        else d7
      { s1 with draft := some d8 }
  | .tecnico =>
    let s1 := { s with resolvedAssigneeId := some c.id }
    match s1.draft with
    | none => s1
    | some d => { s1 with draft := some { d with asignado := some name } }

/-- Model of `pickCandidateFromPollVote`. -/
def pickCandidateFromPollVote (pending : PendingSelection) (v : PollVote) :
    Option GlpiUserCandidate :=
  let byIdx :=
    match v.selectedOptionIds with
    | idx :: _ =>
      if 0 ≤ idx ∧ idx < (pending.candidates.length : Int) then
        pending.candidates.get? idx.toNat
      else none
    | [] => none
  match byIdx with
  | some c => some c
  | none =>
    match v.selectedOptionNames with
    | n :: _ => matchCandidateInput n pending.candidates
    | [] => none

/-- Result of a sub-handler: updated session, world, emitted effects, value. -/
structure SubRV (α : Type) where
  session : TicketSession
  world : World
  eff : List Effect
  val : α

/-- Result of a top-level handler (the session may have been deleted). -/
structure StepR where
  world : World
  session : Option TicketSession
  eff : List Effect

/-- Model of `promptCandidateSelection` (src/unnamed/part_000 lines 825-868). -/
def promptCandidateSelection (env : Env) (s : TicketSession) (w : World)
    (role : Role) (candidates : List GlpiUserCandidate) : SubRV Unit :=
  if s.pendingSelection.isSome then ⟨s, w, [], ()⟩
  else
    let limited := candidates.take 10
    let roleLabel := roleStr role
    let optionNames := buildCandidateOptionNames limited
    let pq := if env.hasSendPoll then takePoll w else ((none : Option String), w)
    let pollEff :=
      if env.hasSendPoll then
        [Effect.sendPoll (s!"Selecciona {roleLabel} del ticket") optionNames false pq.1]
      else []
    let s2 := { s with pendingSelection := some ⟨role, limited, pq.1, false⟩ }
    match pq.1 with
    | some _ => ⟨s2, pq.2, reactEff env "🔎" ++ pollEff, ()⟩
    | none =>
      let lines := limited.enum.map
        (fun p => s!"{p.1 + 1}) {buildCandidateLabel p.2}")
      let suffix :=
        if limited.length < candidates.length then
          s!"\n(Mostrando {limited.length} de {candidates.length}. Si no esta en la lista, envia el DNI o un nombre mas especifico.)"
        else ""
      ⟨s2, pq.2, reactEff env "🔎" ++ pollEff ++
        [.reply ("No pude enviar la encuesta. Responde con el nombre completo o el numero de la lista:\n" ++
          String.intercalate "\n" lines ++ suffix)], ()⟩

/-- Model of `handleCandidateResults` (src/unnamed/part_000 lines 803-823). -/
def handleCandidateResults (env : Env) (s : TicketSession) (w : World)
    (role : Role) (candidates : List GlpiUserCandidate)
    (notFoundMessage : String) : SubRV (Option String) :=
  match candidates with
  | [] => ⟨s, w, reactEff env "❌" ++ [.reply notFoundMessage], none⟩
  | [c] => ⟨applyResolvedCandidate s role c, w, [], some c.id⟩
  | _ =>
    let r := promptCandidateSelection env s w role candidates
    ⟨r.session, r.world, r.eff, none⟩

/-- Model of `resolveUserId` (src/unnamed/part_000 lines 717-801). -/
def resolveUserId (env : Env) (s : TicketSession) (w : World) (value : String)
    (role : Role) (allowName : Bool) : SubRV (Option String) :=
  let cached :=
    match role with
    | .solicitante => s.resolvedRequesterId
    | .tecnico => s.resolvedAssigneeId
  match cached with
  | some id => ⟨s, w, [], some id⟩
  | none =>
    let trimmed := trimS value
    if trimmed = "" then
      match role with
      | .solicitante =>
        let fallback := env.defaultRequesterId
        let eff0 := [Effect.defaultRequesterLookup fallback]
        match fallback with
        | some id => ⟨{ s with resolvedRequesterId := some id }, w, eff0, some id⟩
        | none => ⟨s, w, eff0 ++ [.reply "Falta SOLICITANTE."], none⟩
      | .tecnico => ⟨s, w, [], none⟩
    else
      match extractDni trimmed with
      | some dni =>
        let res := env.dniResults dni
        let eff0 := [Effect.searchDni dni res]
        match res with
        | .ok candidates =>
          let r := handleCandidateResults env s w role candidates
            (s!"No se encontro {roleStr role} con DNI {dni}.")
          ⟨r.session, r.world, eff0 ++ r.eff, r.val⟩
        | .error e =>
          ⟨s, w, eff0 ++ [.reply (s!"Error al buscar DNI: {e}")], none⟩
      | none =>
        if !allowName then
          ⟨s, w,
            [.reply (s!"El {roleStr role} debe enviarse como DNI para asignacion exacta.")],
            none⟩
        else
          let tokens := wordsOf trimmed
          match role with
          | .solicitante =>
            if tokens.length < 2 then
              ⟨s, w, [.reply "Para el solicitante usa DNI o nombre y apellido."], none⟩
            else
              let c1 := env.nameResults trimmed true
              let (cands, effS) :=
                if c1.isEmpty then
                  (env.nameResults trimmed false,
                   [Effect.searchName trimmed true c1,
                    Effect.searchName trimmed false (env.nameResults trimmed false)])
                else (c1, [Effect.searchName trimmed true c1])
              let r := handleCandidateResults env s w .solicitante cands
                "No se encontro solicitante con ese nombre. Envia DNI."
              ⟨r.session, r.world, effS ++ r.eff, r.val⟩
          | .tecnico =>
            let strict := decide (2 ≤ tokens.length)
            let c1 := env.nameResults trimmed strict
            let (cands, effS) :=
              if c1.isEmpty && strict then
                (env.nameResults trimmed false,
                 [Effect.searchName trimmed strict c1,
                  Effect.searchName trimmed false (env.nameResults trimmed false)])
              else (c1, [Effect.searchName trimmed strict c1])
            let r := handleCandidateResults env s w .tecnico cands
              (s!"No se encontro tecnico con nombre \x27{trimmed}\x27. Envia DNI.")
            ⟨r.session, r.world, effS ++ r.eff, r.val⟩

/-- Model of `tryCreateTicket` (src/unnamed/part_000 lines 590-658): resolve
requester and assignee, then call the backend create operation; the ticket id
is stored only on success. -/
def tryCreateTicket (env : Env) (sender : SenderInfo) (s : TicketSession)
    (w : World) : SubRV Bool :=
  match s.draft with
  | none => ⟨s, w, [], false⟩
  | some draft0 =>
    if !env.glpiEnabled then
      ⟨s, w, reactEff env "❌" ++ [.reply "GLPI no esta configurado; ticket omitido."],
        false⟩
    else
      let requesterValue := strOfOpt draft0.solicitante
      let r1 := resolveUserId env s w requesterValue .solicitante true
      match r1.val with
      | none => ⟨r1.session, r1.world, r1.eff, false⟩
      | some requesterId =>
        let s1 := r1.session
        let draft1 := s1.draft.getD {}
        let assigneeValue := jsOr draft1.asignado (resolveTechnicianFromSender env sender)
        let afterAssignee : SubRV (Option (Option String)) :=
          if strTruthy assigneeValue then
            let r2 := resolveUserId env s1 r1.world (strOfOpt assigneeValue) .tecnico true
            match r2.val with
            | none => ⟨r2.session, r2.world, r2.eff, none⟩
            | some aid => ⟨r2.session, r2.world, r2.eff, some (some aid)⟩
          else ⟨s1, r1.world, [], some none⟩
        match afterAssignee.val with
        | none =>
          ⟨afterAssignee.session, afterAssignee.world, r1.eff ++ afterAssignee.eff, false⟩
        | some assigneeId =>
          let s2 := afterAssignee.session
          let draft2 := s2.draft.getD {}
          let title := buildTicketTitle (strOfOpt draft2.problema)
          let content := buildTicketContent draft2
          let tc := takeCreate afterAssignee.world
          let createEff :=
            [Effect.createTicket s2.ticketId title content requesterId assigneeId tc.1]
          match tc.1 with
          | .ok r =>
            if strTruthy r then
              ⟨{ s2 with ticketId := some (strOfOpt r) }, tc.2,
                r1.eff ++ afterAssignee.eff ++ createEff ++
                  [.reply (s!"Ticket creado. ID: {strOfOpt r}")] ++ reactEff env "🎫",
                true⟩
            else
              ⟨s2, tc.2,
                r1.eff ++ afterAssignee.eff ++ createEff ++ reactEff env "❌" ++
                  [.reply "GLPI no devolvio ID de ticket."],
                false⟩
          | .error e =>
            ⟨s2, tc.2,
              r1.eff ++ afterAssignee.eff ++ createEff ++ reactEff env "❌" ++
                [.reply (s!"Error al crear ticket: {e}")],
              false⟩

/-- Result of one attachment upload. -/
structure UploadR where
  world : World
  eff : List Effect
  ok : Bool

/-- Model of `uploadAttachment` (src/unnamed/part_000 lines 987-1010).
`Date.now()` is the counter `w.now`. -/
def uploadAttachment (w : World) (ticketId : String)
    (media : MediaPayload) : UploadR :=
  let filename := deriveFilename media (s!"whatsapp-{w.now}")
  let sanitized := normalizeBase64Payload media.data
  let p := takeUpload { w with now := w.now + 1 }
  ⟨p.2, [Effect.uploadDocument ticketId media filename sanitized p.1], p.1⟩

/-- The upload loop of `uploadPendingAttachments`: upload in order, count
successes, continue past failures. -/
def uploadLoop (env : Env) (tid : String) :
    List MediaPayload → TicketSession → World → SubRV Unit
  | [], s, w => ⟨s, w, [], ()⟩
  | m :: rest, s, w =>
    let u := uploadAttachment w tid m
    let s1 := if u.ok then { s with uploadedCount := s.uploadedCount + 1 } else s
    let r := uploadLoop env tid rest s1 u.world
    ⟨r.session, r.world, u.eff ++ r.eff, ()⟩

/-- Model of `uploadPendingAttachments` (src/unnamed/part_000 lines 971-985):
the queue is copied and emptied first, then its items are uploaded. -/
def uploadPendingAttachments (env : Env) (s : TicketSession) (w : World) :
    SubRV Unit :=
  match s.ticketId with
  | none => ⟨s, w, [], ()⟩
  | some tid =>
    if s.attachments.isEmpty then ⟨s, w, [], ()⟩
    else
      let attachments := s.attachments
      uploadLoop env tid attachments { s with attachments := [] } w

/-- Model of `handleMedia` (src/unnamed/part_000 lines 524-553).  The
`mediaReceived` effect is model instrumentation marking a successfully
downloaded attachment. -/
def handleMedia (env : Env) (s : TicketSession) (w : World) : SubRV Unit :=
  let p := takeMedia w
  match p.1 with
  | none =>
    ⟨s, p.2, reactEff env "❌" ++ [.reply "No pude descargar el archivo adjunto."], ()⟩
  | some media =>
    let recEff := [Effect.mediaReceived media]
    match s.ticketId with
    | none =>
      ⟨{ s with attachments := s.attachments ++ [media] }, p.2,
        recEff ++ reactEff env "📎" ++
          (if s.awaitingText then
            [.reply "Archivo recibido. Envia primero los datos del ticket para poder adjuntarlo."]
          else []), ()⟩
    | some tid =>
      let u := uploadAttachment p.2 tid media
      if u.ok then
        ⟨{ s with uploadedCount := s.uploadedCount + 1 }, u.world,
          recEff ++ u.eff ++ reactEff env "📎", ()⟩
      else ⟨s, u.world, recEff ++ u.eff ++ reactEff env "❌", ()⟩

/-- A field of the previous draft (`session.draft?.field`). -/
def oldField (old : Option TicketDraft) (f : TicketDraft → Option String) :
    Option String :=
  match old with
  | some d => f d
  | none => none

/-- The draft merge of `handleText` (src/unnamed/part_000 lines 485-502): a
field supplied by the parse wins, otherwise the previous value is kept. -/
def mergeParsedDraft (parsed : TicketDraft) (old : Option TicketDraft) :
    TicketDraft :=
  let mergedSolicitante := jsOr parsed.solicitante (oldField old (fun d => d.solicitante))
  let mergedProblema := jsOr parsed.problema (oldField old (fun d => d.problema))
  { solicitante := mergedSolicitante
    asignado := jsOr parsed.asignado (oldField old (fun d => d.asignado))
    problema := mergedProblema
    categoria := jsOr parsed.categoria (oldField old (fun d => d.categoria))
    nombre := jsOr parsed.nombre (oldField old (fun d => d.nombre))
    dni := jsOr parsed.dni (oldField old (fun d => d.dni))
    celular := jsOr parsed.celular (oldField old (fun d => d.celular))
    correo := jsOr parsed.correo (oldField old (fun d => d.correo))
    cargo := jsOr parsed.cargo (oldField old (fun d => d.cargo))
    dependencia := jsOr parsed.dependencia (oldField old (fun d => d.dependencia))
    piso := jsOr parsed.piso (oldField old (fun d => d.piso))
    rawText := parsed.rawText
    isComplete := strTruthy mergedSolicitante && strTruthy mergedProblema }

/-- The session mutation of `handleText` for a recognized parse
(src/unnamed/part_000 lines 478-506): invalidate stale resolved identities,
merge the draft, default the category, clear `awaitingText`. -/
def applyParsedToSession (env : Env) (parsed : TicketDraft) (s : TicketSession) :
    TicketSession :=
  let s1 :=
    if strTruthy parsed.solicitante ∧
        parsed.solicitante ≠ oldField s.draft (fun d => d.solicitante) then
      { s with resolvedRequesterId := none }
    else s
  let s2 :=
    if strTruthy parsed.asignado ∧
        parsed.asignado ≠ oldField s.draft (fun d => d.asignado) then
      { s1 with resolvedAssigneeId := none }
    else s1
  let d := mergeParsedDraft parsed s.draft
  let d1 :=
    if !strTruthy d.categoria ∧ strTruthy env.defaultCategoryName then
      { d with categoria := env.defaultCategoryName }
    else d
  { s2 with draft := some d1, awaitingText := false }

/-- Model of `handleText` (src/unnamed/part_000 lines 462-522). -/
def handleText (env : Env) (m : Msg) (s : TicketSession) (w : World)
    (bodyOverride : Option String) : SubRV Unit :=
  match parseTicketText (bodyOverride.getD m.body) with
  | none =>
    if s.awaitingText then
      ⟨s, w, reactEff env "⚠️" ++
        [.reply "No pude reconocer el formato. Usa SOLICITANTE, ASIGNADO y PROBLEMA, o el formato \x27solicitante - tecnico => problema\x27."],
        ()⟩
    else ⟨s, w, [], ()⟩
  | some parsed =>
    let s1 := applyParsedToSession env parsed s
    if !(s1.draft.getD {}).isComplete then
      ⟨s1, w, reactEff env "⚠️" ++
        [.reply "Faltan datos. Necesito al menos SOLICITANTE y PROBLEMA."], ()⟩
    else
      match s1.ticketId with
      | some _ => ⟨s1, w, [], ()⟩
      | none =>
        let r := tryCreateTicket env (senderOfMsg m) s1 w
        if r.val then
          let r2 := uploadPendingAttachments env r.session r.world
          ⟨r2.session, r2.world, r.eff ++ r2.eff, ()⟩
        else ⟨r.session, r.world, r.eff, ()⟩

/-- The tail of `finalizeSession` after a ticket exists: flush attachments,
report, destroy the session. -/
def finishFinalize (env : Env) (s : TicketSession) (w : World)
    (eff0 : List Effect) : StepR :=
  let r2 := uploadPendingAttachments env s w
  let s2 := r2.session
  let replyText :=
    if strTruthy s2.ticketId then
      s!"Ticket finalizado. ID: {strOfOpt s2.ticketId}" ++
        (if 0 < s2.uploadedCount then s!" (adjuntos: {s2.uploadedCount})" else "")
    else "Ticket finalizado."
  ⟨r2.world, none, eff0 ++ r2.eff ++ [.reply replyText] ++ reactEff env "✅"⟩

/-- Model of `finalizeSession` (src/unnamed/part_000 lines 555-588). -/
def finalizeSession (env : Env) (sender : SenderInfo) (s : TicketSession)
    (w : World) : StepR :=
  let complete :=
    match s.draft with
    | some d => d.isComplete
    | none => false
  if !complete then
    ⟨w, none, reactEff env "⚠️" ++
      [.reply "No hay datos completos para crear el ticket. Envia SOLICITANTE y PROBLEMA."]⟩
  else
    match s.ticketId with
    | none =>
      let r := tryCreateTicket env sender s w
      if !r.val then ⟨r.world, some r.session, r.eff⟩
      else finishFinalize env r.session r.world r.eff
    | some _ => finishFinalize env s w []

/-- Model of `resolvePendingSelection` (src/unnamed/part_000 lines 870-898). -/
def resolvePendingSelection (env : Env) (s : TicketSession) (w : World)
    (selectionBody : String) : SubRV Bool :=
  match s.pendingSelection with
  | none => ⟨s, w, [], false⟩
  | some pending =>
    let input := trimS selectionBody
    if input = "" then ⟨s, w, [], false⟩
    else
      match matchCandidateInput input pending.candidates with
      | none =>
        ⟨s, w, reactEff env "⚠️" ++
          [.reply (s!"No pude identificar al {roleStr pending.role}. Responde con el nombre completo exacto o el numero de la lista.")],
          false⟩
      | some candidate =>
        let s1 := applyResolvedCandidate s pending.role candidate
        let s2 := { s1 with pendingSelection := none }
        let roleLabel :=
          match pending.role with
          | .solicitante => "Solicitante"
          | .tecnico => "Tecnico"
        ⟨s2, w,
          [.reply (s!"{roleLabel} seleccionado: {formatCandidateName candidate}.")] ++
            reactEff env "✅", true⟩

/-- Is the draft complete (`session.draft?.isComplete`)? -/
def draftComplete (s : TicketSession) : Bool :=
  match s.draft with
  | some d => d.isComplete
  | none => false

/-- Model of `handlePollVote` (src/unnamed/part_000 lines 421-460). -/
def handlePollVote (env : Env) (w : World) (sess : Option TicketSession)
    (v : PollVote) : StepR :=
  match sess with
  | none => ⟨w, none, []⟩
  | some s =>
    match s.pendingSelection with
    | none => ⟨w, some s, []⟩
    | some pending =>
      if !strTruthy pending.pollMessageId then ⟨w, some s, []⟩
      else if !strTruthy v.pollMessageId || pending.pollMessageId ≠ v.pollMessageId then
        ⟨w, some s, []⟩
      else
        match pickCandidateFromPollVote pending v with
        | none =>
          ⟨w, some s,
            [.reply (s!"No pude identificar al {roleStr pending.role}. Responde nuevamente la encuesta.")]⟩
        | some candidate =>
          let s1 := applyResolvedCandidate s pending.role candidate
          let s2 := { s1 with pendingSelection := none }
          let roleLabel :=
            match pending.role with
            | .solicitante => "Solicitante"
            | .tecnico => "Tecnico"
          let eff0 :=
            [Effect.reply (s!"{roleLabel} seleccionado: {formatCandidateName candidate}.")]
          if draftComplete s2 && s2.ticketId.isNone then
            let r := tryCreateTicket env (senderOfVote v) s2 w
            if r.val then
              let r2 := uploadPendingAttachments env r.session r.world
              ⟨r2.world, some r2.session, eff0 ++ r.eff ++ r2.eff⟩
            else ⟨r.world, some r.session, eff0 ++ r.eff⟩
          else ⟨w, some s2, eff0⟩

/-- The start-command branch of `handleMessage` (src/unnamed/part_000 lines
321-348): fresh session, acknowledgement, optional first data and media. -/
def handleStart (env : Env) (w : World) (m : Msg) (startCmd : String × String) :
    StepR :=
  let s0 := freshSession
  let startBody := stripCommandBody m.body startCmd.1
  let r1 : SubRV Unit :=
    if startBody = "" then
      ⟨s0, w,
        [Effect.reply "Ticket iniciado. Envia los datos (por ejemplo: SOLICITANTE: 73872028, ASIGNADO: 12345678, PROBLEMA: ...). Luego envia los archivos y termina con FINALIZAR TICKET o CLOSE TCK."],
        ()⟩
    else handleText env m s0 w (some startBody)
  let r2 : SubRV Unit :=
    if m.hasMedia then handleMedia env r1.session r1.world
    else ⟨r1.session, r1.world, [], ()⟩
  ⟨r2.world, some r2.session, reactEff env "🟢" ++ r1.eff ++ r2.eff⟩

/-- The branch of `handleMessage` for a session with an open pending
selection (src/unnamed/part_000 lines 357-403). -/
def handlePendingBranch (env : Env) (w : World) (s : TicketSession) (m : Msg)
    (pending : PendingSelection) (endCmd : Option (String × String)) : StepR :=
  let isEnd := endCmd.isSome
  let rM : SubRV Unit :=
    if m.hasMedia then handleMedia env s w else ⟨s, w, [], ()⟩
  if pending.awaitingPoll then
    ⟨rM.world, some rM.session, rM.eff ++
      (if isEnd then
        [Effect.reply "Antes de finalizar, responde la encuesta para seleccionar el solicitante o tecnico."]
      else [])⟩
  else if strTruthy pending.pollMessageId then
    ⟨rM.world, some rM.session, rM.eff ++
      (if isEnd then
        [Effect.reply "Antes de finalizar, responde la encuesta para seleccionar el solicitante o tecnico."]
      else [])⟩
  else
    let selectionBody :=
      match endCmd with
      | some cmd => stripCommandBody m.body cmd.1
      | none => m.body
    let r := resolvePendingSelection env rM.session rM.world selectionBody
    if !r.val then
      ⟨r.world, some r.session, rM.eff ++ r.eff ++
        (if isEnd then
          [Effect.reply "Antes de finalizar, selecciona el solicitante o tecnico indicado."]
        else [])⟩
    else
      let rC : SubRV Unit :=
        if draftComplete r.session && r.session.ticketId.isNone then
          let rc := tryCreateTicket env (senderOfMsg m) r.session r.world
          if rc.val then
            let ru := uploadPendingAttachments env rc.session rc.world
            ⟨ru.session, ru.world, rc.eff ++ ru.eff, ()⟩
          else ⟨rc.session, rc.world, rc.eff, ()⟩
        else ⟨r.session, r.world, [], ()⟩
      if isEnd then
        let f := finalizeSession env (senderOfMsg m) rC.session rC.world
        ⟨f.world, f.session, rM.eff ++ r.eff ++ rC.eff ++ f.eff⟩
      else ⟨rC.world, some rC.session, rM.eff ++ r.eff ++ rC.eff⟩

/-- Model of `handleMessage` (src/unnamed/part_000 lines 301-419). -/
def handleMessage (env : Env) (w : World) (sess : Option TicketSession)
    (m : Msg) : StepR :=
  let normalized := normalizeText m.body
  let startCmd := matchCommand normalized startCommands
  let endCmd := matchCommand normalized endCommands
  let isEnd := endCmd.isSome
  if !isAuthorizedSender env (senderOfMsg m) then
    ⟨w, none,
      if startCmd.isSome then [.reply (buildUnauthorizedMessage env (senderOfMsg m))]
      else []⟩
  else
    match startCmd with
    | some cmd => handleStart env w m cmd
    | none =>
      match sess with
      | none =>
        ⟨w, none, if isEnd then [.reply "No hay un ticket en progreso."] else []⟩
      | some s =>
        match s.pendingSelection with
        | some pending => handlePendingBranch env w s m pending endCmd
        | none =>
          if m.hasMedia then
            let r := handleMedia env s w
            if isEnd then
              let f := finalizeSession env (senderOfMsg m) r.session r.world
              ⟨f.world, f.session, r.eff ++ f.eff⟩
            else ⟨r.world, some r.session, r.eff⟩
          else if isEnd then
            finalizeSession env (senderOfMsg m) s w
          else
            let r := handleText env m s w none
            ⟨r.world, some r.session, r.eff⟩

/-- An inbound event for the modelled session key. -/
inductive Event where
  | msg (m : Msg)
  | vote (v : PollVote)

/-- Process one event, accumulating emitted effects. -/
def stepE (env : Env) (st : StepR) (e : Event) : StepR :=
  match e with
  | .msg m =>
    let r := handleMessage env st.world st.session m
    ⟨r.world, r.session, st.eff ++ r.eff⟩
  | .vote v =>
    let r := handlePollVote env st.world st.session v
    ⟨r.world, r.session, st.eff ++ r.eff⟩

/-- Process a list of events in arrival order. -/
def runEvents (env : Env) (st : StepR) (events : List Event) : StepR :=
  events.foldl (stepE env) st

/-- Is this event a start command? -/
def isStartEvent (e : Event) : Bool :=
  match e with
  | .msg m => (matchCommand (normalizeText m.body) startCommands).isSome
  | .vote _ => false

/-! ## Trace observations -/

/-- The `createTicket` backend calls of a trace: the session ticket id at the
call and the call's result. -/
def createsOf (eff : List Effect) : List (Option String × Except String (Option String)) :=
  eff.filterMap (fun e =>
    match e with
    | .createTicket atCall _ _ _ _ res => some (atCall, res)
    | _ => none)

/-- Number of successful `createTicket` calls in a trace. -/
def createSuccCount (eff : List Effect) : Nat :=
  (createsOf eff).countP (fun p =>
    match p.2 with
    | .ok r => strTruthy r
    | .error _ => false)

/-- Every `createTicket` call in the trace happened with no ticket id set. -/
def createsGuarded (eff : List Effect) : Bool :=
  (createsOf eff).all (fun p => p.1.isNone)

/-- The uploaded media payloads of a trace, in call order. -/
def uploadsOf (eff : List Effect) : List MediaPayload :=
  eff.filterMap (fun e =>
    match e with
    | .uploadDocument _ media _ _ _ => some media
    | _ => none)

/-- Number of successful upload calls in a trace. -/
def uploadOkCount (eff : List Effect) : Nat :=
  eff.countP (fun e =>
    match e with
    | .uploadDocument _ _ _ _ ok => ok
    | _ => false)

/-- Number of successfully downloaded attachments in a trace. -/
def receivedCount (eff : List Effect) : Nat :=
  eff.countP (fun e =>
    match e with
    | .mediaReceived _ => true
    | _ => false)

/-! ## GLPI request retry model (src/glpi.ts lines 405-479)

A request attempt is abstracted as a `GlpiResponse` drawn in order from a
list (the network oracle).  The model returns the request outcome, the number
of attempts made, and whether the cached session token was cleared (the
source also nulls the in-flight session promise and the cached profiles at
the same point). -/

/-- One HTTP response as observed by `request`. -/
structure GlpiResponse where
  ok : Bool
  status : Nat
  text : String
deriving DecidableEq

/-- The method and path of a request (used only in error messages). -/
structure GlpiReq where
  method : String
  path : String
deriving DecidableEq

/-- Model of `String.prototype.includes`. -/
def strIncludes (s pat : String) : Bool := hasSub pat.data s.data

/-- The invalid-session test of `request`/`requestForSearch`. -/
def isInvalidSession (r : GlpiResponse) : Bool :=
  strIncludes r.text "ERROR_SESSION_TOKEN_INVALID" ||
  strIncludes r.text "ERROR_SESSION_EXPIRED" ||
  r.status == 401

/-- The error message thrown for a failed response. -/
def glpiErrMsg (req : GlpiReq) (r : GlpiResponse) : String :=
  s!"GLPI {req.method} {req.path} fallo ({r.status}): " ++
    (if r.text = "" then "sin cuerpo" else r.text)

/-- Model of `GlpiClient.request`: outcome, attempts used, token cleared.
`none` means the oracle ran out of responses. -/
def requestModel (req : GlpiReq) :
    List GlpiResponse → Bool → Option (Except String String × Nat × Bool)
  | [], _ => none
  | r :: rest, retry =>
    if r.ok then some (.ok r.text, 1, false)
    else if isInvalidSession r && retry then
      match requestModel req rest false with
      | none => none
      | some (out, n, _) => some (out, n + 1, true)
    else some (.error (glpiErrMsg req r), 1, false)

/-- Model of `GlpiClient.requestForSearch`: with no search profile configured
it delegates to `request`; otherwise the same single-retry discipline applies
to the search-profile session token. -/
def requestForSearchModel (req : GlpiReq) (hasSearchProfile : Bool) :
    List GlpiResponse → Bool → Option (Except String String × Nat × Bool)
  | rs, retry =>
    if !hasSearchProfile then requestModel req rs retry
    else
      match rs, retry with
      | [], _ => none
      | r :: rest, retry' =>
        if r.ok then some (.ok r.text, 1, false)
        else if isInvalidSession r && retry' then
          match requestForSearchModel req hasSearchProfile rest false with
          | none => none
          | some (out, n, _) => some (out, n + 1, true)
        else some (.error (glpiErrMsg req r), 1, false)

/-! ## Claim C2: draft merge semantics -/

/-- Field projection for stating per-field merge facts. -/
def fieldGet : TicketField → TicketDraft → Option String
  | .solicitante, d => d.solicitante
  | .asignado, d => d.asignado
  | .problema, d => d.problema
  | .categoria, d => d.categoria
  | .nombre, d => d.nombre
  | .dni, d => d.dni
  | .celular, d => d.celular
  | .correo, d => d.correo
  | .cargo, d => d.cargo
  | .dependencia, d => d.dependencia
  | .piso, d => d.piso

/-- A neutral environment for concrete counterexamples and witnesses. -/
def envForTests : Env :=
  { glpiEnabled := false, defaultCategoryId := 0, defaultCategoryName := none,
    technicianByPhone := [],
    dniResults := fun _ => .ok [],
    nameResults := fun _ _ => [],
    defaultRequesterId := none, hasSendPoll := false, hasReact := false }

/-- An empty oracle world for concrete counterexamples and witnesses. -/
def worldEmpty : World :=
  { createResults := [], uploadResults := [], pollResults := [],
    mediaResults := [], now := 0 }

/-- A session holding a draft whose problem field is already set. -/
def sessionWithProblema : TicketSession :=
  { freshSession with
    draft := some { solicitante := some "JUAN PEREZ", problema := some "NO IMPRIME", rawText := "JUAN PEREZ - NO IMPRIME", isComplete := true } }

/-! ## Trace observation lemmas -/

/-- No `searchDni` call occurs in the trace. -/
def noSearchDni (eff : List Effect) : Bool :=
  eff.all (fun e =>
    match e with
    | .searchDni _ _ => false
    | _ => true)

/-- Candidate fixture for the disambiguation counterexample. -/
def cexC1 : GlpiUserCandidate :=
  { id := "101", login := some "jperez", firstname := some "Juan",
    realname := some "Perez" }

/-- Second candidate fixture for the disambiguation counterexample. -/
def cexC2 : GlpiUserCandidate :=
  { id := "102", login := some "mlopez", firstname := some "Maria",
    realname := some "Lopez" }

/-- An open two-candidate pending selection over the fixtures. -/
def cexPending : PendingSelection :=
  { role := .solicitante, candidates := [cexC1, cexC2], pollMessageId := none,
    awaitingPoll := false }

/-- A session with the fixture pending selection open. -/
def cexSession : TicketSession :=
  { freshSession with pendingSelection := some cexPending }

/-- An unauthorized start-command message fixture. -/
def msgUnauthStart : Msg :=
  { body := "INICIAR TICKET", senderNumber := some "51999888777",
    senderId := none, senderLabel := none, hasMedia := false }

/-- The create-at-most-once step invariant: all `createTicket` calls so far
were made with no ticket id on the session, at most one succeeded, and a live
session without a ticket id means none has succeeded yet. -/
def InvC1 (st : StepR) : Prop :=
  createsGuarded st.eff = true ∧
  createSuccCount st.eff ≤ 1 ∧
  (∀ s, st.session = some s → s.ticketId = none → createSuccCount st.eff = 0)

/-- A plain text message fixture (no start or end command). -/
def msgHola : Msg :=
  { body := "hola", senderNumber := some "51999888777", senderId := none,
    senderLabel := none, hasMedia := false }

/-! ### C10: attachments uploaded exactly once, counter and queue accounting -/

/-- Attachment-queue length of an optional session. -/
def queueLen : Option TicketSession → Nat
  | some s => s.attachments.length
  | none => 0

/-- Uploaded counter of an optional session. -/
def oldUploaded : Option TicketSession → Nat
  | some s => s.uploadedCount
  | none => 0

/-- The upload-accounting step invariant: uploads plus the still-queued
attachments never exceed the attachments received, successful uploads never
exceed upload attempts, and the session counter never exceeds the successful
uploads. -/
def InvC10 (st : StepR) : Prop :=
  (uploadsOf st.eff).length + queueLen st.session ≤ receivedCount st.eff ∧
  uploadOkCount st.eff ≤ (uploadsOf st.eff).length ∧
  (∀ s, st.session = some s → s.uploadedCount ≤ uploadOkCount st.eff)

/-- A media payload fixture for upload witnesses. -/
def mediaFix : MediaPayload :=
  { data := "QUJD", mimetype := "application/pdf", filename := none }

/-- A session with an open ticket and one buffered attachment. -/
def sessionWithTicket : TicketSession :=
  { freshSession with ticketId := some "77", attachments := [mediaFix] }

/-! ## Lemmas about the character pipeline -/

theorem tableLookup_mem {β : Type} (t : List (Char × β)) (c : Char) (v : β)
    (h : tableLookup t c = some v) : (c, v) ∈ t := by
  induction t with
  | nil => simp [tableLookup] at h
  | cons kv rest ih =>
    obtain ⟨k, w⟩ := kv
    by_cases hc : c = k
    · subst hc
      simp [tableLookup] at h
      simp [h]
    · simp [tableLookup, hc] at h
      exact List.mem_cons_of_mem _ (ih h)

theorem nfdTable_keys_big : ∀ kv ∈ nfdTable, 190 < kv.1.toNat := by decide

theorem nfdTable_out :
    ∀ kv ∈ nfdTable, ∀ d ∈ kv.2,
      isCombiningMark d = true ∨
      (65 ≤ d.toNat ∧ d.toNat ≤ 90) ∨ (97 ≤ d.toNat ∧ d.toNat ≤ 122) := by
  decide

theorem tableLookup_none_of_small (c : Char) (h : c.toNat ≤ 190) :
    tableLookup nfdTable c = none := by
  cases heq : tableLookup nfdTable c with
  | none => rfl
  | some v =>
    have hbig : 190 < c.toNat := nfdTable_keys_big (c, v) (tableLookup_mem _ _ _ heq)
    omega

theorem nfdChar_of_lookup_none (c : Char) (h : tableLookup nfdTable c = none) :
    nfdChar c = [c] := by
  simp [nfdChar, h]

theorem isJsWs_false_of_alpha (c : Char) (h1 : 65 ≤ c.toNat) (h2 : c.toNat ≤ 122) :
    isJsWs c = false := by
  simp only [isJsWs, Bool.or_eq_false_iff, beq_eq_false_iff_ne, ne_eq,
    Bool.and_eq_false_iff, decide_eq_false_iff_not, not_le]
  omega

theorem isCombiningMark_false_of_small (c : Char) (h : c.toNat ≤ 767) :
    isCombiningMark c = false := by
  simp only [isCombiningMark, Bool.and_eq_false_iff, decide_eq_false_iff_not, not_le]
  omega

theorem char_toNat_ofNat_valid (n : Nat) (h : n < 55296) :
    (Char.ofNat n).toNat = n := by
  have hv : n.isValidChar := Or.inl h
  simp only [Char.ofNat, hv, dite_true, Char.ofNatAux, Char.toNat, UInt32.toNat]
  simp

theorem toUpperChar_cases (c : Char) :
    toUpperChar c = c ∨
    (97 ≤ c.toNat ∧ c.toNat ≤ 122 ∧ (toUpperChar c).toNat = c.toNat - 32) := by
  by_cases h : 97 ≤ c.toNat ∧ c.toNat ≤ 122
  · right
    refine ⟨h.1, h.2, ?_⟩
    simp only [toUpperChar, h, if_true]
    exact char_toNat_ofNat_valid _ (by omega)
  · left
    simp [toUpperChar, h]

theorem isJsWs_toUpperChar (c : Char) : isJsWs (toUpperChar c) = isJsWs c := by
  rcases toUpperChar_cases c with h | ⟨h1, h2, h3⟩
  · rw [h]
  · rw [isJsWs_false_of_alpha _ (by omega) (by omega),
      isJsWs_false_of_alpha _ (by omega) (by omega)]

theorem toUpperChar_eq_self_of_not (c : Char)
    (h : ¬(97 ≤ c.toNat ∧ c.toNat ≤ 122)) : toUpperChar c = c := by
  simp [toUpperChar, h]

theorem toUpperChar_idem (c : Char) : toUpperChar (toUpperChar c) = toUpperChar c := by
  rcases toUpperChar_cases c with h | ⟨h1, h2, h3⟩
  · rw [h]
    exact h
  · exact toUpperChar_eq_self_of_not _ (by omega)

/-- A character that is no combining mark, no JS whitespace and absent from the
NFD table stays clean under the ASCII case map: the result decomposes to
itself, is no mark, no whitespace, and is a fixed point of the case map. -/
theorem clean_of_base (d : Char) (hmark : isCombiningMark d = false)
    (hws : isJsWs d = false) (hlk : tableLookup nfdTable d = none) :
    nfdChar (toUpperChar d) = [toUpperChar d] ∧
    isCombiningMark (toUpperChar d) = false ∧
    toUpperChar (toUpperChar d) = toUpperChar d ∧
    (isJsWs (toUpperChar d) = true → toUpperChar d = ' ') := by
  rcases toUpperChar_cases d with h | ⟨h1, h2, h3⟩
  · rw [h]
    exact ⟨nfdChar_of_lookup_none _ hlk, hmark, by rw [h], fun hw => by rw [hw] at hws; cases hws⟩
  · refine ⟨nfdChar_of_lookup_none _ (tableLookup_none_of_small _ (by omega)),
      isCombiningMark_false_of_small _ (by omega), toUpperChar_idem d, fun hw => ?_⟩
    rw [isJsWs_false_of_alpha _ (by omega) (by omega)] at hw
    cases hw

/-! ### replaceRuns lemmas -/

theorem replaceRuns_mem (p : Char → Bool) (r : Char) :
    ∀ l : List Char, ∀ c ∈ replaceRuns p r l, c = r ∨ (c ∈ l ∧ p c = false) := by
  intro l
  induction l with
  | nil => intro c hc; simp [replaceRuns] at hc
  | cons a tl ih =>
    cases tl with
    | nil =>
      intro c hc
      by_cases ha : p a = true
      · simp [replaceRuns, ha] at hc
        exact Or.inl hc
      · simp [replaceRuns, ha] at hc
        subst hc
        exact Or.inr ⟨by simp, by simp [ha]⟩
    | cons b rest =>
      intro c hc
      by_cases hab : (p a && p b) = true
      · rw [show replaceRuns p r (a :: b :: rest) = replaceRuns p r (b :: rest) by
          simp [replaceRuns, hab]] at hc
        rcases ih c hc with h | ⟨hm, hp⟩
        · exact Or.inl h
        · exact Or.inr ⟨List.mem_cons_of_mem _ hm, hp⟩
      · rw [show replaceRuns p r (a :: b :: rest) =
            (if p a then r else a) :: replaceRuns p r (b :: rest) by
          simp [replaceRuns, hab]] at hc
        rcases List.mem_cons.mp hc with h | h
        · by_cases ha : p a = true
          · simp [ha] at h; exact Or.inl h
          · simp [ha] at h; subst h; exact Or.inr ⟨by simp, by simp [ha]⟩
        · rcases ih c h with h' | ⟨hm, hp⟩
          · exact Or.inl h'
          · exact Or.inr ⟨List.mem_cons_of_mem _ hm, hp⟩

theorem replaceRuns_head_of_not (p : Char → Bool) (r : Char) (b : Char)
    (rest : List Char) (hb : p b = false) :
    ∃ t, replaceRuns p r (b :: rest) = b :: t := by
  cases rest with
  | nil => exact ⟨[], by simp [replaceRuns, hb]⟩
  | cons c rest' => exact ⟨replaceRuns p r (c :: rest'), by simp [replaceRuns, hb]⟩

theorem noDoubleRun_cons_of (p : Char → Bool) (x : Char) (l : List Char)
    (hl : noDoubleRun p l = true)
    (hx : ∀ y t, l = y :: t → (p x && p y) = false) :
    noDoubleRun p (x :: l) = true := by
  cases l with
  | nil => simp [noDoubleRun]
  | cons y t => simp [noDoubleRun, hx y t rfl, hl]

theorem replaceRuns_noDouble (p : Char → Bool) (r : Char) :
    ∀ l : List Char, noDoubleRun p (replaceRuns p r l) = true := by
  intro l
  induction l with
  | nil => simp [replaceRuns, noDoubleRun]
  | cons a tl ih =>
    cases tl with
    | nil =>
      by_cases ha : p a = true <;> simp [replaceRuns, ha, noDoubleRun]
    | cons b rest =>
      by_cases hab : (p a && p b) = true
      · rw [show replaceRuns p r (a :: b :: rest) = replaceRuns p r (b :: rest) by
          simp [replaceRuns, hab]]
        exact ih
      · rw [show replaceRuns p r (a :: b :: rest) =
            (if p a then r else a) :: replaceRuns p r (b :: rest) by
          simp [replaceRuns, hab]]
        by_cases ha : p a = true
        · have hb : p b = false := by
            cases hpb : p b
            · rfl
            · rw [ha, hpb] at hab; simp at hab
          obtain ⟨t, ht⟩ := replaceRuns_head_of_not p r b rest hb
          refine noDoubleRun_cons_of p _ _ ih ?_
          intro y t' hyt
          rw [ht] at hyt
          cases hyt
          simp [hb]
        · refine noDoubleRun_cons_of p _ _ ih ?_
          intro y t' _
          simp [ha]

theorem noDoubleRun_tail (p : Char → Bool) (a : Char) (l : List Char)
    (h : noDoubleRun p (a :: l) = true) : noDoubleRun p l = true := by
  cases l with
  | nil => simp [noDoubleRun]
  | cons b t =>
    simp only [noDoubleRun, Bool.and_eq_true] at h
    exact h.2

theorem replaceRuns_eq_self (p : Char → Bool) (r : Char) :
    ∀ l : List Char, (∀ c ∈ l, p c = true → c = r) → noDoubleRun p l = true →
      replaceRuns p r l = l := by
  intro l
  induction l with
  | nil => intro _ _; simp [replaceRuns]
  | cons a tl ih =>
    cases tl with
    | nil =>
      intro hall _
      by_cases ha : p a = true
      · have := hall a (by simp) ha
        simp [replaceRuns, ha, this]
      · simp [replaceRuns, ha]
    | cons b rest =>
      intro hall hnd
      have hab : (p a && p b) = false := by
        simp only [noDoubleRun, Bool.and_eq_true] at hnd
        rcases hnd with ⟨h1, _⟩
        cases h : (p a && p b)
        · rfl
        · rw [h] at h1; cases h1
      rw [show replaceRuns p r (a :: b :: rest) =
          (if p a then r else a) :: replaceRuns p r (b :: rest) by
        simp [replaceRuns, hab, Bool.and_eq_true]]
      have htl := ih (fun c hc hp => hall c (List.mem_cons_of_mem _ hc) hp)
        (noDoubleRun_tail p a _ hnd)
      rw [htl]
      by_cases ha : p a = true
      · rw [if_pos ha, hall a (by simp) ha]
      · rw [if_neg ha]

/-! ### trim lemmas -/

theorem trimLead_eq_self (l : List Char) (h : noLeadWs l = true) :
    trimLead l = l := by
  cases l with
  | nil => rfl
  | cons c rest =>
    simp only [noLeadWs, Bool.not_eq_true'] at h
    simp [trimLead, h]

theorem noLeadWs_trimLead (l : List Char) : noLeadWs (trimLead l) = true := by
  induction l with
  | nil => rfl
  | cons c rest ih =>
    by_cases hc : isJsWs c = true
    · simpa [trimLead, hc] using ih
    · simp only [Bool.not_eq_true] at hc
      simp [trimLead, hc, noLeadWs]

theorem trimLead_mem (l : List Char) (c : Char) (h : c ∈ trimLead l) : c ∈ l := by
  induction l with
  | nil => exact h
  | cons a rest ih =>
    by_cases ha : isJsWs a = true
    · simp only [trimLead, List.dropWhile_cons, ha, if_true] at h
      exact List.mem_cons_of_mem _ (ih h)
    · simp only [Bool.not_eq_true] at ha
      simpa [trimLead, ha] using h

theorem trimTrail_mem (l : List Char) (c : Char) (h : c ∈ trimTrail l) : c ∈ l := by
  induction l with
  | nil => exact h
  | cons a rest ih =>
    simp only [trimTrail] at h
    cases hr : trimTrail rest with
    | nil =>
      rw [hr] at h
      by_cases ha : isJsWs a = true
      · simp [ha] at h
      · simp only [Bool.not_eq_true] at ha
        simp [ha] at h
        simp [h]
    | cons d t =>
      rw [hr] at h
      rcases List.mem_cons.mp h with h' | h'
      · simp [h']
      · exact List.mem_cons_of_mem _ (ih (by rw [hr]; exact h'))

theorem trimTrail_head (l : List Char) :
    trimTrail l = [] ∨ (trimTrail l).head? = l.head? := by
  cases l with
  | nil => exact Or.inl rfl
  | cons c rest =>
    simp only [trimTrail]
    cases hr : trimTrail rest with
    | nil =>
      by_cases hc : isJsWs c = true
      · simp [hc]
      · simp only [Bool.not_eq_true] at hc
        simp [hc]
    | cons d t => simp

theorem noTrailWs_trimTrail (l : List Char) : noTrailWs (trimTrail l) = true := by
  induction l with
  | nil => rfl
  | cons c rest ih =>
    simp only [trimTrail]
    cases hr : trimTrail rest with
    | nil =>
      by_cases hc : isJsWs c = true
      · simp [hc, noTrailWs]
      · simp only [Bool.not_eq_true] at hc
        simp [hc, noTrailWs, hc]
    | cons d t =>
      rw [hr] at ih
      simpa [noTrailWs, List.getLast?_cons_cons] using ih

theorem trimTrail_eq_self (l : List Char) (h : noTrailWs l = true) :
    trimTrail l = l := by
  induction l with
  | nil => rfl
  | cons c rest ih =>
    cases rest with
    | nil =>
      simp only [noTrailWs, List.getLast?_singleton, Bool.not_eq_true'] at h
      simp [trimTrail, h]
    | cons d t =>
      have hrest : noTrailWs (d :: t) = true := by
        simpa [noTrailWs, List.getLast?_cons_cons] using h
      rw [show trimTrail (c :: d :: t) =
          match trimTrail (d :: t) with
          | [] => if isJsWs c then [] else [c]
          | r => c :: r from rfl]
      rw [ih hrest]

theorem noLeadWs_trimTrail (l : List Char) (h : noLeadWs l = true) :
    noLeadWs (trimTrail l) = true := by
  rcases trimTrail_head l with he | hh
  · simp [he, noLeadWs]
  · cases hl : trimTrail l with
    | nil => simp [noLeadWs]
    | cons c t =>
      rw [hl] at hh
      cases l with
      | nil => simp [trimTrail] at hl
      | cons a rest =>
        simp only [List.head?_cons] at hh
        have : c = a := by simpa using hh
        subst this
        simpa [noLeadWs] using h

theorem noDoubleRun_dropWhile (p q : Char → Bool) (l : List Char)
    (h : noDoubleRun p l = true) : noDoubleRun p (l.dropWhile q) = true := by
  induction l with
  | nil => simpa using h
  | cons c rest ih =>
    by_cases hc : q c = true
    · simp only [List.dropWhile_cons, hc, if_true]
      exact ih (noDoubleRun_tail p c rest h)
    · simp only [Bool.not_eq_true] at hc
      simpa [List.dropWhile_cons, hc] using h

theorem noDoubleRun_trimTrail (p : Char → Bool) (l : List Char)
    (h : noDoubleRun p l = true) : noDoubleRun p (trimTrail l) = true := by
  induction l with
  | nil => simpa using h
  | cons c rest ih =>
    simp only [trimTrail]
    cases hr : trimTrail rest with
    | nil =>
      by_cases hc : isJsWs c = true <;> simp [hc, noDoubleRun]
    | cons d t =>
      have hrest := ih (noDoubleRun_tail p c rest h)
      rw [hr] at hrest
      refine noDoubleRun_cons_of p _ _ hrest ?_
      intro y t' hyt
      injection hyt with hy ht'
      subst hy
      rcases trimTrail_head rest with he | hh
      · rw [he] at hr; cases hr
      · rw [hr] at hh
        cases rest with
        | nil => simp [trimTrail] at hr
        | cons b rb =>
          simp only [List.head?_cons] at hh
          have hyb : d = b := by simpa using hh
          subst hyb
          simp only [noDoubleRun, Bool.and_eq_true] at h
          rcases h with ⟨h1, _⟩
          cases hcb : (p c && p d)
          · rfl
          · rw [hcb] at h1; simp at h1

/-! ### transport along toUpperChar map -/

theorem noLeadWs_map_toUpper (l : List Char) (h : noLeadWs l = true) :
    noLeadWs (l.map toUpperChar) = true := by
  cases l with
  | nil => rfl
  | cons c rest =>
    simp only [noLeadWs, Bool.not_eq_true'] at h
    simp [noLeadWs, isJsWs_toUpperChar, h]

theorem getLast?_map_toUpper (l : List Char) :
    (l.map toUpperChar).getLast? = l.getLast?.map toUpperChar := by
  induction l with
  | nil => rfl
  | cons c rest ih =>
    cases rest with
    | nil => rfl
    | cons d t =>
      simp only [List.map_cons, List.getLast?_cons_cons] at *
      exact ih

theorem noTrailWs_map_toUpper (l : List Char) (h : noTrailWs l = true) :
    noTrailWs (l.map toUpperChar) = true := by
  simp only [noTrailWs, getLast?_map_toUpper]
  cases hl : l.getLast? with
  | none => simp
  | some c =>
    simp only [noTrailWs, hl, Bool.not_eq_true'] at h
    simp [isJsWs_toUpperChar, h]

theorem noDoubleRun_map_toUpper (l : List Char) (h : noDoubleRun isJsWs l = true) :
    noDoubleRun isJsWs (l.map toUpperChar) = true := by
  induction l with
  | nil => rfl
  | cons a rest ih =>
    cases rest with
    | nil => rfl
    | cons b t =>
      simp only [noDoubleRun, Bool.and_eq_true] at h
      rcases h with ⟨h1, h2⟩
      simp only [List.map_cons, noDoubleRun, Bool.and_eq_true]
      refine ⟨?_, by simpa using ih h2⟩
      simpa [isJsWs_toUpperChar] using h1

/-! ### pointwise identity lemmas for the second pass -/

theorem nfdL_eq_self (l : List Char) (h : ∀ c ∈ l, nfdChar c = [c]) :
    nfdL l = l := by
  induction l with
  | nil => rfl
  | cons c rest ih =>
    simp only [nfdL, List.flatMap_cons] at *
    rw [h c (by simp), ih (fun d hd => h d (List.mem_cons_of_mem _ hd))]
    rfl

theorem stripMarks_eq_self (l : List Char) (h : ∀ c ∈ l, isCombiningMark c = false) :
    stripMarks l = l := by
  induction l with
  | nil => rfl
  | cons c rest ih =>
    simp only [stripMarks, List.filter_cons] at *
    rw [h c (by simp)]
    simp only [Bool.not_false, if_true]
    rw [ih (fun d hd => h d (List.mem_cons_of_mem _ hd))]

theorem map_eq_self_of_fixed {α : Type} (f : α → α) (l : List α)
    (h : ∀ c ∈ l, f c = c) : l.map f = l := by
  induction l with
  | nil => rfl
  | cons c rest ih =>
    simp only [List.map_cons]
    rw [h c (by simp), ih (fun d hd => h d (List.mem_cons_of_mem _ hd))]

/-! ### output characterisation of normalizeText -/

theorem normOut_clean (l : List Char) :
    ∀ c ∈ normalizeTextL l,
      nfdChar c = [c] ∧ isCombiningMark c = false ∧ toUpperChar c = c ∧
      (isJsWs c = true → c = ' ') := by
  intro c hc
  simp only [normalizeTextL, List.mem_map] at hc
  obtain ⟨d, hd, hdc⟩ := hc
  subst hdc
  have hd1 : d ∈ collapseWs (stripMarks (nfdL l)) :=
    trimLead_mem _ _ (trimTrail_mem _ _ hd)
  rcases replaceRuns_mem isJsWs ' ' _ d hd1 with hsp | ⟨hmem, hws⟩
  · subst hsp
    refine ⟨by decide, by decide, by decide, fun _ => by decide⟩
  · have hmark : isCombiningMark d = false := by
      simp only [stripMarks, List.mem_filter, Bool.not_eq_true'] at hmem
      exact hmem.2
    have hmem2 : d ∈ nfdL l := by
      simp only [stripMarks, List.mem_filter] at hmem
      exact hmem.1
    simp only [nfdL, List.mem_flatMap] at hmem2
    obtain ⟨c0, _, hdin⟩ := hmem2
    cases hlk : tableLookup nfdTable c0 with
    | none =>
      rw [nfdChar_of_lookup_none _ hlk] at hdin
      simp only [List.mem_singleton] at hdin
      subst hdin
      exact clean_of_base d hmark hws hlk
    | some dec =>
      have hkv := tableLookup_mem _ _ _ hlk
      have hout := nfdTable_out (c0, dec) hkv d (by
        simpa [nfdChar, hlk] using hdin)
      rcases hout with hm | hrange | hrange
      · rw [hm] at hmark; cases hmark
      · exact clean_of_base d hmark hws
          (tableLookup_none_of_small _ (by omega))
      · exact clean_of_base d hmark hws
          (tableLookup_none_of_small _ (by omega))

theorem normOut_shape (l : List Char) :
    noLeadWs (normalizeTextL l) = true ∧ noTrailWs (normalizeTextL l) = true ∧
    noDoubleRun isJsWs (normalizeTextL l) = true := by
  have hnd : noDoubleRun isJsWs (collapseWs (stripMarks (nfdL l))) = true :=
    replaceRuns_noDouble isJsWs ' ' _
  have hndt : noDoubleRun isJsWs (trimBoth (collapseWs (stripMarks (nfdL l)))) = true :=
    noDoubleRun_trimTrail _ _ (noDoubleRun_dropWhile _ _ _ hnd)
  have hlead : noLeadWs (trimBoth (collapseWs (stripMarks (nfdL l)))) = true :=
    noLeadWs_trimTrail _ (noLeadWs_trimLead _)
  have htrail : noTrailWs (trimBoth (collapseWs (stripMarks (nfdL l)))) = true :=
    noTrailWs_trimTrail _
  exact ⟨noLeadWs_map_toUpper _ hlead, noTrailWs_map_toUpper _ htrail,
    noDoubleRun_map_toUpper _ hndt⟩

theorem normalizeTextL_idem (l : List Char) :
    normalizeTextL (normalizeTextL l) = normalizeTextL l := by
  have hclean := normOut_clean l
  obtain ⟨hlead, htrail, hnd⟩ := normOut_shape l
  set m := normalizeTextL l with hm
  have h1 : nfdL m = m := nfdL_eq_self _ (fun c hc => (hclean c hc).1)
  have h2 : stripMarks m = m := stripMarks_eq_self _ (fun c hc => (hclean c hc).2.1)
  have h3 : collapseWs m = m :=
    replaceRuns_eq_self _ _ _ (fun c hc hp => (hclean c hc).2.2.2 hp) hnd
  have h4 : trimLead m = m := trimLead_eq_self _ hlead
  have h5 : trimTrail m = m := trimTrail_eq_self _ htrail
  calc normalizeTextL m
      = (trimBoth (collapseWs (stripMarks (nfdL m)))).map toUpperChar := rfl
    _ = (trimTrail (trimLead m)).map toUpperChar := by rw [h1, h2, h3]; rfl
    _ = m.map toUpperChar := by rw [h4, h5]
    _ = m := map_eq_self_of_fixed _ _ (fun c hc => (hclean c hc).2.2.1)

/-- C9: the text normalization used for all key and name comparisons is
idempotent, and its output has no leading/trailing whitespace and no two
consecutive whitespace characters. -/
theorem normalizeText_idempotent_wellformed (s : String) :
    normalizeText (normalizeText s) = normalizeText s ∧
    noLeadWs (normalizeText s).data = true ∧
    noTrailWs (normalizeText s).data = true ∧
    noDoubleRun isJsWs (normalizeText s).data = true := by
  obtain ⟨h1, h2, h3⟩ := normOut_shape s.data
  exact ⟨congrArg String.mk (normalizeTextL_idem s.data), h1, h2, h3⟩

/-! ## Claim C6: parser strategy cascade -/

/-- Sanity check: the key-value example from the specification. -/
theorem parse_kv_example :
    (parseTicketText "SOLICITANTE: 73872028\nPROBLEMA: no enciende").map
      (fun d => (d.solicitante, d.problema, d.isComplete)) =
    some (some "73872028", some "no enciende", true) := rfl

/-- Sanity check: the inline-arrow example from the specification. -/
theorem parse_inline_example :
    (parseTicketText "Juan Perez - Mesa Ayuda => no tengo internet").map
      (fun d => (d.solicitante, d.asignado, d.problema)) =
    some (some "Juan Perez", some "Mesa Ayuda", some "no tengo internet") := rfl

/-- Sanity check: the loose-dash example from the specification, in both
segment orders. -/
theorem parse_loose_example :
    (parseTicketText "73872028 - no imprime").map
      (fun d => (d.solicitante, d.problema)) =
      some (some "73872028", some "no imprime") ∧
    (parseTicketText "no imprime - 73872028").map
      (fun d => (d.solicitante, d.problema)) =
      some (some "73872028", some "no imprime") := ⟨rfl, rfl⟩

/-- C6: `parseTicketText` tries the key-value template, the inline arrow
template and the loose dash heuristic in that order and returns the first
strategy's draft; the loose dash heuristic never produces a draft for a body
containing `=>` or for a body that does not split into exactly two non-empty
dash-separated segments. -/
theorem parseTicketText_strategy_cascade :
    (∀ body d, parseKeyValueTemplate body = some d → parseTicketText body = some d) ∧
    (∀ body d, parseKeyValueTemplate body = none → parseInlineTemplate body = some d →
      parseTicketText body = some d) ∧
    (∀ body, parseKeyValueTemplate body = none → parseInlineTemplate body = none →
      parseTicketText body = parseLooseDashTemplate body) ∧
    (∀ body, hasSub ['=', '>'] body.data = true → parseLooseDashTemplate body = none) ∧
    (∀ body, (splitByDash body).length ≠ 2 → parseLooseDashTemplate body = none) := by
  refine ⟨?_, ?_, ?_, ?_, ?_⟩
  · intro body d h
    simp [parseTicketText, h]
  · intro body d h1 h2
    simp [parseTicketText, h1, h2]
  · intro body h1 h2
    simp [parseTicketText, h1, h2]
  · intro body h
    simp [parseLooseDashTemplate, h]
  · intro body h
    unfold parseLooseDashTemplate
    cases hhs : hasSub ['=', '>'] body.data
    · simp only [Bool.false_eq_true, if_false]
      cases hl : splitByDash body with
      | nil => rfl
      | cons a t =>
        cases t with
        | nil => rfl
        | cons b t2 =>
          cases t2 with
          | nil => rw [hl] at h; simp at h
          | cons c t3 => rfl
    · simp

/-- Witness for C6 at concrete inputs. -/
theorem parseTicketText_strategy_cascade_witness :
    parseTicketText "73872028 - no imprime" =
      parseLooseDashTemplate "73872028 - no imprime" ∧
    parseLooseDashTemplate "a => b" = none ∧
    parseLooseDashTemplate "uno - dos - tres" = none ∧
    parseTicketText "SOLICITANTE: 73872028\nPROBLEMA: x" =
      some (kvDraftWitness) := by
  refine ⟨parseTicketText_strategy_cascade.2.2.1 _ (by decide) (by decide),
    parseTicketText_strategy_cascade.2.2.2.1 _ (by decide),
    parseTicketText_strategy_cascade.2.2.2.2 _ (by decide),
    parseTicketText_strategy_cascade.1 _ kvDraftWitness (by decide)⟩

/-! ## Claim C7: single transparent re-authentication retry -/

theorem requestModel_noretry (req : GlpiReq) (rs : List GlpiResponse)
    (out : Except String String) (n : Nat) (c : Bool)
    (h : requestModel req rs false = some (out, n, c)) : n = 1 ∧ c = false := by
  cases rs with
  | nil => simp [requestModel] at h
  | cons r rest =>
    by_cases hok : r.ok = true
    · simp [requestModel, hok] at h
      exact ⟨h.2.1.symm, h.2.2⟩
    · simp only [Bool.not_eq_true] at hok
      simp [requestModel, hok] at h
      exact ⟨h.2.1.symm, h.2.2⟩

theorem requestForSearchModel_noretry (req : GlpiReq) (rs : List GlpiResponse)
    (out : Except String String) (n : Nat) (c : Bool)
    (h : requestForSearchModel req true rs false = some (out, n, c)) :
    n = 1 ∧ c = false := by
  cases rs with
  | nil => simp [requestForSearchModel] at h
  | cons r rest =>
    by_cases hok : r.ok = true
    · simp [requestForSearchModel, hok] at h
      exact ⟨h.2.1.symm, h.2.2⟩
    · simp only [Bool.not_eq_true] at hok
      simp [requestForSearchModel, hok] at h
      exact ⟨h.2.1.symm, h.2.2⟩

/-- C7: a backend request failing with an invalid-session indication
(invalid/expired session token or HTTP 401) clears the cached session token
and is transparently retried exactly once; a failure of the retry, and any
non-session failure, propagates as an error with no further retries (at most
two attempts are ever made), for both `request` and `requestForSearch`. -/
theorem request_single_reauth_retry :
    (∀ req r1 r2 rest, r1.ok = false → isInvalidSession r1 = true →
      requestModel req (r1 :: r2 :: rest) true =
        some ((if r2.ok then Except.ok r2.text else Except.error (glpiErrMsg req r2)),
          2, true)) ∧
    (∀ req r1 rest, r1.ok = false → isInvalidSession r1 = false →
      requestModel req (r1 :: rest) true =
        some (Except.error (glpiErrMsg req r1), 1, false)) ∧
    (∀ req rs retry out n c, requestModel req rs retry = some (out, n, c) → n ≤ 2) ∧
    (∀ req r1 r2 rest, r1.ok = false → isInvalidSession r1 = true →
      requestForSearchModel req true (r1 :: r2 :: rest) true =
        some ((if r2.ok then Except.ok r2.text else Except.error (glpiErrMsg req r2)),
          2, true)) ∧
    (∀ req r1 rest, r1.ok = false → isInvalidSession r1 = false →
      requestForSearchModel req true (r1 :: rest) true =
        some (Except.error (glpiErrMsg req r1), 1, false)) := by
  refine ⟨?_, ?_, ?_, ?_, ?_⟩
  · intro req r1 r2 rest h1 h2
    by_cases hok : r2.ok = true
    · simp [requestModel, h1, h2, hok]
    · simp only [Bool.not_eq_true] at hok
      simp [requestModel, h1, h2, hok]
  · intro req r1 rest h1 h2
    simp [requestModel, h1, h2]
  · intro req rs retry out n c h
    cases rs with
    | nil => simp [requestModel] at h
    | cons r rest =>
      by_cases hok : r.ok = true
      · simp [requestModel, hok] at h
        omega
      · simp only [Bool.not_eq_true] at hok
        by_cases hiv : (isInvalidSession r && retry) = true
        · simp only [requestModel, hok, Bool.false_eq_true, if_false, hiv, if_true] at h
          cases hin : requestModel req rest false with
          | none => rw [hin] at h; simp at h
          | some p =>
            obtain ⟨out', n', c'⟩ := p
            rw [hin] at h
            simp at h
            have := requestModel_noretry req rest out' n' c' hin
            omega
        · simp only [Bool.not_eq_true] at hiv
          simp [requestModel, hok, hiv] at h
          omega
  · intro req r1 r2 rest h1 h2
    by_cases hok : r2.ok = true
    · simp [requestForSearchModel, h1, h2, hok]
    · simp only [Bool.not_eq_true] at hok
      simp [requestForSearchModel, h1, h2, hok]
  · intro req r1 rest h1 h2
    simp [requestForSearchModel, h1, h2]

/-- Witness for C7 at concrete responses. -/
theorem request_single_reauth_retry_witness :
    requestModel ⟨"GET", "Ticket"⟩
      [⟨false, 401, "x"⟩, ⟨true, 200, "done"⟩] true =
      some (Except.ok "done", 2, true) ∧
    requestModel ⟨"GET", "Ticket"⟩
      [⟨false, 401, "x"⟩, ⟨false, 500, "boom"⟩] true =
      some (Except.error (glpiErrMsg ⟨"GET", "Ticket"⟩ ⟨false, 500, "boom"⟩), 2, true) ∧
    requestModel ⟨"GET", "Ticket"⟩ [⟨false, 500, "boom"⟩] true =
      some (Except.error (glpiErrMsg ⟨"GET", "Ticket"⟩ ⟨false, 500, "boom"⟩), 1, false) ∧
    requestForSearchModel ⟨"GET", "Ticket"⟩ true
      [⟨false, 401, "x"⟩, ⟨true, 200, "done"⟩] true =
      some (Except.ok "done", 2, true) := by
  refine ⟨?_, ?_, ?_, ?_⟩
  · have h := request_single_reauth_retry.1 ⟨"GET", "Ticket"⟩
      ⟨false, 401, "x"⟩ ⟨true, 200, "done"⟩ [] rfl (by decide)
    simpa using h
  · have h := request_single_reauth_retry.1 ⟨"GET", "Ticket"⟩
      ⟨false, 401, "x"⟩ ⟨false, 500, "boom"⟩ [] rfl (by decide)
    simpa using h
  · exact request_single_reauth_retry.2.1 ⟨"GET", "Ticket"⟩ ⟨false, 500, "boom"⟩ []
      rfl (by decide)
  · have h := request_single_reauth_retry.2.2.2.1 ⟨"GET", "Ticket"⟩
      ⟨false, 401, "x"⟩ ⟨true, 200, "done"⟩ [] rfl (by decide)
    simpa using h

/-- Counterexample to C2 as stated: a later parse that supplies the problem
field silently overwrites the already-set problem, although the requester
string did not change (so the stated exception does not apply). -/
theorem draft_merge_overwrites_counterexample :
    ((parseTicketText "PROBLEMA: OTRO TEMA").getD {}).solicitante = none ∧
    (sessionWithProblema.draft.getD {}).problema = some "NO IMPRIME" ∧
    ((applyParsedToSession envForTests
        ((parseTicketText "PROBLEMA: OTRO TEMA").getD {})
        sessionWithProblema).draft.getD {}).problema = some "OTRO TEMA" := by
  refine ⟨by decide, by decide, by decide⟩

/-- C2 (amended): merging a later parsed message keeps every field the parse
leaves empty and replaces every field the parse supplies; when the truthy
parsed requester string differs from the stored one the resolved requester
identity is invalidated (and likewise for the assignee), and otherwise the
resolved identities are kept. -/
theorem draft_merge_semantics :
    (∀ parsed old (f : TicketField),
      (strTruthy (fieldGet f parsed) = false →
        fieldGet f (mergeParsedDraft parsed old) = oldField old (fun d => fieldGet f d)) ∧
      (strTruthy (fieldGet f parsed) = true →
        fieldGet f (mergeParsedDraft parsed old) = fieldGet f parsed)) ∧
    (∀ env parsed s,
      (applyParsedToSession env parsed s).resolvedRequesterId =
        (if strTruthy parsed.solicitante ∧
            parsed.solicitante ≠ oldField s.draft (fun d => d.solicitante) then none
         else s.resolvedRequesterId) ∧
      (applyParsedToSession env parsed s).resolvedAssigneeId =
        (if strTruthy parsed.asignado ∧
            parsed.asignado ≠ oldField s.draft (fun d => d.asignado) then none
         else s.resolvedAssigneeId)) := by
  constructor
  · intro parsed old f
    constructor
    · intro h
      cases f <;> simp_all [mergeParsedDraft, fieldGet, jsOr]
    · intro h
      cases f <;> simp_all [mergeParsedDraft, fieldGet, jsOr]
  · intro env parsed s
    constructor
    · by_cases h1 : strTruthy parsed.solicitante ∧
          parsed.solicitante ≠ oldField s.draft (fun d => d.solicitante)
      · simp only [applyParsedToSession, if_pos h1, if_pos]
        split <;> rfl
      · simp only [applyParsedToSession, if_neg h1]
        split <;> rfl
    · by_cases h2 : strTruthy parsed.asignado ∧
          parsed.asignado ≠ oldField s.draft (fun d => d.asignado)
      · by_cases h1 : strTruthy parsed.solicitante ∧
            parsed.solicitante ≠ oldField s.draft (fun d => d.solicitante)
        · simp [applyParsedToSession, h1, h2]
        · simp [applyParsedToSession, h1, h2]
      · by_cases h1 : strTruthy parsed.solicitante ∧
            parsed.solicitante ≠ oldField s.draft (fun d => d.solicitante)
        · simp [applyParsedToSession, h1, h2]
        · simp [applyParsedToSession, h1, h2]

/-- Witness for C2 at concrete drafts. -/
theorem draft_merge_semantics_witness :
    fieldGet TicketField.problema
      (mergeParsedDraft {} (some (sessionWithProblema.draft.getD {}))) =
      some "NO IMPRIME" ∧
    fieldGet TicketField.problema
      (mergeParsedDraft { problema := some "OTRO TEMA" }
        (some (sessionWithProblema.draft.getD {}))) = some "OTRO TEMA" := by
  constructor
  · have h := (draft_merge_semantics.1 {} (some (sessionWithProblema.draft.getD {}))
      TicketField.problema).1 (by decide)
    simpa using h
  · have h := (draft_merge_semantics.1 { problema := some "OTRO TEMA" }
      (some (sessionWithProblema.draft.getD {})) TicketField.problema).2 (by decide)
    simpa using h

theorem createsOf_append (a b : List Effect) :
    createsOf (a ++ b) = createsOf a ++ createsOf b := by
  simp [createsOf]

theorem createSuccCount_append (a b : List Effect) :
    createSuccCount (a ++ b) = createSuccCount a + createSuccCount b := by
  simp [createSuccCount, createsOf_append]

theorem createsGuarded_append (a b : List Effect) :
    createsGuarded (a ++ b) = (createsGuarded a && createsGuarded b) := by
  simp [createsGuarded, createsOf_append]

theorem uploadsOf_append (a b : List Effect) :
    uploadsOf (a ++ b) = uploadsOf a ++ uploadsOf b := by
  simp [uploadsOf]

theorem uploadOkCount_append (a b : List Effect) :
    uploadOkCount (a ++ b) = uploadOkCount a + uploadOkCount b := by
  simp [uploadOkCount]

theorem receivedCount_append (a b : List Effect) :
    receivedCount (a ++ b) = receivedCount a + receivedCount b := by
  simp [receivedCount]

theorem noSearchDni_append (a b : List Effect) :
    noSearchDni (a ++ b) = (noSearchDni a && noSearchDni b) := by
  simp [noSearchDni]

theorem reactEff_createsOf (env : Env) (e : String) : createsOf (reactEff env e) = [] := by
  cases h : env.hasReact <;> simp [reactEff, h, createsOf]

theorem reactEff_uploadsOf (env : Env) (e : String) : uploadsOf (reactEff env e) = [] := by
  cases h : env.hasReact <;> simp [reactEff, h, uploadsOf]

theorem reactEff_uploadOkCount (env : Env) (e : String) :
    uploadOkCount (reactEff env e) = 0 := by
  cases h : env.hasReact <;> simp [reactEff, h, uploadOkCount]

theorem reactEff_receivedCount (env : Env) (e : String) :
    receivedCount (reactEff env e) = 0 := by
  cases h : env.hasReact <;> simp [reactEff, h, receivedCount]

theorem reactEff_noSearchDni (env : Env) (e : String) :
    noSearchDni (reactEff env e) = true := by
  cases h : env.hasReact <;> simp [reactEff, h, noSearchDni]

/-! ### applyResolvedCandidate projections -/

theorem applyResolvedCandidate_proj (s : TicketSession) (role : Role)
    (c : GlpiUserCandidate) :
    (applyResolvedCandidate s role c).pendingSelection = s.pendingSelection ∧
    (applyResolvedCandidate s role c).ticketId = s.ticketId ∧
    (applyResolvedCandidate s role c).attachments = s.attachments ∧
    (applyResolvedCandidate s role c).uploadedCount = s.uploadedCount ∧
    (applyResolvedCandidate s role c).awaitingText = s.awaitingText := by
  cases role <;> cases hd : s.draft <;>
    simp [applyResolvedCandidate, hd]

theorem applyResolvedCandidate_cache (s : TicketSession) (c : GlpiUserCandidate) :
    (applyResolvedCandidate s .solicitante c).resolvedRequesterId = some c.id ∧
    (applyResolvedCandidate s .solicitante c).resolvedAssigneeId = s.resolvedAssigneeId ∧
    (applyResolvedCandidate s .tecnico c).resolvedAssigneeId = some c.id ∧
    (applyResolvedCandidate s .tecnico c).resolvedRequesterId = s.resolvedRequesterId := by
  cases hd : s.draft <;> simp [applyResolvedCandidate, hd]

/-! ### promptCandidateSelection observations -/

theorem prompt_noop (env : Env) (s : TicketSession) (w : World) (role : Role)
    (cands : List GlpiUserCandidate) (h : s.pendingSelection.isSome = true) :
    promptCandidateSelection env s w role cands = ⟨s, w, [], ()⟩ := by
  simp [promptCandidateSelection, h]

theorem prompt_opens (env : Env) (s : TicketSession) (w : World) (role : Role)
    (cands : List GlpiUserCandidate) (h : s.pendingSelection = none) :
    ∃ pmid, (promptCandidateSelection env s w role cands).session =
      { s with pendingSelection := some ⟨role, cands.take 10, pmid, false⟩ } := by
  unfold promptCandidateSelection
  rw [h]
  simp only [Option.isSome_none, Bool.false_eq_true, if_false]
  split
  · exact ⟨_, rfl⟩
  · exact ⟨_, rfl⟩

theorem prompt_eff (env : Env) (s : TicketSession) (w : World) (role : Role)
    (cands : List GlpiUserCandidate) :
    createsOf (promptCandidateSelection env s w role cands).eff = [] ∧
    uploadsOf (promptCandidateSelection env s w role cands).eff = [] ∧
    uploadOkCount (promptCandidateSelection env s w role cands).eff = 0 ∧
    receivedCount (promptCandidateSelection env s w role cands).eff = 0 ∧
    noSearchDni (promptCandidateSelection env s w role cands).eff = true := by
  unfold promptCandidateSelection
  by_cases h : s.pendingSelection.isSome = true
  · simp [h, createsOf, uploadsOf, uploadOkCount, receivedCount, noSearchDni]
  · simp only [h, Bool.false_eq_true, if_false]
    cases hsp : env.hasSendPoll <;> cases hr : env.hasReact <;> split <;>
      simp [hsp, hr, reactEff, createsOf, uploadsOf, uploadOkCount,
        receivedCount, noSearchDni]

theorem prompt_session_cache (env : Env) (s : TicketSession) (w : World)
    (role : Role) (cands : List GlpiUserCandidate) :
    (promptCandidateSelection env s w role cands).session.ticketId = s.ticketId ∧
    (promptCandidateSelection env s w role cands).session.attachments = s.attachments ∧
    (promptCandidateSelection env s w role cands).session.uploadedCount = s.uploadedCount ∧
    (promptCandidateSelection env s w role cands).session.resolvedRequesterId =
      s.resolvedRequesterId ∧
    (promptCandidateSelection env s w role cands).session.resolvedAssigneeId =
      s.resolvedAssigneeId := by
  unfold promptCandidateSelection
  by_cases h : s.pendingSelection.isSome = true
  · simp [h]
  · simp only [h, Bool.false_eq_true, if_false]
    split <;> simp

/-! ### cons-normalization of the trace observations -/

theorem createsOf_cons (e : Effect) (l : List Effect) :
    createsOf (e :: l) =
      (match e with
       | .createTicket a _ _ _ _ r => [(a, r)]
       | _ => []) ++ createsOf l := by
  cases e <;> simp [createsOf]

theorem createsOf_nil : createsOf [] = [] := rfl

theorem createSuccCount_def (l : List Effect) :
    createSuccCount l = (createsOf l).countP (fun p =>
      match p.2 with
      | .ok r => strTruthy r
      | .error _ => false) := rfl

theorem createsGuarded_def (l : List Effect) :
    createsGuarded l = (createsOf l).all (fun p => p.1.isNone) := rfl

theorem uploadsOf_cons (e : Effect) (l : List Effect) :
    uploadsOf (e :: l) =
      (match e with
       | .uploadDocument _ media _ _ _ => [media]
       | _ => []) ++ uploadsOf l := by
  cases e <;> simp [uploadsOf]

theorem uploadsOf_nil : uploadsOf [] = [] := rfl

theorem uploadOkCount_cons (e : Effect) (l : List Effect) :
    uploadOkCount (e :: l) =
      (match e with
       | .uploadDocument _ _ _ _ ok => if ok then 1 else 0
       | _ => 0) + uploadOkCount l := by
  cases e <;> simp [uploadOkCount, List.countP_cons]
  case uploadDocument ticketId media filename base64 ok =>
    cases ok <;> simp [uploadOkCount, List.countP_cons] <;> omega

theorem uploadOkCount_nil : uploadOkCount [] = 0 := rfl

theorem receivedCount_cons (e : Effect) (l : List Effect) :
    receivedCount (e :: l) =
      (match e with
       | .mediaReceived _ => 1
       | _ => 0) + receivedCount l := by
  cases e <;> simp [receivedCount, List.countP_cons] <;> omega

theorem receivedCount_nil : receivedCount [] = 0 := rfl

theorem noSearchDni_cons (e : Effect) (l : List Effect) :
    noSearchDni (e :: l) =
      ((match e with
        | .searchDni _ _ => false
        | _ => true) && noSearchDni l) := by
  cases e <;> simp [noSearchDni]

theorem noSearchDni_nil : noSearchDni [] = true := rfl

/-! ### handleCandidateResults and resolveUserId observations -/

theorem hcr_obs (env : Env) (s : TicketSession) (w : World) (role : Role)
    (cands : List GlpiUserCandidate) (msg : String) :
    createsOf (handleCandidateResults env s w role cands msg).eff = [] ∧
    uploadsOf (handleCandidateResults env s w role cands msg).eff = [] ∧
    uploadOkCount (handleCandidateResults env s w role cands msg).eff = 0 ∧
    receivedCount (handleCandidateResults env s w role cands msg).eff = 0 ∧
    (handleCandidateResults env s w role cands msg).session.ticketId = s.ticketId ∧
    (handleCandidateResults env s w role cands msg).session.attachments = s.attachments ∧
    (handleCandidateResults env s w role cands msg).session.uploadedCount = s.uploadedCount := by
  rcases cands with _ | ⟨c, _ | ⟨c2, t⟩⟩
  · cases hr : env.hasReact <;>
      simp [handleCandidateResults, reactEff, hr, createsOf_cons, createsOf_nil,
        uploadsOf_cons, uploadsOf_nil, uploadOkCount_cons, uploadOkCount_nil,
        receivedCount_cons, receivedCount_nil]
  · obtain ⟨_, ht, ha, hu, _⟩ := applyResolvedCandidate_proj s role c
    simp [handleCandidateResults, ht, ha, hu, createsOf_nil, uploadsOf_nil,
      uploadOkCount_nil, receivedCount_nil]
  · obtain ⟨h1, h2, h3, h4, _⟩ := prompt_eff env s w role (c :: c2 :: t)
    obtain ⟨t1, t2, t3, _, _⟩ := prompt_session_cache env s w role (c :: c2 :: t)
    simp [handleCandidateResults, h1, h2, h3, h4, t1, t2, t3]

theorem resolveUserId_obs (env : Env) (s : TicketSession) (w : World)
    (v : String) (role : Role) (allow : Bool) :
    createsOf (resolveUserId env s w v role allow).eff = [] ∧
    uploadsOf (resolveUserId env s w v role allow).eff = [] ∧
    uploadOkCount (resolveUserId env s w v role allow).eff = 0 ∧
    receivedCount (resolveUserId env s w v role allow).eff = 0 ∧
    (resolveUserId env s w v role allow).session.ticketId = s.ticketId ∧
    (resolveUserId env s w v role allow).session.attachments = s.attachments ∧
    (resolveUserId env s w v role allow).session.uploadedCount = s.uploadedCount := by
  unfold resolveUserId
  cases role
  case solicitante =>
    cases hc : s.resolvedRequesterId with
    | some id =>
      simp [createsOf_nil, uploadsOf_nil, uploadOkCount_nil, receivedCount_nil]
    | none =>
      simp only
      by_cases ht : trimS v = ""
      · simp only [ht, if_true]
        cases hf : env.defaultRequesterId <;>
          simp [hf, createsOf_cons, createsOf_nil, uploadsOf_cons, uploadsOf_nil,
            uploadOkCount_cons, uploadOkCount_nil, receivedCount_cons,
            receivedCount_nil, createsOf_append, uploadsOf_append,
            uploadOkCount_append, receivedCount_append]
      · simp only [ht, if_false]
        cases hd : extractDni (trimS v) with
        | some dni =>
          cases hres : env.dniResults dni with
          | ok cands =>
            obtain ⟨g1, g2, g3, g4, g5, g6, g7⟩ :=
              hcr_obs env s w .solicitante cands
                (s!"No se encontro {roleStr Role.solicitante} con DNI {dni}.")
            simp [hres, g1, g2, g3, g4, g5, g6, g7, createsOf_append,
              uploadsOf_append, uploadOkCount_append, receivedCount_append,
              createsOf_cons, createsOf_nil, uploadsOf_cons, uploadsOf_nil,
              uploadOkCount_cons, uploadOkCount_nil, receivedCount_cons,
              receivedCount_nil]
          | error e =>
            simp [hres, createsOf_cons, createsOf_nil, uploadsOf_cons,
              uploadsOf_nil, uploadOkCount_cons, uploadOkCount_nil,
              receivedCount_cons, receivedCount_nil, createsOf_append,
              uploadsOf_append, uploadOkCount_append, receivedCount_append]
        | none =>
          cases allow with
          | false =>
            simp [createsOf_cons, createsOf_nil, uploadsOf_cons, uploadsOf_nil,
              uploadOkCount_cons, uploadOkCount_nil, receivedCount_cons,
              receivedCount_nil]
          | true =>
            simp only [Bool.not_true, Bool.false_eq_true, if_false]
            by_cases htk : (wordsOf (trimS v)).length < 2
            · simp [htk, createsOf_cons, createsOf_nil, uploadsOf_cons,
                uploadsOf_nil, uploadOkCount_cons, uploadOkCount_nil,
                receivedCount_cons, receivedCount_nil]
            · simp only [htk, if_false]
              by_cases hc1 : (env.nameResults (trimS v) true).isEmpty
              · obtain ⟨g1, g2, g3, g4, g5, g6, g7⟩ :=
                  hcr_obs env s w .solicitante (env.nameResults (trimS v) false)
                    "No se encontro solicitante con ese nombre. Envia DNI."
                simp [hc1, g1, g2, g3, g4, g5, g6, g7, createsOf_append,
                  uploadsOf_append, uploadOkCount_append, receivedCount_append,
                  createsOf_cons, createsOf_nil, uploadsOf_cons, uploadsOf_nil,
                  uploadOkCount_cons, uploadOkCount_nil, receivedCount_cons,
                  receivedCount_nil]
              · obtain ⟨g1, g2, g3, g4, g5, g6, g7⟩ :=
                  hcr_obs env s w .solicitante (env.nameResults (trimS v) true)
                    "No se encontro solicitante con ese nombre. Envia DNI."
                simp [hc1, g1, g2, g3, g4, g5, g6, g7, createsOf_append,
                  uploadsOf_append, uploadOkCount_append, receivedCount_append,
                  createsOf_cons, createsOf_nil, uploadsOf_cons, uploadsOf_nil,
                  uploadOkCount_cons, uploadOkCount_nil, receivedCount_cons,
                  receivedCount_nil]
  case tecnico =>
    cases hc : s.resolvedAssigneeId with
    | some id =>
      simp [createsOf_nil, uploadsOf_nil, uploadOkCount_nil, receivedCount_nil]
    | none =>
      simp only
      by_cases ht : trimS v = ""
      · simp [ht, createsOf_nil, uploadsOf_nil, uploadOkCount_nil,
          receivedCount_nil]
      · simp only [ht, if_false]
        cases hd : extractDni (trimS v) with
        | some dni =>
          cases hres : env.dniResults dni with
          | ok cands =>
            obtain ⟨g1, g2, g3, g4, g5, g6, g7⟩ :=
              hcr_obs env s w .tecnico cands
                (s!"No se encontro {roleStr Role.tecnico} con DNI {dni}.")
            simp [hres, g1, g2, g3, g4, g5, g6, g7, createsOf_append,
              uploadsOf_append, uploadOkCount_append, receivedCount_append,
              createsOf_cons, createsOf_nil, uploadsOf_cons, uploadsOf_nil,
              uploadOkCount_cons, uploadOkCount_nil, receivedCount_cons,
              receivedCount_nil]
          | error e =>
            simp [hres, createsOf_cons, createsOf_nil, uploadsOf_cons,
              uploadsOf_nil, uploadOkCount_cons, uploadOkCount_nil,
              receivedCount_cons, receivedCount_nil, createsOf_append,
              uploadsOf_append, uploadOkCount_append, receivedCount_append]
        | none =>
          cases allow with
          | false =>
            simp [createsOf_cons, createsOf_nil, uploadsOf_cons, uploadsOf_nil,
              uploadOkCount_cons, uploadOkCount_nil, receivedCount_cons,
              receivedCount_nil]
          | true =>
            simp only [Bool.not_true, Bool.false_eq_true, if_false]
            by_cases hc1 : ((env.nameResults (trimS v)
                (decide (2 ≤ (wordsOf (trimS v)).length))).isEmpty &&
                decide (2 ≤ (wordsOf (trimS v)).length)) = true
            · obtain ⟨g1, g2, g3, g4, g5, g6, g7⟩ :=
                hcr_obs env s w .tecnico (env.nameResults (trimS v) false)
                  (s!"No se encontro tecnico con nombre \x27{trimS v}\x27. Envia DNI.")
              simp [hc1, g1, g2, g3, g4, g5, g6, g7, createsOf_append,
                uploadsOf_append, uploadOkCount_append, receivedCount_append,
                createsOf_cons, createsOf_nil, uploadsOf_cons, uploadsOf_nil,
                uploadOkCount_cons, uploadOkCount_nil, receivedCount_cons,
                receivedCount_nil]
            · obtain ⟨g1, g2, g3, g4, g5, g6, g7⟩ :=
                hcr_obs env s w .tecnico
                  (env.nameResults (trimS v) (decide (2 ≤ (wordsOf (trimS v)).length)))
                  (s!"No se encontro tecnico con nombre \x27{trimS v}\x27. Envia DNI.")
              simp [hc1, g1, g2, g3, g4, g5, g6, g7, createsOf_append,
                uploadsOf_append, uploadOkCount_append, receivedCount_append,
                createsOf_cons, createsOf_nil, uploadsOf_cons, uploadsOf_nil,
                uploadOkCount_cons, uploadOkCount_nil, receivedCount_cons,
                receivedCount_nil]

/-! ### tryCreateTicket specification -/

theorem tryCreateTicket_spec (env : Env) (sender : SenderInfo)
    (s : TicketSession) (w : World) (h : s.ticketId = none) :
    createsGuarded (tryCreateTicket env sender s w).eff = true ∧
    createSuccCount (tryCreateTicket env sender s w).eff =
      (if (tryCreateTicket env sender s w).val then 1 else 0) ∧
    (tryCreateTicket env sender s w).session.ticketId.isSome =
      (tryCreateTicket env sender s w).val ∧
    uploadsOf (tryCreateTicket env sender s w).eff = [] ∧
    uploadOkCount (tryCreateTicket env sender s w).eff = 0 ∧
    receivedCount (tryCreateTicket env sender s w).eff = 0 ∧
    (tryCreateTicket env sender s w).session.attachments = s.attachments ∧
    (tryCreateTicket env sender s w).session.uploadedCount = s.uploadedCount := by
  unfold tryCreateTicket
  cases hdr : s.draft with
  | none =>
    simp [h, createsGuarded_def, createSuccCount_def, createsOf_nil,
      uploadsOf_nil, uploadOkCount_nil, receivedCount_nil]
  | some draft0 =>
    by_cases hen : env.glpiEnabled = true
    · simp only [hen, Bool.not_true, Bool.false_eq_true, if_false]
      obtain ⟨a1, a2, a3, a4, a5, a6, a7⟩ :=
        resolveUserId_obs env s w (strOfOpt draft0.solicitante) .solicitante true
      cases hv1 : (resolveUserId env s w (strOfOpt draft0.solicitante)
          .solicitante true).val with
      | none =>
        simp [hv1, a1, a2, a3, a4, a5, a6, a7, h, createsGuarded_def,
          createSuccCount_def]
      | some requesterId =>
        simp only [hv1]
        by_cases hav : strTruthy (jsOr ((resolveUserId env s w
            (strOfOpt draft0.solicitante) .solicitante true).session.draft.getD
            {}).asignado (resolveTechnicianFromSender env sender)) = true
        · simp only [hav, if_true]
          obtain ⟨b1, b2, b3, b4, b5, b6, b7⟩ :=
            resolveUserId_obs env
              (resolveUserId env s w (strOfOpt draft0.solicitante) .solicitante true).session
              (resolveUserId env s w (strOfOpt draft0.solicitante) .solicitante true).world
              (strOfOpt (jsOr ((resolveUserId env s w
                (strOfOpt draft0.solicitante) .solicitante true).session.draft.getD
                {}).asignado (resolveTechnicianFromSender env sender)))
              .tecnico true
          cases hv2 : (resolveUserId env
              (resolveUserId env s w (strOfOpt draft0.solicitante) .solicitante true).session
              (resolveUserId env s w (strOfOpt draft0.solicitante) .solicitante true).world
              (strOfOpt (jsOr ((resolveUserId env s w
                (strOfOpt draft0.solicitante) .solicitante true).session.draft.getD
                {}).asignado (resolveTechnicianFromSender env sender)))
              .tecnico true).val with
          | none =>
            simp [hv2, a1, a2, a3, a4, a5, a6, a7, b1, b2, b3, b4, b5, b6, b7,
              h, createsGuarded_def, createSuccCount_def, createsOf_append,
              uploadsOf_append, uploadOkCount_append, receivedCount_append]
          | some aid =>
            simp only [hv2]
            cases htc : (takeCreate (resolveUserId env
                (resolveUserId env s w (strOfOpt draft0.solicitante) .solicitante true).session
                (resolveUserId env s w (strOfOpt draft0.solicitante) .solicitante true).world
                (strOfOpt (jsOr ((resolveUserId env s w
                  (strOfOpt draft0.solicitante) .solicitante true).session.draft.getD
                  {}).asignado (resolveTechnicianFromSender env sender)))
                .tecnico true).world).1 with
            | ok r =>
              by_cases hstr : strTruthy r = true
              · simp [htc, hstr, a1, a2, a3, a4, a5, a6, a7, b1, b2, b3, b4, b5,
                  b6, b7, h, createsGuarded_def, createSuccCount_def,
                  createsOf_append, uploadsOf_append, uploadOkCount_append,
                  receivedCount_append, createsOf_cons, createsOf_nil,
                  uploadsOf_cons, uploadsOf_nil, uploadOkCount_cons,
                  uploadOkCount_nil, receivedCount_cons, receivedCount_nil,
                  reactEff_createsOf, reactEff_uploadsOf, reactEff_uploadOkCount,
                  reactEff_receivedCount]
              · simp [htc, hstr, a1, a2, a3, a4, a5, a6, a7, b1, b2, b3, b4, b5,
                  b6, b7, h, createsGuarded_def, createSuccCount_def,
                  createsOf_append, uploadsOf_append, uploadOkCount_append,
                  receivedCount_append, createsOf_cons, createsOf_nil,
                  uploadsOf_cons, uploadsOf_nil, uploadOkCount_cons,
                  uploadOkCount_nil, receivedCount_cons, receivedCount_nil,
                  reactEff_createsOf, reactEff_uploadsOf, reactEff_uploadOkCount,
                  reactEff_receivedCount]
            | error e =>
              simp [htc, a1, a2, a3, a4, a5, a6, a7, b1, b2, b3, b4, b5, b6, b7,
                h, createsGuarded_def, createSuccCount_def, createsOf_append,
                uploadsOf_append, uploadOkCount_append, receivedCount_append,
                createsOf_cons, createsOf_nil, uploadsOf_cons, uploadsOf_nil,
                uploadOkCount_cons, uploadOkCount_nil, receivedCount_cons,
                receivedCount_nil, reactEff_createsOf, reactEff_uploadsOf,
                reactEff_uploadOkCount, reactEff_receivedCount]
        · simp only [hav, Bool.false_eq_true, if_false]
          cases htc : (takeCreate (resolveUserId env s w
              (strOfOpt draft0.solicitante) .solicitante true).world).1 with
          | ok r =>
            by_cases hstr : strTruthy r = true
            · simp [htc, hstr, a1, a2, a3, a4, a5, a6, a7, h, createsGuarded_def,
                createSuccCount_def, createsOf_append, uploadsOf_append,
                uploadOkCount_append, receivedCount_append, createsOf_cons,
                createsOf_nil, uploadsOf_cons, uploadsOf_nil, uploadOkCount_cons,
                uploadOkCount_nil, receivedCount_cons, receivedCount_nil,
                reactEff_createsOf, reactEff_uploadsOf, reactEff_uploadOkCount,
                reactEff_receivedCount]
            · simp [htc, hstr, a1, a2, a3, a4, a5, a6, a7, h, createsGuarded_def,
                createSuccCount_def, createsOf_append, uploadsOf_append,
                uploadOkCount_append, receivedCount_append, createsOf_cons,
                createsOf_nil, uploadsOf_cons, uploadsOf_nil, uploadOkCount_cons,
                uploadOkCount_nil, receivedCount_cons, receivedCount_nil,
                reactEff_createsOf, reactEff_uploadsOf, reactEff_uploadOkCount,
                reactEff_receivedCount]
          | error e =>
            simp [htc, a1, a2, a3, a4, a5, a6, a7, h, createsGuarded_def,
              createSuccCount_def, createsOf_append, uploadsOf_append,
              uploadOkCount_append, receivedCount_append, createsOf_cons,
              createsOf_nil, uploadsOf_cons, uploadsOf_nil, uploadOkCount_cons,
              uploadOkCount_nil, receivedCount_cons, receivedCount_nil,
              reactEff_createsOf, reactEff_uploadsOf, reactEff_uploadOkCount,
              reactEff_receivedCount]
    · simp only [Bool.not_eq_true] at hen
      cases hr : env.hasReact <;>
        simp [hen, hr, reactEff, h, createsGuarded_def, createSuccCount_def,
          createsOf_cons, createsOf_nil, uploadsOf_cons, uploadsOf_nil,
          uploadOkCount_cons, uploadOkCount_nil, receivedCount_cons,
          receivedCount_nil]

/-- C4: handleCandidateResults by arity — zero candidates yields a not-found
reply and no id; exactly one candidate returns and caches its id for the role
with no disambiguation (and repeated resolution for that role is then free:
it returns the cached id with no backend effects); two or more candidates
return no id and open exactly one PendingSelection for the role (never a
silent pick). -/
theorem candidate_result_arities (env : Env) (s : TicketSession) (w : World)
    (role : Role) (msg : String) (h : s.pendingSelection = none) :
    (handleCandidateResults env s w role [] msg =
      ⟨s, w, reactEff env "❌" ++ [.reply msg], none⟩) ∧
    (∀ c : GlpiUserCandidate,
      (handleCandidateResults env s w role [c] msg).val = some c.id ∧
      (handleCandidateResults env s w role [c] msg).world = w ∧
      (handleCandidateResults env s w role [c] msg).eff = [] ∧
      (handleCandidateResults env s w role [c] msg).session.pendingSelection = none ∧
      (role = .solicitante →
        (handleCandidateResults env s w role [c] msg).session.resolvedRequesterId
          = some c.id) ∧
      (role = .tecnico →
        (handleCandidateResults env s w role [c] msg).session.resolvedAssigneeId
          = some c.id) ∧
      (∀ v b, resolveUserId env
          (handleCandidateResults env s w role [c] msg).session
          (handleCandidateResults env s w role [c] msg).world v role b =
        ⟨(handleCandidateResults env s w role [c] msg).session,
         (handleCandidateResults env s w role [c] msg).world, [], some c.id⟩)) ∧
    (∀ cands : List GlpiUserCandidate, 2 ≤ cands.length →
      (handleCandidateResults env s w role cands msg).val = none ∧
      ∃ pmid, (handleCandidateResults env s w role cands msg).session =
        { s with pendingSelection := some ⟨role, cands.take 10, pmid, false⟩ }) := by
  refine ⟨by simp [handleCandidateResults], ?_, ?_⟩
  · intro c
    have hpend := (applyResolvedCandidate_proj s role c).1
    have hcache := applyResolvedCandidate_cache s c
    have hres : handleCandidateResults env s w role [c] msg =
        ⟨applyResolvedCandidate s role c, w, [], some c.id⟩ := rfl
    rw [hres]
    refine ⟨rfl, rfl, rfl, ?_, ?_, ?_, ?_⟩
    · rw [hpend, h]
    · intro hr; subst hr; exact hcache.1
    · intro hr; subst hr; exact hcache.2.2.1
    · intro v b
      unfold resolveUserId
      cases role
      · rw [hcache.1]
      · rw [hcache.2.2.1]
  · intro cands hlen
    match cands, hlen with
    | a :: b :: rest, _ =>
      exact ⟨rfl, prompt_opens env s w role (a :: b :: rest) h⟩

theorem candidate_result_arities_witness :
    freshSession.pendingSelection = none ∧
    handleCandidateResults envForTests freshSession worldEmpty .solicitante []
        "No se encontro." =
      ⟨freshSession, worldEmpty,
        reactEff envForTests "❌" ++ [.reply "No se encontro."], none⟩ :=
  ⟨rfl, (candidate_result_arities envForTests freshSession worldEmpty
    .solicitante "No se encontro." rfl).1⟩

/-! ### C5: pending-selection reply matching -/

theorem trimBoth_idem (l : List Char) : trimBoth (trimBoth l) = trimBoth l := by
  show trimTrail (trimLead (trimTrail (trimLead l))) = trimTrail (trimLead l)
  rw [trimLead_eq_self _ (noLeadWs_trimTrail _ (noLeadWs_trimLead l)),
    trimTrail_eq_self _ (noTrailWs_trimTrail (trimLead l))]

theorem trimS_idem (s : String) : trimS (trimS s) = trimS s :=
  congrArg String.mk (trimBoth_idem s.data)

/-- C5 counterexample: the reply "02" is not the numeric string "1" or "2" of
any 1-based index and matches no candidate name key, yet it selects the second
candidate, because the code tests `Number(input)`, which accepts any string
whose JS numeric value is an in-range integer. -/
theorem candidate_numeric_input_counterexample :
    matchCandidateInput "02" [cexC1, cexC2] = some cexC2 ∧
    (("02" : String) ≠ "1" ∧ ("02" : String) ≠ "2") ∧
    (buildCandidateMatchKeys cexC1).contains (normalizeText (trimS "02")) = false ∧
    (buildCandidateMatchKeys cexC2).contains (normalizeText (trimS "02")) = false ∧
    (resolvePendingSelection envForTests cexSession worldEmpty "02").val = true ∧
    (resolvePendingSelection envForTests cexSession
        worldEmpty "02").session.resolvedRequesterId = some "102" :=
  ⟨by decide, by decide, by decide, by decide, by decide, by decide⟩

/-- C5 (amended): for an open pending selection and a nonblank reply, a reply
whose JS `Number(...)` value is an integer i with 1 ≤ i ≤ |candidates| selects
the i-th offered candidate; otherwise the first candidate whose normalized
match keys (full name, reversed name, login) contain the normalized reply is
selected; an unmatched reply selects nobody, leaves the pending selection
open, and re-prompts; a matched reply caches the candidate and closes the
pending selection. -/
theorem pending_selection_matching (env : Env) (s : TicketSession)
    (w : World) (body : String) (pending : PendingSelection)
    (hp : s.pendingSelection = some pending)
    (hne : trimS body ≠ "") :
    (∀ q : ℚ, jsToNumber (trimS body) = some q →
      q.den = 1 → 1 ≤ q.num → q.num ≤ pending.candidates.length →
      matchCandidateInput (trimS body) pending.candidates =
        pending.candidates.get? (q.num.toNat - 1)) ∧
    ((∀ q : ℚ, jsToNumber (trimS body) = some q →
        ¬(q.den = 1 ∧ 1 ≤ q.num ∧ q.num ≤ pending.candidates.length)) →
      matchCandidateInput (trimS body) pending.candidates =
        pending.candidates.find? (fun c =>
          (buildCandidateMatchKeys c).contains (normalizeText (trimS body)))) ∧
    (matchCandidateInput (trimS body) pending.candidates = none →
      resolvePendingSelection env s w body =
        ⟨s, w, reactEff env "⚠️" ++
          [.reply (s!"No pude identificar al {roleStr pending.role}. Responde con el nombre completo exacto o el numero de la lista.")],
         false⟩) ∧
    (∀ c, matchCandidateInput (trimS body) pending.candidates = some c →
      (resolvePendingSelection env s w body).session =
        { applyResolvedCandidate s pending.role c with pendingSelection := none } ∧
      (resolvePendingSelection env s w body).world = w ∧
      (resolvePendingSelection env s w body).val = true) := by
  have hidem := trimS_idem body
  refine ⟨?_, ?_, ?_, ?_⟩
  · intro q hq hden h1 h2
    have hlt : q.num.toNat - 1 < pending.candidates.length := by omega
    unfold matchCandidateInput
    rw [hidem]
    simp [hne, hq, hden, h1, h2, List.getElem?_eq_getElem hlt]
  · intro hfail
    unfold matchCandidateInput
    rw [hidem]
    cases hq : jsToNumber (trimS body) with
    | none => simp [hne, hq]
    | some q =>
      have hn := hfail q hq
      simp only [hne, if_false, hq]
      rw [if_neg hn]
  · intro hnone
    unfold resolvePendingSelection
    rw [hp]
    simp [hne, hnone]
  · intro c hc
    refine ⟨?_, ?_, ?_⟩ <;>
      (unfold resolvePendingSelection; rw [hp]; simp [hne, hc])

theorem pending_selection_matching_witness :
    matchCandidateInput (trimS "1") [cexC1, cexC2] = some cexC1 := by
  have h := (pending_selection_matching envForTests cexSession worldEmpty "1"
    cexPending rfl (by decide)).1 1 (by decide) (by decide) (by decide)
    (by decide)
  exact h.trans (by decide)

/-! ### C8: unauthorized senders -/

theorem normalizePhone_ne_empty (v : Option String) (d : String)
    (h : normalizePhone v = some d) : d ≠ "" := by
  cases v with
  | none => simp [normalizePhone] at h
  | some s =>
    simp only [normalizePhone] at h
    by_cases he : (s.data.filter Char.isDigit).isEmpty = true
    · rw [if_pos he] at h; exact absurd h (by simp)
    · rw [if_neg he] at h
      injection h with h
      intro hc
      subst hc
      apply he
      have hl : s.data.filter Char.isDigit = List.nil := congrArg String.data h
      rw [hl]
      rfl

/-- C8: a message whose sender resolves to no technician deletes any session
and replies only when it is a start command, with the rejection naming the
sender's own phone digits when present and otherwise the display label (or a
generic mention). -/
theorem unauthorized_sender_handling (env : Env) (w : World)
    (sess : Option TicketSession) (m : Msg)
    (h : resolveSenderNumber env (senderOfMsg m) = none) :
    (handleMessage env w sess m).session = none ∧
    (handleMessage env w sess m).world = w ∧
    ((matchCommand (normalizeText m.body) startCommands).isSome = true →
      (handleMessage env w sess m).eff =
        [.reply (buildUnauthorizedMessage env (senderOfMsg m))]) ∧
    ((matchCommand (normalizeText m.body) startCommands).isSome = false →
      (handleMessage env w sess m).eff = []) ∧
    (∀ d, normalizePhone (senderOfMsg m).senderNumber = some d →
      buildUnauthorizedMessage env (senderOfMsg m) =
        "Lo lamento @" ++ d ++ " tienes que estar en la lista de tecnicos.") ∧
    (normalizePhone (senderOfMsg m).senderNumber = none →
      buildUnauthorizedMessage env (senderOfMsg m) =
        "Lo lamento " ++
          (if optTrim (senderOfMsg m).senderLabel ≠ "" then
            optTrim (senderOfMsg m).senderLabel
          else "@mencion") ++
          " tienes que estar en la lista de tecnicos.") := by
  have hauth : isAuthorizedSender env (senderOfMsg m) = false := by
    simp [isAuthorizedSender, h]
  refine ⟨?_, ?_, ?_, ?_, ?_, ?_⟩
  · simp [handleMessage, hauth]
  · simp [handleMessage, hauth]
  · intro hs; simp [handleMessage, hauth, hs]
  · intro hs; simp [handleMessage, hauth, hs]
  · intro d hd
    have hdd := normalizePhone_ne_empty _ _ hd
    simp [buildUnauthorizedMessage, h, hd, jsOr, strTruthy, strOfOpt, hdd]
  · intro hd
    simp [buildUnauthorizedMessage, h, hd, jsOr, strTruthy, strOfOpt]

theorem unauthorized_sender_handling_witness :
    resolveSenderNumber envForTests (senderOfMsg msgUnauthStart) = none ∧
    (handleMessage envForTests worldEmpty none msgUnauthStart).session = none ∧
    (handleMessage envForTests worldEmpty none msgUnauthStart).eff =
      [.reply (buildUnauthorizedMessage envForTests (senderOfMsg msgUnauthStart))] :=
  ⟨rfl,
   (unauthorized_sender_handling envForTests worldEmpty none msgUnauthStart rfl).1,
   (unauthorized_sender_handling envForTests worldEmpty none msgUnauthStart
     rfl).2.2.1 (by decide)⟩

/-! ### C3: the national-ID resolution path -/

theorem isDigit_toNat (c : Char) (h : c.isDigit = true) :
    48 ≤ c.toNat ∧ c.toNat ≤ 57 := by
  simp only [Char.isDigit, ge_iff_le, Bool.and_eq_true, decide_eq_true_eq] at h
  exact ⟨h.1, h.2⟩

theorem isJsWs_false_of_digit (c : Char) (h1 : 48 ≤ c.toNat)
    (h2 : c.toNat ≤ 57) : isJsWs c = false := by
  simp only [isJsWs, Bool.or_eq_false_iff, beq_eq_false_iff_ne, ne_eq,
    Bool.and_eq_false_iff, decide_eq_false_iff_not, not_le]
  omega

theorem isDigit_false_of_jsWs (c : Char) (h : isJsWs c = true) :
    c.isDigit = false := by
  cases hcd : c.isDigit
  · rfl
  · obtain ⟨h1, h2⟩ := isDigit_toNat c hcd
    rw [isJsWs_false_of_digit c h1 h2] at h
    cases h

theorem filter_isDigit_trimLead (l : List Char) :
    (trimLead l).filter Char.isDigit = l.filter Char.isDigit := by
  induction l with
  | nil => rfl
  | cons c rest ih =>
    by_cases hc : isJsWs c = true
    · have hd := isDigit_false_of_jsWs c hc
      show (List.dropWhile isJsWs (c :: rest)).filter Char.isDigit = _
      rw [List.dropWhile_cons]
      simp only [hc, if_true]
      rw [List.filter_cons_of_neg (by simp [hd])]
      exact ih
    · show (List.dropWhile isJsWs (c :: rest)).filter Char.isDigit = _
      rw [List.dropWhile_cons]
      simp [hc]

theorem filter_isDigit_trimTrail (l : List Char) :
    (trimTrail l).filter Char.isDigit = l.filter Char.isDigit := by
  induction l with
  | nil => rfl
  | cons c rest ih =>
    simp only [trimTrail]
    cases hr : trimTrail rest with
    | nil =>
      have hrest : rest.filter Char.isDigit = [] := by rw [← ih, hr]; rfl
      by_cases hc : isJsWs c = true
      · have hd := isDigit_false_of_jsWs c hc
        simp [hc, List.filter_cons, hd, hrest]
      · simp [hc, List.filter_cons, hrest]
    | cons d t =>
      have h2 : List.filter Char.isDigit (d :: t) = List.filter Char.isDigit rest := by
        rw [← hr]; exact ih
      simp [List.filter_cons, h2]

theorem filter_isDigit_trimS (s : String) :
    (trimS s).data.filter Char.isDigit = s.data.filter Char.isDigit := by
  show (trimTrail (trimLead s.data)).filter Char.isDigit = _
  rw [filter_isDigit_trimTrail, filter_isDigit_trimLead]

theorem hcr_noSearchDni (env : Env) (s : TicketSession) (w : World)
    (role : Role) (cands : List GlpiUserCandidate) (msg : String) :
    noSearchDni (handleCandidateResults env s w role cands msg).eff = true := by
  rcases cands with _ | ⟨c, _ | ⟨c2, t⟩⟩
  · cases hr : env.hasReact <;>
      simp [handleCandidateResults, reactEff, hr, noSearchDni]
  · simp [handleCandidateResults, noSearchDni]
  · have h := (prompt_eff env s w role (c :: c2 :: t)).2.2.2.2
    simpa [handleCandidateResults] using h

/-- C3 counterexample: the value "73 872 028" is not an 8-digit string (it has
spaces and length 10), yet identity resolution takes the national-ID search
path for "73872028", because the code first strips every non-digit character
and only then counts digits. -/
theorem dni_path_counterexample :
    (trimS "73 872 028").data.length = 10 ∧
    ((trimS "73 872 028").data.all Char.isDigit) = false ∧
    extractDni (trimS "73 872 028") = some "73872028" ∧
    (resolveUserId envForTests freshSession worldEmpty "73 872 028"
        .solicitante true).eff.head? =
      some (Effect.searchDni "73872028" (.ok [])) :=
  ⟨by decide, by decide, by decide, by decide⟩

/-- C3 (amended): with no cached id for the role and a nonblank value,
identity resolution takes the national-ID path iff the value contains exactly
8 digit characters once every non-digit is stripped (trimming changes no digit
characters); on that path the searched ID is exactly those 8 digits, and a
single-candidate search result yields that candidate id, an empty result
yields no id plus a not-found reply, and a result with two or more candidates
never silently yields an id; off that path no national-ID search is issued. -/
theorem dni_path_characterization (env : Env) (s : TicketSession) (w : World)
    (value : String) (role : Role) (allowName : Bool)
    (hcache : (match role with
      | .solicitante => s.resolvedRequesterId
      | .tecnico => s.resolvedAssigneeId) = none)
    (hne : trimS value ≠ "") :
    ((extractDni (trimS value)).isSome = true ↔
      (value.data.filter Char.isDigit).length = 8) ∧
    (∀ dni, extractDni (trimS value) = some dni →
      dni = ⟨value.data.filter Char.isDigit⟩ ∧
      (∃ rest, (resolveUserId env s w value role allowName).eff =
        Effect.searchDni dni (env.dniResults dni) :: rest) ∧
      (∀ c, env.dniResults dni = .ok [c] →
        (resolveUserId env s w value role allowName).val = some c.id) ∧
      (env.dniResults dni = .ok [] →
        (resolveUserId env s w value role allowName).val = none ∧
        Effect.reply (s!"No se encontro {roleStr role} con DNI {dni}.") ∈
          (resolveUserId env s w value role allowName).eff) ∧
      (∀ cs, env.dniResults dni = .ok cs → 2 ≤ cs.length →
        (resolveUserId env s w value role allowName).val = none)) ∧
    (extractDni (trimS value) = none →
      noSearchDni (resolveUserId env s w value role allowName).eff = true) := by
  refine ⟨?_, ?_, ?_⟩
  · simp only [extractDni]
    rw [filter_isDigit_trimS]
    by_cases h8 : (value.data.filter Char.isDigit).length = 8 <;> simp [h8]
  · intro dni hd
    have hdni : dni = ⟨value.data.filter Char.isDigit⟩ := by
      simp only [extractDni] at hd
      rw [filter_isDigit_trimS] at hd
      by_cases h8 : (value.data.filter Char.isDigit).length = 8
      · rw [if_pos h8] at hd
        injection hd with hd
        exact hd.symm
      · rw [if_neg h8] at hd
        cases hd
    have hEq : resolveUserId env s w value role allowName =
        (match env.dniResults dni with
         | .ok cands =>
           ⟨(handleCandidateResults env s w role cands
               (s!"No se encontro {roleStr role} con DNI {dni}.")).session,
            (handleCandidateResults env s w role cands
               (s!"No se encontro {roleStr role} con DNI {dni}.")).world,
            Effect.searchDni dni (.ok cands) ::
              (handleCandidateResults env s w role cands
                (s!"No se encontro {roleStr role} con DNI {dni}.")).eff,
            (handleCandidateResults env s w role cands
              (s!"No se encontro {roleStr role} con DNI {dni}.")).val⟩
         | .error e =>
           ⟨s, w, [Effect.searchDni dni (.error e),
             .reply (s!"Error al buscar DNI: {e}")], none⟩) := by
      unfold resolveUserId
      cases role
      case solicitante =>
        have hc : s.resolvedRequesterId = none := hcache
        simp only [hc, hne, if_false, hd]
        cases hres : env.dniResults dni <;> simp [hres]
      case tecnico =>
        have hc : s.resolvedAssigneeId = none := hcache
        simp only [hc, hne, if_false, hd]
        cases hres : env.dniResults dni <;> simp [hres]
    refine ⟨hdni, ?_, ?_, ?_, ?_⟩
    · rw [hEq]
      cases hres : env.dniResults dni with
      | ok cands => exact ⟨_, rfl⟩
      | error e => exact ⟨_, rfl⟩
    · intro c hresc
      rw [hEq, hresc]
      rfl
    · intro hres0
      rw [hEq, hres0]
      refine ⟨rfl, ?_⟩
      cases hr : env.hasReact <;>
        simp [handleCandidateResults, reactEff, hr]
    · intro cs hres hlen
      rw [hEq, hres]
      match cs, hlen with
      | a :: b :: t, _ => rfl
  · intro hd0
    unfold resolveUserId
    cases role
    case solicitante =>
      have hc : s.resolvedRequesterId = none := hcache
      simp only [hc, hne, if_false, hd0]
      cases allowName with
      | false => simp [noSearchDni]
      | true =>
        simp only [Bool.not_true, Bool.false_eq_true, if_false]
        by_cases htk : (wordsOf (trimS value)).length < 2
        · simp [htk, noSearchDni]
        · simp only [htk, if_false]
          by_cases hc1 : (env.nameResults (trimS value) true).isEmpty
          · have g := hcr_noSearchDni env s w .solicitante
              (env.nameResults (trimS value) false)
              "No se encontro solicitante con ese nombre. Envia DNI."
            simp [hc1, g, noSearchDni_append, noSearchDni_cons, noSearchDni_nil]
          · have g := hcr_noSearchDni env s w .solicitante
              (env.nameResults (trimS value) true)
              "No se encontro solicitante con ese nombre. Envia DNI."
            simp [hc1, g, noSearchDni_append, noSearchDni_cons, noSearchDni_nil]
    case tecnico =>
      have hc : s.resolvedAssigneeId = none := hcache
      simp only [hc, hne, if_false, hd0]
      cases allowName with
      | false => simp [noSearchDni]
      | true =>
        simp only [Bool.not_true, Bool.false_eq_true, if_false]
        by_cases hc1 : ((env.nameResults (trimS value)
            (decide (2 ≤ (wordsOf (trimS value)).length))).isEmpty &&
            decide (2 ≤ (wordsOf (trimS value)).length)) = true
        · have g := hcr_noSearchDni env s w .tecnico
            (env.nameResults (trimS value) false)
            (s!"No se encontro tecnico con nombre \x27{trimS value}\x27. Envia DNI.")
          simp [hc1, g, noSearchDni_append, noSearchDni_cons, noSearchDni_nil]
        · have g := hcr_noSearchDni env s w .tecnico
            (env.nameResults (trimS value)
              (decide (2 ≤ (wordsOf (trimS value)).length)))
            (s!"No se encontro tecnico con nombre \x27{trimS value}\x27. Envia DNI.")
          simp [hc1, g, noSearchDni_append, noSearchDni_cons, noSearchDni_nil]

theorem dni_path_characterization_witness :
    ((extractDni (trimS "73872028")).isSome = true ↔
      (("73872028" : String).data.filter Char.isDigit).length = 8) ∧
    (("73872028" : String).data.filter Char.isDigit).length = 8 :=
  ⟨(dni_path_characterization envForTests freshSession worldEmpty "73872028"
      .solicitante true rfl (by decide)).1,
   by decide⟩

/-! ### C1: create-at-most-once invariant -/

theorem guarded_of_no_creates (l : List Effect) (h : createsOf l = []) :
    createsGuarded l = true := by
  rw [createsGuarded_def, h]
  rfl

theorem succ_zero_of_no_creates (l : List Effect) (h : createsOf l = []) :
    createSuccCount l = 0 := by
  rw [createSuccCount_def, h]
  rfl

theorem uploadAttachment_createsOf (w : World) (tid : String)
    (m : MediaPayload) : createsOf (uploadAttachment w tid m).eff = [] := by
  simp [uploadAttachment, createsOf_cons, createsOf_nil]

theorem uploadLoop_c1 (env : Env) (tid : String) (ms : List MediaPayload) :
    ∀ (s : TicketSession) (w : World),
    createsOf (uploadLoop env tid ms s w).eff = [] ∧
    (uploadLoop env tid ms s w).session.ticketId = s.ticketId := by
  induction ms with
  | nil => intro s w; simp [uploadLoop, createsOf_nil]
  | cons m rest ih =>
    intro s w
    obtain ⟨h1, h2⟩ := ih (if (uploadAttachment w tid m).ok then
      { s with uploadedCount := s.uploadedCount + 1 } else s)
      (uploadAttachment w tid m).world
    simp only [uploadLoop]
    constructor
    · rw [createsOf_append, h1, uploadAttachment_createsOf]
      rfl
    · rw [h2]
      by_cases h : (uploadAttachment w tid m).ok = true <;> simp [h]

theorem upa_c1 (env : Env) (s : TicketSession) (w : World) :
    createsOf (uploadPendingAttachments env s w).eff = [] ∧
    (uploadPendingAttachments env s w).session.ticketId = s.ticketId := by
  cases ht : s.ticketId with
  | none => simp [uploadPendingAttachments, ht, createsOf_nil]
  | some tid =>
    by_cases he : s.attachments.isEmpty = true
    · simp [uploadPendingAttachments, ht, he, createsOf_nil]
    · obtain ⟨h1, h2⟩ := uploadLoop_c1 env tid s.attachments
        { draft := s.draft, ticketId := some tid, attachments := [],
          awaitingText := s.awaitingText, uploadedCount := s.uploadedCount,
          resolvedRequesterId := s.resolvedRequesterId,
          resolvedAssigneeId := s.resolvedAssigneeId,
          pendingSelection := s.pendingSelection } w
      simp [uploadPendingAttachments, ht, he, h1, h2]

theorem handleMedia_c1 (env : Env) (s : TicketSession) (w : World) :
    createsOf (handleMedia env s w).eff = [] ∧
    (handleMedia env s w).session.ticketId = s.ticketId := by
  cases hm : (takeMedia w).1 with
  | none =>
    cases hr : env.hasReact <;>
      simp [handleMedia, hm, reactEff, hr, createsOf_cons, createsOf_nil,
        createsOf_append]
  | some media =>
    cases ht : s.ticketId with
    | none =>
      cases hr : env.hasReact <;> cases hawait : s.awaitingText <;>
        simp [handleMedia, hm, ht, reactEff, hr, hawait, createsOf_append,
          createsOf_cons, createsOf_nil]
    | some tid =>
      by_cases hok : (uploadAttachment (takeMedia w).2 tid media).ok = true <;>
        cases hr : env.hasReact <;>
          simp [handleMedia, hm, ht, hok, reactEff, hr, createsOf_append,
            createsOf_cons, createsOf_nil, uploadAttachment_createsOf]

theorem rps_c1 (env : Env) (s : TicketSession) (w : World) (body : String) :
    createsOf (resolvePendingSelection env s w body).eff = [] ∧
    (resolvePendingSelection env s w body).session.ticketId = s.ticketId := by
  unfold resolvePendingSelection
  cases hp : s.pendingSelection with
  | none => simp [createsOf_nil]
  | some pending =>
    by_cases hb : trimS body = ""
    · simp [hb, createsOf_nil]
    · simp only [hb, if_false]
      cases hm : matchCandidateInput (trimS body) pending.candidates with
      | none =>
        cases hr : env.hasReact <;>
          simp [reactEff, hr, createsOf_append, createsOf_cons, createsOf_nil]
      | some c =>
        have hpp := (applyResolvedCandidate_proj s pending.role c).2.1
        cases hr : env.hasReact <;>
          simp [reactEff, hr, createsOf_append, createsOf_cons, createsOf_nil,
            hpp]

theorem applyParsedToSession_proj (env : Env) (p : TicketDraft)
    (s : TicketSession) :
    (applyParsedToSession env p s).ticketId = s.ticketId ∧
    (applyParsedToSession env p s).attachments = s.attachments ∧
    (applyParsedToSession env p s).uploadedCount = s.uploadedCount ∧
    (applyParsedToSession env p s).pendingSelection = s.pendingSelection := by
  simp only [applyParsedToSession]
  split <;> split <;> simp

theorem handleText_c1 (env : Env) (m : Msg) (s : TicketSession) (w : World)
    (bo : Option String) :
    (s.ticketId = none →
      createsGuarded (handleText env m s w bo).eff = true ∧
      createSuccCount (handleText env m s w bo).eff =
        (if (handleText env m s w bo).session.ticketId.isSome then 1 else 0)) ∧
    (∀ tid, s.ticketId = some tid →
      createsOf (handleText env m s w bo).eff = [] ∧
      (handleText env m s w bo).session.ticketId = some tid) := by
  cases hp : parseTicketText (bo.getD m.body) with
  | none =>
    constructor
    · intro ht
      by_cases ha : s.awaitingText = true <;> cases hr : env.hasReact <;>
        simp [handleText, hp, ha, hr, reactEff, ht, createsGuarded_def,
          createSuccCount_def, createsOf_cons, createsOf_nil, createsOf_append]
    · intro tid ht
      by_cases ha : s.awaitingText = true <;> cases hr : env.hasReact <;>
        simp [handleText, hp, ha, hr, reactEff, ht, createsOf_cons,
          createsOf_nil, createsOf_append]
  | some parsed =>
    have hap := (applyParsedToSession_proj env parsed s).1
    by_cases hcomp :
        (((applyParsedToSession env parsed s).draft.getD {}).isComplete) = true
    · cases hst : (applyParsedToSession env parsed s).ticketId with
      | none =>
        have htn : s.ticketId = none := by rw [← hap]; exact hst
        obtain ⟨t1, t2, t3, t4, t5, t6, t7, t8⟩ :=
          tryCreateTicket_spec env (senderOfMsg m)
            (applyParsedToSession env parsed s) w hst
        constructor
        · intro ht
          by_cases hval : (tryCreateTicket env (senderOfMsg m)
              (applyParsedToSession env parsed s) w).val = true
          · obtain ⟨u1, u2⟩ := upa_c1 env
              (tryCreateTicket env (senderOfMsg m)
                (applyParsedToSession env parsed s) w).session
              (tryCreateTicket env (senderOfMsg m)
                (applyParsedToSession env parsed s) w).world
            have hsome : (tryCreateTicket env (senderOfMsg m)
                (applyParsedToSession env parsed s) w).session.ticketId.isSome =
                true := by rw [t3, hval]
            simp [handleText, hp, hcomp, hst, hval, createsGuarded_append,
              createSuccCount_append, t1, t2, u1, u2, hsome,
              guarded_of_no_creates _ u1, succ_zero_of_no_creates _ u1]
          · have hfalse : (tryCreateTicket env (senderOfMsg m)
                (applyParsedToSession env parsed s) w).val = false := by
              cases hv : (tryCreateTicket env (senderOfMsg m)
                  (applyParsedToSession env parsed s) w).val
              · rfl
              · exact absurd hv hval
            have hnone : (tryCreateTicket env (senderOfMsg m)
                (applyParsedToSession env parsed s) w).session.ticketId.isSome =
                false := by rw [t3, hfalse]
            simp [handleText, hp, hcomp, hst, hfalse, t1, t2, hnone]
        · intro tid ht
          rw [hap] at hst
          rw [ht] at hst
          cases hst
      | some tid0 =>
        constructor
        · intro ht
          rw [hap, ht] at hst
          cases hst
        · intro tid ht
          have : tid0 = tid := by
            rw [hap, ht] at hst
            injection hst with h
            exact h.symm
          subst this
          simp [handleText, hp, hcomp, hst, createsOf_nil]
    · constructor
      · intro ht
        have hstn : (applyParsedToSession env parsed s).ticketId = none := by
          rw [hap]; exact ht
        cases hr : env.hasReact <;>
          simp [handleText, hp, hcomp, hr, reactEff, hstn, createsGuarded_def,
            createSuccCount_def, createsOf_cons, createsOf_nil, createsOf_append]
      · intro tid ht
        have hsts : (applyParsedToSession env parsed s).ticketId = some tid := by
          rw [hap]; exact ht
        cases hr : env.hasReact <;>
          simp [handleText, hp, hcomp, hr, reactEff, hsts, createsOf_cons,
            createsOf_nil, createsOf_append]

theorem finalizeSession_c1 (env : Env) (sender : SenderInfo)
    (s : TicketSession) (w : World) :
    (s.ticketId = none →
      createsGuarded (finalizeSession env sender s w).eff = true ∧
      createSuccCount (finalizeSession env sender s w).eff ≤ 1 ∧
      (∀ s2, (finalizeSession env sender s w).session = some s2 →
        s2.ticketId = none →
        createSuccCount (finalizeSession env sender s w).eff = 0)) ∧
    (∀ tid, s.ticketId = some tid →
      createsOf (finalizeSession env sender s w).eff = [] ∧
      (finalizeSession env sender s w).session = none) := by
  by_cases hcomp : (match s.draft with
      | some d => d.isComplete
      | none => false) = true
  · constructor
    · intro ht
      obtain ⟨t1, t2, t3, t4, t5, t6, t7, t8⟩ :=
        tryCreateTicket_spec env sender s w ht
      by_cases hval : (tryCreateTicket env sender s w).val = true
      · obtain ⟨u1, u2⟩ := upa_c1 env
          (tryCreateTicket env sender s w).session
          (tryCreateTicket env sender s w).world
        refine ⟨?_, ?_, ?_⟩
        · cases hr : env.hasReact <;>
            simp [finalizeSession, finishFinalize, hcomp, ht, hval, hr, reactEff,
              createsGuarded_append, t1, guarded_of_no_creates _ u1,
              guarded_of_no_creates, createsOf_cons, createsOf_nil]
        · cases hr : env.hasReact <;>
            simp [finalizeSession, finishFinalize, hcomp, ht, hval, hr, reactEff,
              createSuccCount_append, t2, succ_zero_of_no_creates _ u1,
              succ_zero_of_no_creates, createsOf_cons, createsOf_nil]
        · intro s2 hs2
          simp [finalizeSession, finishFinalize, hcomp, ht, hval] at hs2
      · have hfalse : (tryCreateTicket env sender s w).val = false := by
          cases hv : (tryCreateTicket env sender s w).val
          · rfl
          · exact absurd hv hval
        have hnone : (tryCreateTicket env sender s w).session.ticketId = none := by
          cases hti : (tryCreateTicket env sender s w).session.ticketId
          · rfl
          · rw [hti] at t3
            rw [hfalse] at t3
            cases t3
        refine ⟨?_, ?_, ?_⟩
        · simp [finalizeSession, hcomp, ht, hfalse, t1]
        · simp [finalizeSession, hcomp, ht, hfalse, t2]
        · intro s2 hs2 hs2t
          simp [finalizeSession, hcomp, ht, hfalse, t2]
    · intro tid ht
      obtain ⟨u1, u2⟩ := upa_c1 env s w
      constructor
      · simp [finalizeSession, finishFinalize, hcomp, ht, createsOf_append,
          u1, createsOf_cons, createsOf_nil]
        cases hr : env.hasReact <;>
          simp [hr, reactEff, createsOf_cons, createsOf_nil]
      · simp [finalizeSession, finishFinalize, hcomp, ht]
  · constructor
    · intro ht
      cases hr : env.hasReact <;>
        refine ⟨?_, ?_, ?_⟩ <;>
          simp [finalizeSession, hcomp, hr, reactEff, createsGuarded_def,
            createSuccCount_def, createsOf_cons, createsOf_nil, createsOf_append]
    · intro tid ht
      cases hr : env.hasReact <;>
        constructor <;>
          simp [finalizeSession, hcomp, hr, reactEff, createsOf_cons,
            createsOf_nil, createsOf_append]

theorem c1_of_no_creates (st : StepR) (h : createsOf st.eff = []) :
    createsGuarded st.eff = true ∧
    createSuccCount st.eff ≤ 1 ∧
    (∀ s2, st.session = some s2 → s2.ticketId = none →
      createSuccCount st.eff = 0) :=
  ⟨guarded_of_no_creates _ h,
   by rw [succ_zero_of_no_creates _ h]; omega,
   fun _ _ _ => succ_zero_of_no_creates _ h⟩

theorem hpb_c1 (env : Env) (w : World) (s : TicketSession) (m : Msg)
    (pending : PendingSelection) (endCmd : Option (String × String)) :
    (s.ticketId = none →
      createsGuarded (handlePendingBranch env w s m pending endCmd).eff = true ∧
      createSuccCount (handlePendingBranch env w s m pending endCmd).eff ≤ 1 ∧
      (∀ s2, (handlePendingBranch env w s m pending endCmd).session = some s2 →
        s2.ticketId = none →
        createSuccCount (handlePendingBranch env w s m pending endCmd).eff = 0)) ∧
    (∀ tid, s.ticketId = some tid →
      createsOf (handlePendingBranch env w s m pending endCmd).eff = [] ∧
      (∀ s2, (handlePendingBranch env w s m pending endCmd).session = some s2 →
        s2.ticketId = some tid)) := by
  have hrm1 : createsOf (if m.hasMedia = true then handleMedia env s w
      else (⟨s, w, [], ()⟩ : SubRV Unit)).eff = [] := by
    by_cases hm : m.hasMedia = true
    · simp [hm, (handleMedia_c1 env s w).1]
    · simp [hm, createsOf_nil]
  have hrm2 : (if m.hasMedia = true then handleMedia env s w
      else (⟨s, w, [], ()⟩ : SubRV Unit)).session.ticketId = s.ticketId := by
    by_cases hm : m.hasMedia = true
    · simp [hm, (handleMedia_c1 env s w).2]
    · simp [hm]
  simp only [handlePendingBranch]
  generalize hRM : (if m.hasMedia = true then handleMedia env s w
      else (⟨s, w, [], ()⟩ : SubRV Unit)) = rM
  rw [hRM] at hrm1 hrm2
  by_cases hap : pending.awaitingPoll = true
  · simp only [hap, if_true]
    constructor
    · intro ht
      refine c1_of_no_creates ⟨rM.world, some rM.session, _⟩ ?_
      by_cases hie : endCmd.isSome = true <;>
        simp [hie, createsOf_append, hrm1, createsOf_cons, createsOf_nil]
    · intro tid ht
      constructor
      · by_cases hie : endCmd.isSome = true <;>
          simp [hie, createsOf_append, hrm1, createsOf_cons, createsOf_nil]
      · intro s2 hs2
        injection hs2 with hs2
        rw [← hs2, hrm2, ht]
  · simp only [hap, Bool.false_eq_true, if_false]
    by_cases hpm : strTruthy pending.pollMessageId = true
    · simp only [hpm, if_true]
      constructor
      · intro ht
        refine c1_of_no_creates ⟨rM.world, some rM.session, _⟩ ?_
        by_cases hie : endCmd.isSome = true <;>
          simp [hie, createsOf_append, hrm1, createsOf_cons, createsOf_nil]
      · intro tid ht
        constructor
        · by_cases hie : endCmd.isSome = true <;>
            simp [hie, createsOf_append, hrm1, createsOf_cons, createsOf_nil]
        · intro s2 hs2
          injection hs2 with hs2
          rw [← hs2, hrm2, ht]
    · simp only [hpm, Bool.false_eq_true, if_false]
      generalize hR : resolvePendingSelection env rM.session rM.world
        (match endCmd with
         | some cmd => stripCommandBody m.body cmd.1
         | none => m.body) = r
      have hr1 : createsOf r.eff = [] := by
        rw [← hR]
        exact (rps_c1 env rM.session rM.world _).1
      have hr2 : r.session.ticketId = rM.session.ticketId := by
        rw [← hR]
        exact (rps_c1 env rM.session rM.world _).2
      by_cases hrv : r.val = true
      · simp only [hrv, Bool.not_true, Bool.false_eq_true, if_false]
        by_cases hg : (draftComplete r.session && r.session.ticketId.isNone) = true
        · have hrtid : r.session.ticketId = none := by
            have := (Bool.and_eq_true _ _).mp hg
            exact Option.isNone_iff_eq_none.mp this.2
          simp only [hg, if_true]
          obtain ⟨t1, t2, t3, t4, t5, t6, t7, t8⟩ :=
            tryCreateTicket_spec env (senderOfMsg m) r.session r.world hrtid
          generalize hRC : tryCreateTicket env (senderOfMsg m)
            r.session r.world = rc
          rw [hRC] at t1 t2 t3 t7 t8
          constructor
          · intro ht
            by_cases hrcv : rc.val = true
            · obtain ⟨u1, u2⟩ := upa_c1 env rc.session rc.world
              generalize hRU : uploadPendingAttachments env
                rc.session rc.world = ru
              rw [hRU] at u1 u2
              have hsome : rc.session.ticketId.isSome = true := by
                rw [t3, hrcv]
              obtain ⟨tid2, hti⟩ := Option.isSome_iff_exists.mp hsome
              have hru : ru.session.ticketId = some tid2 := by rw [u2, hti]
              by_cases hie : endCmd.isSome = true
              · obtain ⟨fc, fs⟩ := (finalizeSession_c1 env (senderOfMsg m)
                  ru.session ru.world).2 tid2 hru
                refine ⟨?_, ?_, ?_⟩
                · simp [hie, hrcv, createsGuarded_append, t1,
                    guarded_of_no_creates, hrm1, hr1, u1, fc]
                · simp [hie, hrcv, createSuccCount_append, t2,
                    succ_zero_of_no_creates, hrm1, hr1, u1, fc]
                · intro s2 hs2
                  simp only [hie, hrcv, if_true] at hs2
                  rw [fs] at hs2
                  cases hs2
              · refine ⟨?_, ?_, ?_⟩
                · simp [hie, hrcv, createsGuarded_append, t1,
                    guarded_of_no_creates, hrm1, hr1, u1]
                · simp [hie, hrcv, createSuccCount_append, t2,
                    succ_zero_of_no_creates, hrm1, hr1, u1]
                · intro s2 hs2 hs2t
                  simp only [hie, hrcv, Bool.false_eq_true, if_false,
                    if_true] at hs2
                  injection hs2 with hs2
                  rw [← hs2, hru] at hs2t
                  cases hs2t
            · have hfalse : rc.val = false := by
                cases hv : rc.val
                · rfl
                · exact absurd hv hrcv
              have hnone : rc.session.ticketId = none := by
                cases hti : rc.session.ticketId
                · rfl
                · rw [hti] at t3
                  rw [hfalse] at t3
                  cases t3
              by_cases hie : endCmd.isSome = true
              · obtain ⟨fg, fle, f3⟩ := (finalizeSession_c1 env (senderOfMsg m)
                  rc.session rc.world).1 hnone
                refine ⟨?_, ?_, ?_⟩
                · simp [hie, hfalse, createsGuarded_append, t1, fg,
                    guarded_of_no_creates, hrm1, hr1]
                · simp [hie, hfalse, createSuccCount_append, t2, fle,
                    succ_zero_of_no_creates, hrm1, hr1]
                · intro s2 hs2 hs2t
                  simp only [hie, hfalse, Bool.false_eq_true, if_false,
                    if_true] at hs2
                  have hf0 := f3 s2 hs2 hs2t
                  simp [hie, hfalse, createSuccCount_append, t2, hf0,
                    succ_zero_of_no_creates, hrm1, hr1]
              · refine ⟨?_, ?_, ?_⟩
                · simp [hie, hfalse, createsGuarded_append, t1,
                    guarded_of_no_creates, hrm1, hr1]
                · simp [hie, hfalse, createSuccCount_append, t2,
                    succ_zero_of_no_creates, hrm1, hr1]
                · intro s2 hs2 hs2t
                  simp [hie, hfalse, createSuccCount_append, t2,
                    succ_zero_of_no_creates, hrm1, hr1]
          · intro tid ht
            exfalso
            have : r.session.ticketId = some tid := by rw [hr2, hrm2, ht]
            rw [this] at hrtid
            cases hrtid
        · simp only [hg, Bool.false_eq_true, if_false]
          by_cases hie : endCmd.isSome = true
          · constructor
            · intro ht
              have hrtid : r.session.ticketId = none := by rw [hr2, hrm2, ht]
              obtain ⟨fg, fle, f3⟩ := (finalizeSession_c1 env (senderOfMsg m)
                r.session r.world).1 hrtid
              refine ⟨?_, ?_, ?_⟩
              · simp [hie, createsGuarded_append, fg,
                  guarded_of_no_creates, hrm1, hr1, createsOf_nil]
              · simp [hie, createSuccCount_append, fle,
                  succ_zero_of_no_creates, hrm1, hr1, createsOf_nil]
              · intro s2 hs2 hs2t
                simp only [hie, if_true] at hs2
                have hf0 := f3 s2 hs2 hs2t
                simp [hie, createSuccCount_append, hf0,
                  succ_zero_of_no_creates, hrm1, hr1, createsOf_nil]
            · intro tid ht
              have hrtid : r.session.ticketId = some tid := by
                rw [hr2, hrm2, ht]
              obtain ⟨fc, fs⟩ := (finalizeSession_c1 env (senderOfMsg m)
                r.session r.world).2 tid hrtid
              constructor
              · simp [hie, createsOf_append, hrm1, hr1, fc, createsOf_nil]
              · intro s2 hs2
                simp only [hie, if_true] at hs2
                rw [fs] at hs2
                cases hs2
          · constructor
            · intro ht
              refine ⟨?_, ?_, ?_⟩
              · simp [hie, createsGuarded_append,
                  guarded_of_no_creates, hrm1, hr1, createsOf_nil]
              · simp [hie, createSuccCount_append,
                  succ_zero_of_no_creates, hrm1, hr1, createsOf_nil]
              · intro s2 hs2 hs2t
                simp [hie, createSuccCount_append,
                  succ_zero_of_no_creates, hrm1, hr1, createsOf_nil]
            · intro tid ht
              constructor
              · simp [hie, createsOf_append, hrm1, hr1, createsOf_nil]
              · intro s2 hs2
                simp only [hie, Bool.false_eq_true, if_false] at hs2
                injection hs2 with hs2
                rw [← hs2, hr2, hrm2, ht]
      · simp only [hrv, Bool.not_false, if_true]
        constructor
        · intro ht
          refine c1_of_no_creates ⟨r.world, some r.session, _⟩ ?_
          by_cases hie : endCmd.isSome = true <;>
            simp [hie, createsOf_append, hrm1, hr1, createsOf_cons,
              createsOf_nil]
        · intro tid ht
          constructor
          · by_cases hie : endCmd.isSome = true <;>
              simp [hie, createsOf_append, hrm1, hr1, createsOf_cons,
                createsOf_nil]
          · intro s2 hs2
            injection hs2 with hs2
            rw [← hs2, hr2, hrm2, ht]

theorem createsGuarded_reply_cons (t : String) (l : List Effect) :
    createsGuarded (.reply t :: l) = createsGuarded l := by
  simp [createsGuarded_def, createsOf_cons]

theorem createSuccCount_reply_cons (t : String) (l : List Effect) :
    createSuccCount (.reply t :: l) = createSuccCount l := by
  simp [createSuccCount_def, createsOf_cons]

theorem hpv_c1 (env : Env) (w : World) (sess : Option TicketSession)
    (v : PollVote) :
    (sess = none → handlePollVote env w sess v = ⟨w, none, []⟩) ∧
    (∀ s0, sess = some s0 → s0.ticketId = none →
      createsGuarded (handlePollVote env w sess v).eff = true ∧
      createSuccCount (handlePollVote env w sess v).eff ≤ 1 ∧
      (∀ s2, (handlePollVote env w sess v).session = some s2 →
        s2.ticketId = none →
        createSuccCount (handlePollVote env w sess v).eff = 0)) ∧
    (∀ s0 tid, sess = some s0 → s0.ticketId = some tid →
      createsOf (handlePollVote env w sess v).eff = [] ∧
      (∀ s2, (handlePollVote env w sess v).session = some s2 →
        s2.ticketId = some tid)) := by
  cases sess with
  | none =>
    exact ⟨fun _ => rfl,
      fun s0 hs0 => absurd hs0 (by simp),
      fun s0 tid hs0 => absurd hs0 (by simp)⟩
  | some s =>
    refine ⟨fun h => absurd h (by simp), ?_, ?_⟩
    · intro s0 hs0 ht
      injection hs0 with he
      subst he
      cases hp : s.pendingSelection with
      | none =>
        simp [handlePollVote, hp, createsGuarded_def, createSuccCount_def,
          createsOf_nil]
      | some pending =>
        by_cases h1 : strTruthy pending.pollMessageId = true
        · by_cases hA : strTruthy v.pollMessageId = true
          · by_cases hB : pending.pollMessageId = v.pollMessageId
            · cases hpick : pickCandidateFromPollVote pending v with
              | none =>
                simp [handlePollVote, hp, h1, hA, hB, hpick,
                  createsGuarded_def, createSuccCount_def, createsOf_cons,
                  createsOf_nil]
              | some candidate =>
                simp only [handlePollVote, hp, h1, hA, hB, hpick]
                simp only [Bool.not_true, Bool.false_eq_true, if_false,
                  ne_eq, not_true_eq_false, or_self]
                generalize hS1 :
                  applyResolvedCandidate s pending.role candidate = s1
                have ht1 : s1.ticketId = s.ticketId := by
                  rw [← hS1]
                  exact (applyResolvedCandidate_proj s pending.role candidate).2.1
                by_cases hg :
                    (draftComplete { s1 with pendingSelection := none } &&
                    ({ s1 with pendingSelection := none } :
                      TicketSession).ticketId.isNone) = true
                · have hs2none : ({ s1 with pendingSelection := none } :
                      TicketSession).ticketId = none := by
                    have := (Bool.and_eq_true _ _).mp hg
                    exact Option.isNone_iff_eq_none.mp this.2
                  obtain ⟨t1, t2, t3, t4, t5, t6, t7, t8⟩ :=
                    tryCreateTicket_spec env (senderOfVote v)
                      { s1 with pendingSelection := none } w hs2none
                  generalize hRC : tryCreateTicket env (senderOfVote v)
                    { s1 with pendingSelection := none } w = rc
                  rw [hRC] at t1 t2 t3 t7 t8
                  by_cases hrcv : rc.val = true
                  · obtain ⟨u1, u2⟩ := upa_c1 env rc.session rc.world
                    generalize hRU : uploadPendingAttachments env
                      rc.session rc.world = ru
                    rw [hRU] at u1 u2
                    have hsome : rc.session.ticketId.isSome = true := by
                      rw [t3, hrcv]
                    obtain ⟨tid2, hti⟩ := Option.isSome_iff_exists.mp hsome
                    have hru : ru.session.ticketId = some tid2 := by
                      rw [u2, hti]
                    refine ⟨?_, ?_, ?_⟩
                    · simp [hg, hrcv, createsGuarded_append,
                        createsGuarded_reply_cons, t1,
                        guarded_of_no_creates, u1, createsOf_cons,
                        createsOf_nil]
                    · simp [hg, hrcv, createSuccCount_append,
                        createSuccCount_reply_cons, t2,
                        succ_zero_of_no_creates, u1, createsOf_cons,
                        createsOf_nil]
                    · intro s2 hs2 hs2t
                      simp only [hg, hrcv, if_true] at hs2
                      injection hs2 with hs2
                      rw [← hs2, hru] at hs2t
                      cases hs2t
                  · have hfalse : rc.val = false := by
                      cases hv : rc.val
                      · rfl
                      · exact absurd hv hrcv
                    refine ⟨?_, ?_, ?_⟩
                    · simp [hg, hfalse, createsGuarded_append,
                        createsGuarded_reply_cons, t1,
                        createsOf_cons, createsOf_nil, guarded_of_no_creates]
                    · simp [hg, hfalse, createSuccCount_append,
                        createSuccCount_reply_cons, t2,
                        createsOf_cons, createsOf_nil, succ_zero_of_no_creates]
                    · intro s2 hs2 hs2t
                      simp [hg, hfalse, createSuccCount_append,
                        createSuccCount_reply_cons, t2,
                        createsOf_cons, createsOf_nil, succ_zero_of_no_creates]
                · simp [hg, createsGuarded_def, createSuccCount_def,
                    createsOf_cons, createsOf_nil]
            · simp [handlePollVote, hp, h1, hA, hB, createsGuarded_def,
                createSuccCount_def, createsOf_nil]
          · simp [handlePollVote, hp, h1, hA, createsGuarded_def,
              createSuccCount_def, createsOf_nil]
        · simp [handlePollVote, hp, h1, createsGuarded_def,
            createSuccCount_def, createsOf_nil]
    · intro s0 tid hs0 ht
      injection hs0 with he
      subst he
      cases hp : s.pendingSelection with
      | none => simp [handlePollVote, hp, createsOf_nil, ht]
      | some pending =>
        by_cases h1 : strTruthy pending.pollMessageId = true
        · by_cases hA : strTruthy v.pollMessageId = true
          · by_cases hB : pending.pollMessageId = v.pollMessageId
            · cases hpick : pickCandidateFromPollVote pending v with
              | none =>
                simp [handlePollVote, hp, h1, hA, hB, hpick, createsOf_cons,
                  createsOf_nil, ht]
              | some candidate =>
                simp only [handlePollVote, hp, h1, hA, hB, hpick]
                simp only [Bool.not_true, Bool.false_eq_true, if_false,
                  ne_eq, not_true_eq_false, or_self]
                generalize hS1 :
                  applyResolvedCandidate s pending.role candidate = s1
                have ht1 : s1.ticketId = s.ticketId := by
                  rw [← hS1]
                  exact (applyResolvedCandidate_proj s pending.role candidate).2.1
                have hs2some : ({ s1 with pendingSelection := none } :
                    TicketSession).ticketId = some tid := by
                  show s1.ticketId = some tid
                  rw [ht1, ht]
                have hg : (draftComplete { s1 with pendingSelection := none } &&
                    ({ s1 with pendingSelection := none } :
                      TicketSession).ticketId.isNone) = false := by
                  rw [Bool.and_eq_false_iff]
                  right
                  rw [hs2some]
                  rfl
                constructor
                · simp [hg, createsOf_cons, createsOf_nil]
                · intro s2 hs2
                  simp only [hg, Bool.false_eq_true, if_false] at hs2
                  injection hs2 with hs2
                  rw [← hs2]
                  exact hs2some
            · simp [handlePollVote, hp, h1, hA, hB, createsOf_nil, ht]
          · simp [handlePollVote, hp, h1, hA, createsOf_nil, ht]
        · simp [handlePollVote, hp, h1, createsOf_nil, ht]

theorem handleMessage_c1 (env : Env) (w : World) (sess : Option TicketSession)
    (m : Msg)
    (hstart : matchCommand (normalizeText m.body) startCommands = none) :
    (sess = none → (handleMessage env w sess m).session = none ∧
      createsOf (handleMessage env w sess m).eff = []) ∧
    (∀ s0, sess = some s0 → s0.ticketId = none →
      createsGuarded (handleMessage env w sess m).eff = true ∧
      createSuccCount (handleMessage env w sess m).eff ≤ 1 ∧
      (∀ s2, (handleMessage env w sess m).session = some s2 →
        s2.ticketId = none →
        createSuccCount (handleMessage env w sess m).eff = 0)) ∧
    (∀ s0 tid, sess = some s0 → s0.ticketId = some tid →
      createsOf (handleMessage env w sess m).eff = [] ∧
      (∀ s2, (handleMessage env w sess m).session = some s2 →
        s2.ticketId = some tid)) := by
  by_cases hauth : isAuthorizedSender env (senderOfMsg m) = true
  · cases sess with
    | none =>
      refine ⟨fun _ => ?_, fun s0 hs0 => absurd hs0 (by simp),
        fun s0 tid hs0 => absurd hs0 (by simp)⟩
      by_cases hie : (matchCommand (normalizeText m.body) endCommands).isSome
          = true <;>
        simp [handleMessage, hauth, hstart, hie, createsOf_cons, createsOf_nil]
    | some s =>
      refine ⟨fun h => absurd h (by simp), ?_, ?_⟩
      · intro s0 hs0 ht
        injection hs0 with he
        subst he
        cases hps : s.pendingSelection with
        | some pending =>
          simp only [handleMessage, hauth, hstart, hps, Bool.not_true,
            Bool.false_eq_true, if_false]
          exact (hpb_c1 env w s m pending
            (matchCommand (normalizeText m.body) endCommands)).1 ht
        | none =>
          simp only [handleMessage, hauth, hstart, hps, Bool.not_true,
            Bool.false_eq_true, if_false]
          by_cases hm : m.hasMedia = true
          · obtain ⟨m1, m2⟩ := handleMedia_c1 env s w
            generalize hR : handleMedia env s w = r
            rw [hR] at m1 m2
            have hrt : r.session.ticketId = none := by rw [m2, ht]
            by_cases hie : (matchCommand (normalizeText m.body)
                endCommands).isSome = true
            · obtain ⟨fg, fle, f3⟩ := (finalizeSession_c1 env (senderOfMsg m)
                r.session r.world).1 hrt
              refine ⟨?_, ?_, ?_⟩
              · simp [hm, hie, createsGuarded_append, fg,
                  guarded_of_no_creates, m1]
              · simp [hm, hie, createSuccCount_append, fle,
                  succ_zero_of_no_creates, m1]
              · intro s2 hs2 hs2t
                simp only [hm, hie, if_true] at hs2
                have hf0 := f3 s2 hs2 hs2t
                simp [hm, hie, createSuccCount_append, hf0,
                  succ_zero_of_no_creates, m1]
            · refine ⟨?_, ?_, ?_⟩
              · simp [hm, hie, guarded_of_no_creates, m1]
              · simp [hm, hie, succ_zero_of_no_creates, m1]
              · intro s2 hs2 hs2t
                simp [hm, hie, succ_zero_of_no_creates, m1]
          · by_cases hie : (matchCommand (normalizeText m.body)
                endCommands).isSome = true
            · simp only [hm, hie, Bool.false_eq_true, if_false, if_true]
              exact (finalizeSession_c1 env (senderOfMsg m) s w).1 ht
            · obtain ⟨g1, g2⟩ := (handleText_c1 env m s w none).1 ht
              generalize hR : handleText env m s w none = r
              rw [hR] at g1 g2
              refine ⟨?_, ?_, ?_⟩
              · simp [hm, hie, g1]
              · simp [hm, hie, g2]
                split <;> omega
              · intro s2 hs2 hs2t
                simp only [hm, hie, Bool.false_eq_true, if_false] at hs2
                injection hs2 with hs2
                rw [← hs2] at hs2t
                simp [hm, hie, g2, hs2t]
      · intro s0 tid hs0 ht
        injection hs0 with he
        subst he
        cases hps : s.pendingSelection with
        | some pending =>
          simp only [handleMessage, hauth, hstart, hps, Bool.not_true,
            Bool.false_eq_true, if_false]
          exact (hpb_c1 env w s m pending
            (matchCommand (normalizeText m.body) endCommands)).2 tid ht
        | none =>
          simp only [handleMessage, hauth, hstart, hps, Bool.not_true,
            Bool.false_eq_true, if_false]
          by_cases hm : m.hasMedia = true
          · obtain ⟨m1, m2⟩ := handleMedia_c1 env s w
            generalize hR : handleMedia env s w = r
            rw [hR] at m1 m2
            have hrt : r.session.ticketId = some tid := by rw [m2, ht]
            by_cases hie : (matchCommand (normalizeText m.body)
                endCommands).isSome = true
            · obtain ⟨fc, fs⟩ := (finalizeSession_c1 env (senderOfMsg m)
                r.session r.world).2 tid hrt
              constructor
              · simp [hm, hie, createsOf_append, m1, fc]
              · intro s2 hs2
                simp only [hm, hie, if_true] at hs2
                rw [fs] at hs2
                cases hs2
            · constructor
              · simp [hm, hie, m1]
              · intro s2 hs2
                simp only [hm, hie, Bool.false_eq_true, if_false] at hs2
                injection hs2 with hs2
                rw [← hs2]
                exact hrt
          · by_cases hie : (matchCommand (normalizeText m.body)
                endCommands).isSome = true
            · simp only [hm, hie, Bool.false_eq_true, if_false, if_true]
              obtain ⟨fc, fs⟩ := (finalizeSession_c1 env (senderOfMsg m)
                s w).2 tid ht
              refine ⟨fc, ?_⟩
              intro s2 hs2
              rw [fs] at hs2
              cases hs2
            · obtain ⟨g1, g2⟩ := (handleText_c1 env m s w none).2 tid ht
              generalize hR : handleText env m s w none = r
              rw [hR] at g1 g2
              constructor
              · simp [hm, hie, g1]
              · intro s2 hs2
                simp only [hm, hie, Bool.false_eq_true, if_false] at hs2
                injection hs2 with hs2
                rw [← hs2]
                exact g2
  · have hauthf : isAuthorizedSender env (senderOfMsg m) = false := by
      cases hv : isAuthorizedSender env (senderOfMsg m)
      · rfl
      · exact absurd hv hauth
    have hses : (handleMessage env w sess m).session = none := by
      simp [handleMessage, hauthf]
    have heff : createsOf (handleMessage env w sess m).eff = [] := by
      by_cases hsc : (matchCommand (normalizeText m.body)
          startCommands).isSome = true <;>
        simp [handleMessage, hauthf, hsc, createsOf_cons, createsOf_nil]
    refine ⟨fun _ => ⟨hses, heff⟩, ?_, ?_⟩
    · intro s0 hs0 ht
      refine ⟨guarded_of_no_creates _ heff, ?_, ?_⟩
      · rw [succ_zero_of_no_creates _ heff]
        omega
      · intro s2 hs2 hs2t
        exact succ_zero_of_no_creates _ heff
    · intro s0 tid hs0 ht
      refine ⟨heff, ?_⟩
      intro s2 hs2
      rw [hses] at hs2
      cases hs2

theorem stepE_c1 (env : Env) (st : StepR) (e : Event)
    (hs : isStartEvent e = false) (h : InvC1 st) : InvC1 (stepE env st e) := by
  obtain ⟨hg, hle, h0⟩ := h
  cases e with
  | msg m =>
    have hstart : matchCommand (normalizeText m.body) startCommands = none := by
      simp only [isStartEvent] at hs
      exact Option.not_isSome_iff_eq_none.mp (by simp [hs])
    obtain ⟨p0, p1, p2⟩ := handleMessage_c1 env st.world st.session m hstart
    cases hsess : st.session with
    | none =>
      obtain ⟨q1, q2⟩ := p0 hsess
      refine ⟨?_, ?_, ?_⟩
      · simp only [stepE]
        rw [createsGuarded_append, hg, guarded_of_no_creates _ q2]
        rfl
      · simp only [stepE]
        rw [createSuccCount_append, succ_zero_of_no_creates _ q2]
        omega
      · intro s2 hs2
        simp only [stepE] at hs2
        rw [q1] at hs2
        cases hs2
    | some s0 =>
      cases hti : s0.ticketId with
      | none =>
        have hsucc0 := h0 s0 hsess hti
        obtain ⟨g1, g2, g3⟩ := p1 s0 hsess hti
        refine ⟨?_, ?_, ?_⟩
        · simp only [stepE]
          rw [createsGuarded_append, hg, g1]
          rfl
        · simp only [stepE]
          rw [createSuccCount_append, hsucc0]
          omega
        · intro s2 hs2 hs2t
          simp only [stepE] at hs2 ⊢
          rw [createSuccCount_append, hsucc0, g3 s2 hs2 hs2t]
      | some tid =>
        obtain ⟨g1, g2⟩ := p2 s0 tid hsess hti
        refine ⟨?_, ?_, ?_⟩
        · simp only [stepE]
          rw [createsGuarded_append, hg, guarded_of_no_creates _ g1]
          rfl
        · simp only [stepE]
          rw [createSuccCount_append, succ_zero_of_no_creates _ g1]
          omega
        · intro s2 hs2 hs2t
          simp only [stepE] at hs2
          have := g2 s2 hs2
          rw [hs2t] at this
          cases this
  | vote v =>
    obtain ⟨p0, p1, p2⟩ := hpv_c1 env st.world st.session v
    cases hsess : st.session with
    | none =>
      have q := p0 hsess
      refine ⟨?_, ?_, ?_⟩
      · simp only [stepE]
        rw [q, createsGuarded_append, hg]
        rfl
      · simp only [stepE]
        rw [q, createSuccCount_append]
        have hz : createSuccCount ([] : List Effect) = 0 := rfl
        rw [hz]
        omega
      · intro s2 hs2
        simp only [stepE] at hs2
        rw [q] at hs2
        cases hs2
    | some s0 =>
      cases hti : s0.ticketId with
      | none =>
        have hsucc0 := h0 s0 hsess hti
        obtain ⟨g1, g2, g3⟩ := p1 s0 hsess hti
        refine ⟨?_, ?_, ?_⟩
        · simp only [stepE]
          rw [createsGuarded_append, hg, g1]
          rfl
        · simp only [stepE]
          rw [createSuccCount_append, hsucc0]
          omega
        · intro s2 hs2 hs2t
          simp only [stepE] at hs2 ⊢
          rw [createSuccCount_append, hsucc0, g3 s2 hs2 hs2t]
      | some tid =>
        obtain ⟨g1, g2⟩ := p2 s0 tid hsess hti
        refine ⟨?_, ?_, ?_⟩
        · simp only [stepE]
          rw [createsGuarded_append, hg, guarded_of_no_creates _ g1]
          rfl
        · simp only [stepE]
          rw [createSuccCount_append, succ_zero_of_no_creates _ g1]
          omega
        · intro s2 hs2 hs2t
          simp only [stepE] at hs2
          have := g2 s2 hs2
          rw [hs2t] at this
          cases this

theorem runEvents_c1 (env : Env) (events : List Event) :
    ∀ st : StepR, (∀ e ∈ events, isStartEvent e = false) → InvC1 st →
    InvC1 (runEvents env st events) := by
  induction events with
  | nil => intro st _ h; exact h
  | cons e rest ih =>
    intro st hno h
    have h1 := stepE_c1 env st e (hno e (by simp)) h
    have hno2 : ∀ e2 ∈ rest, isStartEvent e2 = false := by
      intro e2 he2
      exact hno e2 (by simp [he2])
    exact ih (stepE env st e) hno2 h1

/-- C1: across any sequence of events for one session (text messages, poll
votes, end commands — no new start command), every backend createTicket call
is made while the session has no ticket id, and at most one such call
succeeds; repeated completion triggers never produce a second successful
creation. -/
theorem ticket_created_at_most_once (env : Env) (w0 : World)
    (events : List Event)
    (hno : ∀ e ∈ events, isStartEvent e = false) :
    createsGuarded (runEvents env ⟨w0, some freshSession, []⟩ events).eff
      = true ∧
    createSuccCount (runEvents env ⟨w0, some freshSession, []⟩ events).eff
      ≤ 1 := by
  have hinit : InvC1 ⟨w0, some freshSession, []⟩ :=
    ⟨rfl, by rw [succ_zero_of_no_creates _ createsOf_nil]; omega,
     fun s hs ht => succ_zero_of_no_creates _ createsOf_nil⟩
  have h := runEvents_c1 env events ⟨w0, some freshSession, []⟩ hno hinit
  exact ⟨h.1, h.2.1⟩

theorem ticket_created_at_most_once_witness :
    (∀ e ∈ [Event.msg msgHola], isStartEvent e = false) ∧
    createSuccCount (runEvents envForTests
      ⟨worldEmpty, some freshSession, []⟩ [Event.msg msgHola]).eff ≤ 1 :=
  ⟨by decide,
   (ticket_created_at_most_once envForTests worldEmpty [Event.msg msgHola]
     (by decide)).2⟩

theorem uploadAttachment_obs (w : World) (tid : String) (m : MediaPayload) :
    uploadsOf (uploadAttachment w tid m).eff = [m] ∧
    uploadOkCount (uploadAttachment w tid m).eff =
      (if (uploadAttachment w tid m).ok = true then 1 else 0) ∧
    receivedCount (uploadAttachment w tid m).eff = 0 := by
  refine ⟨?_, ?_, ?_⟩ <;>
    simp [uploadAttachment, uploadsOf_cons, uploadsOf_nil, uploadOkCount_cons,
      uploadOkCount_nil, receivedCount_cons, receivedCount_nil]

theorem uploadLoop_spec (env : Env) (tid : String) (ms : List MediaPayload) :
    ∀ (s : TicketSession) (w : World),
    uploadsOf (uploadLoop env tid ms s w).eff = ms ∧
    uploadOkCount (uploadLoop env tid ms s w).eff ≤ ms.length ∧
    (uploadLoop env tid ms s w).session.uploadedCount =
      s.uploadedCount + uploadOkCount (uploadLoop env tid ms s w).eff ∧
    (uploadLoop env tid ms s w).session.attachments = s.attachments ∧
    receivedCount (uploadLoop env tid ms s w).eff = 0 := by
  induction ms with
  | nil =>
    intro s w
    simp [uploadLoop, uploadsOf_nil, uploadOkCount_nil, receivedCount_nil]
  | cons m rest ih =>
    intro s w
    obtain ⟨i1, i2, i3, i4, i5⟩ := ih (if (uploadAttachment w tid m).ok = true
      then { s with uploadedCount := s.uploadedCount + 1 } else s)
      (uploadAttachment w tid m).world
    obtain ⟨a1, a2, a3⟩ := uploadAttachment_obs w tid m
    simp only [uploadLoop]
    refine ⟨?_, ?_, ?_, ?_, ?_⟩
    · rw [uploadsOf_append, a1, i1]
      rfl
    · rw [uploadOkCount_append, a2]
      by_cases hok : (uploadAttachment w tid m).ok = true
      · rw [if_pos hok]
        simp only [List.length_cons]
        omega
      · rw [if_neg hok]
        simp only [List.length_cons]
        omega
    · rw [uploadOkCount_append, a2, i3]
      by_cases hok : (uploadAttachment w tid m).ok = true
      · rw [if_pos hok]
        simp only [hok, if_true]
        omega
      · rw [if_neg hok]
        simp only [hok, Bool.false_eq_true, if_false]
        omega
    · rw [i4]
      by_cases hok : (uploadAttachment w tid m).ok = true <;> simp [hok]
    · rw [receivedCount_append, a3, i5]

theorem upa_spec (env : Env) (s : TicketSession) (w : World) :
    (s.ticketId = none → uploadPendingAttachments env s w = ⟨s, w, [], ()⟩) ∧
    (∀ tid, s.ticketId = some tid →
      uploadsOf (uploadPendingAttachments env s w).eff = s.attachments ∧
      (uploadPendingAttachments env s w).session.attachments = [] ∧
      (uploadPendingAttachments env s w).session.uploadedCount =
        s.uploadedCount + uploadOkCount (uploadPendingAttachments env s w).eff ∧
      uploadOkCount (uploadPendingAttachments env s w).eff ≤
        s.attachments.length ∧
      receivedCount (uploadPendingAttachments env s w).eff = 0 ∧
      (uploadPendingAttachments env
          (uploadPendingAttachments env s w).session
          (uploadPendingAttachments env s w).world).eff = []) := by
  constructor
  · intro ht
    simp [uploadPendingAttachments, ht]
  · intro tid ht
    by_cases he : s.attachments.isEmpty = true
    · have hnil : s.attachments = [] := by
        cases hl : s.attachments
        · rfl
        · rw [hl] at he
          cases he
      simp [uploadPendingAttachments, ht, he, hnil, uploadsOf_nil,
        uploadOkCount_nil, receivedCount_nil]
    · obtain ⟨i1, i2, i3, i4, i5⟩ := uploadLoop_spec env tid s.attachments
        { draft := s.draft, ticketId := some tid, attachments := [],
          awaitingText := s.awaitingText, uploadedCount := s.uploadedCount,
          resolvedRequesterId := s.resolvedRequesterId,
          resolvedAssigneeId := s.resolvedAssigneeId,
          pendingSelection := s.pendingSelection } w
      have hself : uploadPendingAttachments env s w =
          uploadLoop env tid s.attachments
            { draft := s.draft, ticketId := some tid, attachments := [],
              awaitingText := s.awaitingText, uploadedCount := s.uploadedCount,
              resolvedRequesterId := s.resolvedRequesterId,
              resolvedAssigneeId := s.resolvedAssigneeId,
              pendingSelection := s.pendingSelection } w := by
        simp [uploadPendingAttachments, ht, he]
      rw [hself]
      refine ⟨i1, by simpa using i4, by simpa using i3, i2, i5, ?_⟩
      obtain ⟨l1, l2⟩ := uploadLoop_c1 env tid s.attachments
        { draft := s.draft, ticketId := some tid, attachments := [],
          awaitingText := s.awaitingText, uploadedCount := s.uploadedCount,
          resolvedRequesterId := s.resolvedRequesterId,
          resolvedAssigneeId := s.resolvedAssigneeId,
          pendingSelection := s.pendingSelection } w
      have hq : (uploadLoop env tid s.attachments
          { draft := s.draft, ticketId := some tid, attachments := [],
            awaitingText := s.awaitingText, uploadedCount := s.uploadedCount,
            resolvedRequesterId := s.resolvedRequesterId,
            resolvedAssigneeId := s.resolvedAssigneeId,
            pendingSelection := s.pendingSelection } w).session.attachments
          = [] := by simpa using i4
      cases htid2 : (uploadLoop env tid s.attachments
          { draft := s.draft, ticketId := some tid, attachments := [],
            awaitingText := s.awaitingText, uploadedCount := s.uploadedCount,
            resolvedRequesterId := s.resolvedRequesterId,
            resolvedAssigneeId := s.resolvedAssigneeId,
            pendingSelection := s.pendingSelection } w).session.ticketId with
      | none => simp [uploadPendingAttachments, htid2]
      | some tid2 => simp [uploadPendingAttachments, htid2, hq]

theorem upa_c10 (env : Env) (s : TicketSession) (w : World) :
    (uploadsOf (uploadPendingAttachments env s w).eff).length +
      (uploadPendingAttachments env s w).session.attachments.length ≤
      receivedCount (uploadPendingAttachments env s w).eff +
        s.attachments.length ∧
    uploadOkCount (uploadPendingAttachments env s w).eff ≤
      (uploadsOf (uploadPendingAttachments env s w).eff).length ∧
    (uploadPendingAttachments env s w).session.uploadedCount ≤
      s.uploadedCount + uploadOkCount (uploadPendingAttachments env s w).eff := by
  cases ht : s.ticketId with
  | none =>
    have h := (upa_spec env s w).1 ht
    rw [h]
    simp [uploadsOf_nil, uploadOkCount_nil, receivedCount_nil]
  | some tid =>
    obtain ⟨p1, p2, p3, p4, p5, _⟩ := (upa_spec env s w).2 tid ht
    rw [p1, p2, p3, p5]
    refine ⟨by simp, ?_, by omega⟩
    exact p4

theorem handleMedia_c10 (env : Env) (s : TicketSession) (w : World) :
    (uploadsOf (handleMedia env s w).eff).length +
      (handleMedia env s w).session.attachments.length ≤
      receivedCount (handleMedia env s w).eff + s.attachments.length ∧
    uploadOkCount (handleMedia env s w).eff ≤
      (uploadsOf (handleMedia env s w).eff).length ∧
    (handleMedia env s w).session.uploadedCount ≤
      s.uploadedCount + uploadOkCount (handleMedia env s w).eff := by
  cases hm : (takeMedia w).1 with
  | none =>
    cases hr : env.hasReact <;>
      simp [handleMedia, hm, reactEff, hr, uploadsOf_cons, uploadsOf_nil,
        uploadOkCount_cons, uploadOkCount_nil, receivedCount_cons,
        receivedCount_nil, uploadsOf_append, uploadOkCount_append,
        receivedCount_append]
  | some media =>
    cases ht : s.ticketId with
    | none =>
      cases hr : env.hasReact <;> cases ha : s.awaitingText <;>
        simp [handleMedia, hm, ht, hr, ha, reactEff, uploadsOf_append,
          uploadsOf_cons, uploadsOf_nil, uploadOkCount_append,
          uploadOkCount_cons, uploadOkCount_nil, receivedCount_append,
          receivedCount_cons, receivedCount_nil] <;> omega
    | some tid =>
      obtain ⟨a1, a2, a3⟩ := uploadAttachment_obs (takeMedia w).2 tid media
      by_cases hok : (uploadAttachment (takeMedia w).2 tid media).ok = true <;>
        cases hr : env.hasReact <;>
          simp [handleMedia, hm, ht, hok, hr, reactEff, a1, a2, a3,
            uploadsOf_append, uploadsOf_cons, uploadsOf_nil,
            uploadOkCount_append, uploadOkCount_cons, uploadOkCount_nil,
            receivedCount_append, receivedCount_cons, receivedCount_nil] <;>
          omega

theorem rps_c10 (env : Env) (s : TicketSession) (w : World) (body : String) :
    uploadsOf (resolvePendingSelection env s w body).eff = [] ∧
    uploadOkCount (resolvePendingSelection env s w body).eff = 0 ∧
    receivedCount (resolvePendingSelection env s w body).eff = 0 ∧
    (resolvePendingSelection env s w body).session.attachments =
      s.attachments ∧
    (resolvePendingSelection env s w body).session.uploadedCount =
      s.uploadedCount := by
  cases hp : s.pendingSelection with
  | none =>
    simp [resolvePendingSelection, hp, uploadsOf_nil, uploadOkCount_nil,
      receivedCount_nil]
  | some pending =>
    by_cases hb : trimS body = ""
    · simp [resolvePendingSelection, hp, hb, uploadsOf_nil, uploadOkCount_nil,
        receivedCount_nil]
    · cases hmc : matchCandidateInput (trimS body) pending.candidates with
      | none =>
        cases hr : env.hasReact <;>
          simp [resolvePendingSelection, hp, hb, hmc, reactEff, hr,
            uploadsOf_append, uploadsOf_cons, uploadsOf_nil,
            uploadOkCount_append, uploadOkCount_cons, uploadOkCount_nil,
            receivedCount_append, receivedCount_cons, receivedCount_nil]
      | some c =>
        have hpp := applyResolvedCandidate_proj s pending.role c
        cases hr : env.hasReact <;>
          simp [resolvePendingSelection, hp, hb, hmc, reactEff, hr,
            uploadsOf_append, uploadsOf_cons, uploadsOf_nil,
            uploadOkCount_append, uploadOkCount_cons, uploadOkCount_nil,
            receivedCount_append, receivedCount_cons, receivedCount_nil,
            hpp.2.2.1, hpp.2.2.2.1]

theorem handleText_c10 (env : Env) (m : Msg) (s : TicketSession) (w : World)
    (bo : Option String) :
    (uploadsOf (handleText env m s w bo).eff).length +
      (handleText env m s w bo).session.attachments.length ≤
      receivedCount (handleText env m s w bo).eff + s.attachments.length ∧
    uploadOkCount (handleText env m s w bo).eff ≤
      (uploadsOf (handleText env m s w bo).eff).length ∧
    (handleText env m s w bo).session.uploadedCount ≤
      s.uploadedCount + uploadOkCount (handleText env m s w bo).eff := by
  cases hp : parseTicketText (bo.getD m.body) with
  | none =>
    by_cases ha : s.awaitingText = true <;> cases hr : env.hasReact <;>
      simp [handleText, hp, ha, hr, reactEff, uploadsOf_append, uploadsOf_cons,
        uploadsOf_nil, uploadOkCount_append, uploadOkCount_cons,
        uploadOkCount_nil, receivedCount_append, receivedCount_cons,
        receivedCount_nil]
  | some parsed =>
    obtain ⟨hap1, hap2, hap3, _⟩ := applyParsedToSession_proj env parsed s
    by_cases hcomp :
        (((applyParsedToSession env parsed s).draft.getD {}).isComplete) = true
    · cases hst : (applyParsedToSession env parsed s).ticketId with
      | some tid0 =>
        simp [handleText, hp, hcomp, hst, uploadsOf_nil, uploadOkCount_nil,
          receivedCount_nil, hap2, hap3]
      | none =>
        obtain ⟨t1, t2, t3, t4, t5, t6, t7, t8⟩ :=
          tryCreateTicket_spec env (senderOfMsg m)
            (applyParsedToSession env parsed s) w hst
        have hattach : (tryCreateTicket env (senderOfMsg m)
            (applyParsedToSession env parsed s) w).session.attachments =
            s.attachments := by
          rw [t7, hap2]
        have huploaded : (tryCreateTicket env (senderOfMsg m)
            (applyParsedToSession env parsed s) w).session.uploadedCount =
            s.uploadedCount := by
          rw [t8, hap3]
        by_cases hval : (tryCreateTicket env (senderOfMsg m)
            (applyParsedToSession env parsed s) w).val = true
        · obtain ⟨c1, c2, c3⟩ := upa_c10 env
            (tryCreateTicket env (senderOfMsg m)
              (applyParsedToSession env parsed s) w).session
            (tryCreateTicket env (senderOfMsg m)
              (applyParsedToSession env parsed s) w).world
          rw [hattach] at c1
          rw [huploaded] at c3
          refine ⟨?_, ?_, ?_⟩ <;>
            simp only [handleText, hp, hcomp, hst, hval, if_true,
              Bool.not_true, Bool.false_eq_true, if_false,
              uploadsOf_append, receivedCount_append, uploadOkCount_append,
              List.length_append, List.nil_append, t4, t5, t6] <;>
            omega
        · refine ⟨?_, ?_, ?_⟩ <;>
            simp [handleText, hp, hcomp, hst, hval, t4, t5, t6, hattach,
              huploaded]
    · cases hr : env.hasReact <;>
        simp [handleText, hp, hcomp, hr, reactEff, uploadsOf_append,
          uploadsOf_cons, uploadsOf_nil, uploadOkCount_append,
          uploadOkCount_cons, uploadOkCount_nil, receivedCount_append,
          receivedCount_cons, receivedCount_nil, hap2, hap3]

theorem finalizeSession_c10 (env : Env) (sender : SenderInfo)
    (s : TicketSession) (w : World) :
    (uploadsOf (finalizeSession env sender s w).eff).length +
      queueLen (finalizeSession env sender s w).session ≤
      receivedCount (finalizeSession env sender s w).eff +
        s.attachments.length ∧
    uploadOkCount (finalizeSession env sender s w).eff ≤
      (uploadsOf (finalizeSession env sender s w).eff).length ∧
    (∀ s2, (finalizeSession env sender s w).session = some s2 →
      s2.uploadedCount ≤ s.uploadedCount +
        uploadOkCount (finalizeSession env sender s w).eff) := by
  by_cases hcomp : (match s.draft with
      | some d => d.isComplete
      | none => false) = true
  · cases ht : s.ticketId with
    | none =>
      obtain ⟨t1, t2, t3, t4, t5, t6, t7, t8⟩ :=
        tryCreateTicket_spec env sender s w ht
      by_cases hval : (tryCreateTicket env sender s w).val = true
      · obtain ⟨c1, c2, c3⟩ := upa_c10 env
          (tryCreateTicket env sender s w).session
          (tryCreateTicket env sender s w).world
        rw [t7] at c1
        rw [t8] at c3
        cases hr : env.hasReact <;>
          refine ⟨?_, ?_, ?_⟩ <;>
            simp only [finalizeSession, finishFinalize, hcomp, ht, hval, hr,
              reactEff, if_true, Bool.not_true, Bool.false_eq_true, if_false,
              uploadsOf_append, receivedCount_append, uploadOkCount_append,
              uploadsOf_cons, uploadsOf_nil, receivedCount_cons,
              receivedCount_nil, uploadOkCount_cons, uploadOkCount_nil,
              List.length_append, List.nil_append, List.append_nil,
              t4, t5, t6, queueLen] <;>
            first
              | omega
              | (intro s2 hs2; cases hs2)
      · refine ⟨?_, ?_, ?_⟩ <;>
          simp [finalizeSession, hcomp, ht, hval, t4, t5, t6, t7, t8, queueLen]
    | some tid =>
      obtain ⟨c1, c2, c3⟩ := upa_c10 env s w
      cases hr : env.hasReact <;>
        refine ⟨?_, ?_, ?_⟩ <;>
          simp only [finalizeSession, finishFinalize, hcomp, ht, hr, reactEff,
            if_true, Bool.not_true, Bool.false_eq_true, if_false,
            uploadsOf_append, receivedCount_append, uploadOkCount_append,
            uploadsOf_cons, uploadsOf_nil, receivedCount_cons,
            receivedCount_nil, uploadOkCount_cons, uploadOkCount_nil,
            List.length_append, List.nil_append, List.append_nil, queueLen] <;>
          first
            | omega
            | (intro s2 hs2; cases hs2)
  · cases hr : env.hasReact <;>
      refine ⟨?_, ?_, ?_⟩ <;>
        simp [finalizeSession, hcomp, hr, reactEff, uploadsOf_append,
          uploadsOf_cons, uploadsOf_nil, uploadOkCount_append,
          uploadOkCount_cons, uploadOkCount_nil, receivedCount_append,
          receivedCount_cons, receivedCount_nil, queueLen]

theorem hpv_c10 (env : Env) (w : World) (sess : Option TicketSession)
    (v : PollVote) :
    (uploadsOf (handlePollVote env w sess v).eff).length +
      queueLen (handlePollVote env w sess v).session ≤
      receivedCount (handlePollVote env w sess v).eff + queueLen sess ∧
    uploadOkCount (handlePollVote env w sess v).eff ≤
      (uploadsOf (handlePollVote env w sess v).eff).length ∧
    (∀ s2, (handlePollVote env w sess v).session = some s2 →
      s2.uploadedCount ≤ oldUploaded sess +
        uploadOkCount (handlePollVote env w sess v).eff) := by
  cases sess with
  | none =>
    simp [handlePollVote, uploadsOf_nil, uploadOkCount_nil, receivedCount_nil,
      queueLen]
  | some s =>
    cases hp : s.pendingSelection with
    | none =>
      simp [handlePollVote, hp, uploadsOf_nil, uploadOkCount_nil,
        receivedCount_nil, queueLen, oldUploaded]
    | some pending =>
      by_cases h1 : strTruthy pending.pollMessageId = true
      · by_cases hA : strTruthy v.pollMessageId = true
        · by_cases hB : pending.pollMessageId = v.pollMessageId
          · cases hpick : pickCandidateFromPollVote pending v with
            | none =>
              simp [handlePollVote, hp, h1, hA, hB, hpick, uploadsOf_cons,
                uploadsOf_nil, uploadOkCount_cons, uploadOkCount_nil,
                receivedCount_cons, receivedCount_nil, queueLen, oldUploaded]
            | some candidate =>
              simp only [handlePollVote, hp, h1, hA, hB, hpick]
              simp only [Bool.not_true, Bool.false_eq_true, if_false,
                ne_eq, not_true_eq_false, or_self]
              generalize hS1 :
                applyResolvedCandidate s pending.role candidate = s1
              have hpr := applyResolvedCandidate_proj s pending.role candidate
              rw [hS1] at hpr
              obtain ⟨_, _, hpa, hpu, _⟩ := hpr
              have hpal : s1.attachments.length = s.attachments.length := by
                rw [hpa]
              by_cases hg :
                  (draftComplete { s1 with pendingSelection := none } &&
                  ({ s1 with pendingSelection := none } :
                    TicketSession).ticketId.isNone) = true
              · have hs2none : ({ s1 with pendingSelection := none } :
                    TicketSession).ticketId = none := by
                  have := (Bool.and_eq_true _ _).mp hg
                  exact Option.isNone_iff_eq_none.mp this.2
                obtain ⟨t1, t2, t3, t4, t5, t6, t7, t8⟩ :=
                  tryCreateTicket_spec env (senderOfVote v)
                    { s1 with pendingSelection := none } w hs2none
                have ht7 : (tryCreateTicket env (senderOfVote v)
                    { s1 with pendingSelection := none } w).session.attachments
                    = s.attachments := by
                  rw [t7]
                  exact hpa
                have ht8 : (tryCreateTicket env (senderOfVote v)
                    { s1 with pendingSelection := none } w).session.uploadedCount
                    = s.uploadedCount := by
                  rw [t8]
                  exact hpu
                by_cases hrcv : (tryCreateTicket env (senderOfVote v)
                    { s1 with pendingSelection := none } w).val = true
                · obtain ⟨c1, c2, c3⟩ := upa_c10 env
                    (tryCreateTicket env (senderOfVote v)
                      { s1 with pendingSelection := none } w).session
                    (tryCreateTicket env (senderOfVote v)
                      { s1 with pendingSelection := none } w).world
                  rw [ht7] at c1
                  rw [ht8] at c3
                  refine ⟨?_, ?_, ?_⟩ <;>
                    simp [hg, hrcv, uploadsOf_append, uploadsOf_cons,
                      uploadsOf_nil, uploadOkCount_append, uploadOkCount_cons,
                      uploadOkCount_nil, receivedCount_append,
                      receivedCount_cons, receivedCount_nil, t4, t5, t6,
                      ht7, ht8, queueLen, oldUploaded] <;>
                    omega
                · refine ⟨?_, ?_, ?_⟩ <;>
                    simp [hg, hrcv, uploadsOf_append, uploadsOf_cons,
                      uploadsOf_nil, uploadOkCount_append, uploadOkCount_cons,
                      uploadOkCount_nil, receivedCount_append,
                      receivedCount_cons, receivedCount_nil, t4, t5, t6,
                      ht7, ht8, queueLen, oldUploaded] <;>
                    omega
              · refine ⟨?_, ?_, ?_⟩ <;>
                  simp [hg, uploadsOf_cons, uploadsOf_nil, uploadOkCount_cons,
                    uploadOkCount_nil, receivedCount_cons, receivedCount_nil,
                    queueLen, oldUploaded] <;>
                  omega
          · simp [handlePollVote, hp, h1, hA, hB, uploadsOf_nil,
              uploadOkCount_nil, receivedCount_nil, queueLen, oldUploaded]
        · simp [handlePollVote, hp, h1, hA, uploadsOf_nil, uploadOkCount_nil,
            receivedCount_nil, queueLen, oldUploaded]
      · simp [handlePollVote, hp, h1, uploadsOf_nil, uploadOkCount_nil,
          receivedCount_nil, queueLen, oldUploaded]

theorem hpb_c10 (env : Env) (w : World) (s : TicketSession) (m : Msg)
    (pending : PendingSelection) (endCmd : Option (String × String)) :
    (uploadsOf (handlePendingBranch env w s m pending endCmd).eff).length +
      queueLen (handlePendingBranch env w s m pending endCmd).session ≤
      receivedCount (handlePendingBranch env w s m pending endCmd).eff +
        s.attachments.length ∧
    uploadOkCount (handlePendingBranch env w s m pending endCmd).eff ≤
      (uploadsOf (handlePendingBranch env w s m pending endCmd).eff).length ∧
    (∀ s2, (handlePendingBranch env w s m pending endCmd).session = some s2 →
      s2.uploadedCount ≤ s.uploadedCount +
        uploadOkCount (handlePendingBranch env w s m pending endCmd).eff) := by
  have hrm : (uploadsOf (if m.hasMedia = true then handleMedia env s w
      else (⟨s, w, [], ()⟩ : SubRV Unit)).eff).length +
      (if m.hasMedia = true then handleMedia env s w
      else (⟨s, w, [], ()⟩ : SubRV Unit)).session.attachments.length ≤
      receivedCount (if m.hasMedia = true then handleMedia env s w
        else (⟨s, w, [], ()⟩ : SubRV Unit)).eff + s.attachments.length ∧
      uploadOkCount (if m.hasMedia = true then handleMedia env s w
        else (⟨s, w, [], ()⟩ : SubRV Unit)).eff ≤
      (uploadsOf (if m.hasMedia = true then handleMedia env s w
        else (⟨s, w, [], ()⟩ : SubRV Unit)).eff).length ∧
      (if m.hasMedia = true then handleMedia env s w
        else (⟨s, w, [], ()⟩ : SubRV Unit)).session.uploadedCount ≤
      s.uploadedCount + uploadOkCount (if m.hasMedia = true then
        handleMedia env s w else (⟨s, w, [], ()⟩ : SubRV Unit)).eff := by
    by_cases hm : m.hasMedia = true
    · simp only [hm, if_true]
      exact handleMedia_c10 env s w
    · simp [hm, uploadsOf_nil, uploadOkCount_nil, receivedCount_nil]
  simp only [handlePendingBranch]
  generalize hRM : (if m.hasMedia = true then handleMedia env s w
      else (⟨s, w, [], ()⟩ : SubRV Unit)) = rM
  rw [hRM] at hrm
  obtain ⟨hrm1, hrm2, hrm3⟩ := hrm
  by_cases hap : pending.awaitingPoll = true
  · by_cases hie : endCmd.isSome = true <;>
      refine ⟨?_, ?_, ?_⟩ <;>
        simp [hap, hie, uploadsOf_append, uploadsOf_cons, uploadsOf_nil,
          uploadOkCount_append, uploadOkCount_cons, uploadOkCount_nil,
          receivedCount_append, receivedCount_cons, receivedCount_nil,
          queueLen] <;>
        omega
  · by_cases hpm : strTruthy pending.pollMessageId = true
    · by_cases hie : endCmd.isSome = true <;>
        refine ⟨?_, ?_, ?_⟩ <;>
          simp [hap, hpm, hie, uploadsOf_append, uploadsOf_cons, uploadsOf_nil,
            uploadOkCount_append, uploadOkCount_cons, uploadOkCount_nil,
            receivedCount_append, receivedCount_cons, receivedCount_nil,
            queueLen] <;>
          omega
    · simp only [hap, hpm, Bool.false_eq_true, if_false]
      generalize hR : resolvePendingSelection env rM.session rM.world
        (match endCmd with
         | some cmd => stripCommandBody m.body cmd.1
         | none => m.body) = r
      have hr1 : uploadsOf r.eff = [] := by
        rw [← hR]
        exact (rps_c10 env rM.session rM.world _).1
      have hr2 : uploadOkCount r.eff = 0 := by
        rw [← hR]
        exact (rps_c10 env rM.session rM.world _).2.1
      have hr3 : receivedCount r.eff = 0 := by
        rw [← hR]
        exact (rps_c10 env rM.session rM.world _).2.2.1
      have hr4 : r.session.attachments = rM.session.attachments := by
        rw [← hR]
        exact (rps_c10 env rM.session rM.world _).2.2.2.1
      have hr5 : r.session.uploadedCount = rM.session.uploadedCount := by
        rw [← hR]
        exact (rps_c10 env rM.session rM.world _).2.2.2.2
      have hr4l : r.session.attachments.length =
          rM.session.attachments.length := by rw [hr4]
      by_cases hrv : r.val = true
      · simp only [hrv, Bool.not_true, Bool.false_eq_true, if_false]
        by_cases hg : (draftComplete r.session &&
            r.session.ticketId.isNone) = true
        · have hrtid : r.session.ticketId = none := by
            have := (Bool.and_eq_true _ _).mp hg
            exact Option.isNone_iff_eq_none.mp this.2
          simp only [hg, if_true]
          obtain ⟨t1, t2, t3, t4, t5, t6, t7, t8⟩ :=
            tryCreateTicket_spec env (senderOfMsg m) r.session r.world hrtid
          generalize hRC : tryCreateTicket env (senderOfMsg m)
            r.session r.world = rc
          rw [hRC] at t4 t5 t6 t7 t8
          have t7l : rc.session.attachments.length =
              r.session.attachments.length := by rw [t7]
          by_cases hrcv : rc.val = true
          · obtain ⟨c1, c2, c3⟩ := upa_c10 env rc.session rc.world
            generalize hRU : uploadPendingAttachments env rc.session
              rc.world = ru
            rw [hRU] at c1 c2 c3
            by_cases hie : endCmd.isSome = true
            · obtain ⟨f1, f2, f3⟩ := finalizeSession_c10 env (senderOfMsg m)
                ru.session ru.world
              refine ⟨?_, ?_, ?_⟩
              · simp only [hie, hrcv, if_true, uploadsOf_append,
                  receivedCount_append, List.length_append, hr1, hr3, t4, t6,
                  List.nil_append, List.length_nil]
                omega
              · simp only [hie, hrcv, if_true, uploadsOf_append,
                  uploadOkCount_append, List.length_append, hr1, hr2, t4, t5,
                  List.nil_append, List.length_nil]
                omega
              · intro s2 hs2
                try simp only [hie, hrcv, if_true] at hs2
                have hf := f3 s2 hs2
                simp only [hie, hrcv, if_true, Bool.false_eq_true, if_false,
                  uploadOkCount_append, uploadOkCount_nil, hr2, t5]
                omega
            · refine ⟨?_, ?_, ?_⟩
              · simp only [hie, hrcv, Bool.false_eq_true, if_false, if_true,
                  uploadsOf_append, receivedCount_append, List.length_append,
                  hr1, hr3, t4, t6, List.nil_append, List.length_nil, queueLen]
                omega
              · simp only [hie, hrcv, Bool.false_eq_true, if_false, if_true,
                  uploadsOf_append, uploadOkCount_append, List.length_append,
                  hr1, hr2, t4, t5, List.nil_append, List.length_nil]
                omega
              · intro s2 hs2
                try simp only [hie, hrcv, Bool.false_eq_true, if_false,
                  if_true] at hs2
                injection hs2 with hs2
                subst hs2
                simp only [hie, hrcv, if_true, Bool.false_eq_true, if_false,
                  uploadOkCount_append, uploadOkCount_nil, hr2, t5]
                omega
          · by_cases hie : endCmd.isSome = true
            · obtain ⟨f1, f2, f3⟩ := finalizeSession_c10 env (senderOfMsg m)
                rc.session rc.world
              refine ⟨?_, ?_, ?_⟩
              · simp only [hie, hrcv, Bool.false_eq_true, if_false, if_true,
                  uploadsOf_append, receivedCount_append, List.length_append,
                  hr1, hr3, t4, t6, List.nil_append, List.length_nil]
                omega
              · simp only [hie, hrcv, Bool.false_eq_true, if_false, if_true,
                  uploadsOf_append, uploadOkCount_append, List.length_append,
                  hr1, hr2, t4, t5, List.nil_append, List.length_nil]
                omega
              · intro s2 hs2
                try simp only [hie, hrcv, Bool.false_eq_true, if_false,
                  if_true] at hs2
                have hf := f3 s2 hs2
                simp only [hie, hrcv, if_true, Bool.false_eq_true, if_false,
                  uploadOkCount_append, uploadOkCount_nil, hr2, t5]
                omega
            · refine ⟨?_, ?_, ?_⟩
              · simp only [hie, hrcv, Bool.false_eq_true, if_false,
                  uploadsOf_append, receivedCount_append, List.length_append,
                  hr1, hr3, t4, t6, List.nil_append, List.length_nil, queueLen]
                omega
              · simp only [hie, hrcv, Bool.false_eq_true, if_false,
                  uploadsOf_append, uploadOkCount_append, List.length_append,
                  hr1, hr2, t4, t5, List.nil_append, List.length_nil]
                omega
              · intro s2 hs2
                simp only [hie, hrcv, Bool.false_eq_true, if_false] at hs2
                injection hs2 with hs2
                subst hs2
                simp only [hie, hrcv, if_true, Bool.false_eq_true, if_false,
                  uploadOkCount_append, uploadOkCount_nil, hr2, t5]
                omega
        · simp only [hg, Bool.false_eq_true, if_false]
          by_cases hie : endCmd.isSome = true
          · obtain ⟨f1, f2, f3⟩ := finalizeSession_c10 env (senderOfMsg m)
              r.session r.world
            refine ⟨?_, ?_, ?_⟩
            · simp only [hie, if_true, uploadsOf_append, receivedCount_append,
                List.length_append, hr1, hr3, List.nil_append, List.append_nil,
                uploadsOf_nil, receivedCount_nil, List.length_nil]
              omega
            · simp only [hie, if_true, uploadsOf_append, uploadOkCount_append,
                List.length_append, hr1, hr2, List.nil_append, List.append_nil,
                uploadsOf_nil, uploadOkCount_nil, List.length_nil]
              omega
            · intro s2 hs2
              try simp only [hie, if_true] at hs2
              have hf := f3 s2 hs2
              simp only [hie, if_true, Bool.false_eq_true, if_false,
                uploadOkCount_append, uploadOkCount_nil, hr2]
              omega
          · refine ⟨?_, ?_, ?_⟩
            · simp only [hie, Bool.false_eq_true, if_false, uploadsOf_append,
                receivedCount_append, List.length_append, hr1, hr3,
                List.nil_append, List.append_nil, uploadsOf_nil,
                receivedCount_nil, List.length_nil, queueLen]
              omega
            · simp only [hie, Bool.false_eq_true, if_false, uploadsOf_append,
                uploadOkCount_append, List.length_append, hr1, hr2,
                List.nil_append, List.append_nil, uploadsOf_nil,
                uploadOkCount_nil, List.length_nil]
              omega
            · intro s2 hs2
              try simp only [hie, Bool.false_eq_true, if_false] at hs2
              injection hs2 with hs2
              subst hs2
              simp only [hie, if_true, Bool.false_eq_true, if_false,
                uploadOkCount_append, uploadOkCount_nil, hr2]
              omega
      · simp only [hrv, Bool.not_false, if_true]
        by_cases hie : endCmd.isSome = true <;>
          refine ⟨?_, ?_, ?_⟩ <;>
            simp [hie, uploadsOf_append, uploadsOf_cons, uploadsOf_nil,
              uploadOkCount_append, uploadOkCount_cons, uploadOkCount_nil,
              receivedCount_append, receivedCount_cons, receivedCount_nil,
              hr1, hr2, hr3, queueLen] <;>
            omega

theorem queueLen_none : queueLen none = 0 := rfl

theorem queueLen_some (s : TicketSession) :
    queueLen (some s) = s.attachments.length := rfl

theorem oldUploaded_none : oldUploaded none = 0 := rfl

theorem oldUploaded_some (s : TicketSession) :
    oldUploaded (some s) = s.uploadedCount := rfl

theorem handleStart_c10 (env : Env) (w : World) (m : Msg)
    (cmd : String × String) :
    (uploadsOf (handleStart env w m cmd).eff).length +
      queueLen (handleStart env w m cmd).session ≤
      receivedCount (handleStart env w m cmd).eff ∧
    uploadOkCount (handleStart env w m cmd).eff ≤
      (uploadsOf (handleStart env w m cmd).eff).length ∧
    (∀ s2, (handleStart env w m cmd).session = some s2 →
      s2.uploadedCount ≤ uploadOkCount (handleStart env w m cmd).eff) := by
  have hr1 : (uploadsOf (if stripCommandBody m.body cmd.1 = "" then
      (⟨freshSession, w,
        [Effect.reply "Ticket iniciado. Envia los datos (por ejemplo: SOLICITANTE: 73872028, ASIGNADO: 12345678, PROBLEMA: ...). Luego envia los archivos y termina con FINALIZAR TICKET o CLOSE TCK."],
        ()⟩ : SubRV Unit)
      else handleText env m freshSession w
        (some (stripCommandBody m.body cmd.1))).eff).length +
      (if stripCommandBody m.body cmd.1 = "" then
      (⟨freshSession, w,
        [Effect.reply "Ticket iniciado. Envia los datos (por ejemplo: SOLICITANTE: 73872028, ASIGNADO: 12345678, PROBLEMA: ...). Luego envia los archivos y termina con FINALIZAR TICKET o CLOSE TCK."],
        ()⟩ : SubRV Unit)
      else handleText env m freshSession w
        (some (stripCommandBody m.body cmd.1))).session.attachments.length ≤
      receivedCount (if stripCommandBody m.body cmd.1 = "" then
      (⟨freshSession, w,
        [Effect.reply "Ticket iniciado. Envia los datos (por ejemplo: SOLICITANTE: 73872028, ASIGNADO: 12345678, PROBLEMA: ...). Luego envia los archivos y termina con FINALIZAR TICKET o CLOSE TCK."],
        ()⟩ : SubRV Unit)
      else handleText env m freshSession w
        (some (stripCommandBody m.body cmd.1))).eff ∧
      uploadOkCount (if stripCommandBody m.body cmd.1 = "" then
      (⟨freshSession, w,
        [Effect.reply "Ticket iniciado. Envia los datos (por ejemplo: SOLICITANTE: 73872028, ASIGNADO: 12345678, PROBLEMA: ...). Luego envia los archivos y termina con FINALIZAR TICKET o CLOSE TCK."],
        ()⟩ : SubRV Unit)
      else handleText env m freshSession w
        (some (stripCommandBody m.body cmd.1))).eff ≤
      (uploadsOf (if stripCommandBody m.body cmd.1 = "" then
      (⟨freshSession, w,
        [Effect.reply "Ticket iniciado. Envia los datos (por ejemplo: SOLICITANTE: 73872028, ASIGNADO: 12345678, PROBLEMA: ...). Luego envia los archivos y termina con FINALIZAR TICKET o CLOSE TCK."],
        ()⟩ : SubRV Unit)
      else handleText env m freshSession w
        (some (stripCommandBody m.body cmd.1))).eff).length ∧
      (if stripCommandBody m.body cmd.1 = "" then
      (⟨freshSession, w,
        [Effect.reply "Ticket iniciado. Envia los datos (por ejemplo: SOLICITANTE: 73872028, ASIGNADO: 12345678, PROBLEMA: ...). Luego envia los archivos y termina con FINALIZAR TICKET o CLOSE TCK."],
        ()⟩ : SubRV Unit)
      else handleText env m freshSession w
        (some (stripCommandBody m.body cmd.1))).session.uploadedCount ≤
      uploadOkCount (if stripCommandBody m.body cmd.1 = "" then
      (⟨freshSession, w,
        [Effect.reply "Ticket iniciado. Envia los datos (por ejemplo: SOLICITANTE: 73872028, ASIGNADO: 12345678, PROBLEMA: ...). Luego envia los archivos y termina con FINALIZAR TICKET o CLOSE TCK."],
        ()⟩ : SubRV Unit)
      else handleText env m freshSession w
        (some (stripCommandBody m.body cmd.1))).eff := by
    by_cases hb : stripCommandBody m.body cmd.1 = ""
    · simp [hb, uploadsOf_cons, uploadsOf_nil, uploadOkCount_cons,
        uploadOkCount_nil, receivedCount_cons, receivedCount_nil, freshSession]
    · simp only [hb, if_false]
      obtain ⟨g1, g2, g3⟩ := handleText_c10 env m freshSession w
        (some (stripCommandBody m.body cmd.1))
      have hfa : freshSession.attachments.length = 0 := rfl
      have hfu : freshSession.uploadedCount = 0 := rfl
      rw [hfa] at g1
      rw [hfu] at g3
      exact ⟨by omega, g2, by omega⟩
  simp only [handleStart]
  generalize hR1 : (if stripCommandBody m.body cmd.1 = "" then
      (⟨freshSession, w,
        [Effect.reply "Ticket iniciado. Envia los datos (por ejemplo: SOLICITANTE: 73872028, ASIGNADO: 12345678, PROBLEMA: ...). Luego envia los archivos y termina con FINALIZAR TICKET o CLOSE TCK."],
        ()⟩ : SubRV Unit)
      else handleText env m freshSession w
        (some (stripCommandBody m.body cmd.1))) = r1
  rw [hR1] at hr1
  obtain ⟨g1, g2, g3⟩ := hr1
  have hr2 : (uploadsOf (if m.hasMedia = true then
        handleMedia env r1.session r1.world
      else (⟨r1.session, r1.world, [], ()⟩ : SubRV Unit)).eff).length +
      (if m.hasMedia = true then handleMedia env r1.session r1.world
      else (⟨r1.session, r1.world, [], ()⟩ :
        SubRV Unit)).session.attachments.length ≤
      receivedCount (if m.hasMedia = true then
        handleMedia env r1.session r1.world
      else (⟨r1.session, r1.world, [], ()⟩ : SubRV Unit)).eff +
        r1.session.attachments.length ∧
      uploadOkCount (if m.hasMedia = true then
        handleMedia env r1.session r1.world
      else (⟨r1.session, r1.world, [], ()⟩ : SubRV Unit)).eff ≤
      (uploadsOf (if m.hasMedia = true then
        handleMedia env r1.session r1.world
      else (⟨r1.session, r1.world, [], ()⟩ : SubRV Unit)).eff).length ∧
      (if m.hasMedia = true then handleMedia env r1.session r1.world
      else (⟨r1.session, r1.world, [], ()⟩ :
        SubRV Unit)).session.uploadedCount ≤
      r1.session.uploadedCount + uploadOkCount (if m.hasMedia = true then
        handleMedia env r1.session r1.world
      else (⟨r1.session, r1.world, [], ()⟩ : SubRV Unit)).eff := by
    by_cases hm : m.hasMedia = true
    · simp only [hm, if_true]
      exact handleMedia_c10 env r1.session r1.world
    · simp [hm, uploadsOf_nil, uploadOkCount_nil, receivedCount_nil]
  generalize hR2 : (if m.hasMedia = true then
      handleMedia env r1.session r1.world
      else (⟨r1.session, r1.world, [], ()⟩ : SubRV Unit)) = r2
  rw [hR2] at hr2
  obtain ⟨k1, k2, k3⟩ := hr2
  refine ⟨?_, ?_, ?_⟩
  · simp only [uploadsOf_append, receivedCount_append, List.length_append,
      reactEff_uploadsOf, reactEff_receivedCount, List.nil_append,
      List.length_nil, queueLen]
    omega
  · simp only [uploadsOf_append, uploadOkCount_append, List.length_append,
      reactEff_uploadsOf, reactEff_uploadOkCount, List.nil_append,
      List.length_nil]
    omega
  · intro s2 hs2
    injection hs2 with hs2
    subst hs2
    simp only [uploadOkCount_append, reactEff_uploadOkCount]
    omega

theorem handleMessage_c10 (env : Env) (w : World) (sess : Option TicketSession)
    (m : Msg) :
    (uploadsOf (handleMessage env w sess m).eff).length +
      queueLen (handleMessage env w sess m).session ≤
      receivedCount (handleMessage env w sess m).eff + queueLen sess ∧
    uploadOkCount (handleMessage env w sess m).eff ≤
      (uploadsOf (handleMessage env w sess m).eff).length ∧
    (∀ s2, (handleMessage env w sess m).session = some s2 →
      s2.uploadedCount ≤ oldUploaded sess +
        uploadOkCount (handleMessage env w sess m).eff) := by
  by_cases hauth : isAuthorizedSender env (senderOfMsg m) = true
  · cases hsc : matchCommand (normalizeText m.body) startCommands with
    | some cmd =>
      obtain ⟨g1, g2, g3⟩ := handleStart_c10 env w m cmd
      refine ⟨?_, ?_, ?_⟩ <;>
        simp only [handleMessage, hauth, hsc, Bool.not_true,
          Bool.false_eq_true, if_false]
      · cases sess <;> simp only [queueLen_none, queueLen_some] <;> omega
      · exact g2
      · intro s2 hs2
        have := g3 s2 hs2
        cases sess <;> simp only [oldUploaded_none, oldUploaded_some] <;> omega
    | none =>
      cases sess with
      | none =>
        by_cases hie : (matchCommand (normalizeText m.body)
            endCommands).isSome = true <;>
          refine ⟨?_, ?_, ?_⟩ <;>
            simp [handleMessage, hauth, hsc, hie, uploadsOf_cons,
              uploadsOf_nil, uploadOkCount_cons, uploadOkCount_nil,
              receivedCount_cons, receivedCount_nil, queueLen]
      | some s =>
        cases hps : s.pendingSelection with
        | some pending =>
          have h := hpb_c10 env w s m pending
            (matchCommand (normalizeText m.body) endCommands)
          refine ⟨?_, ?_, ?_⟩ <;>
            simp only [handleMessage, hauth, hsc, hps, Bool.not_true,
              Bool.false_eq_true, if_false, queueLen_some, oldUploaded_some]
          · exact h.1
          · exact h.2.1
          · exact h.2.2
        | none =>
          by_cases hm : m.hasMedia = true
          · obtain ⟨k1, k2, k3⟩ := handleMedia_c10 env s w
            by_cases hie : (matchCommand (normalizeText m.body)
                endCommands).isSome = true
            · obtain ⟨f1, f2, f3⟩ := finalizeSession_c10 env (senderOfMsg m)
                (handleMedia env s w).session (handleMedia env s w).world
              refine ⟨?_, ?_, ?_⟩ <;>
                simp only [handleMessage, hauth, hsc, hps, hm, hie,
                  Bool.not_true, Bool.false_eq_true, if_false, if_true,
                  uploadsOf_append, receivedCount_append, uploadOkCount_append,
                  List.length_append, queueLen_some, oldUploaded_some]
              · omega
              · omega
              · intro s2 hs2
                have := f3 s2 hs2
                omega
            · refine ⟨?_, ?_, ?_⟩ <;>
                simp only [handleMessage, hauth, hsc, hps, hm, hie,
                  Bool.not_true, Bool.false_eq_true, if_false, if_true,
                  queueLen_some, oldUploaded_some]
              · omega
              · exact k2
              · intro s2 hs2
                injection hs2 with hs2
                subst hs2
                omega
          · by_cases hie : (matchCommand (normalizeText m.body)
                endCommands).isSome = true
            · obtain ⟨f1, f2, f3⟩ := finalizeSession_c10 env (senderOfMsg m)
                s w
              refine ⟨?_, ?_, ?_⟩ <;>
                simp only [handleMessage, hauth, hsc, hps, hm, hie,
                  Bool.not_true, Bool.false_eq_true, if_false, if_true,
                  queueLen_some, oldUploaded_some]
              · omega
              · exact f2
              · intro s2 hs2
                exact f3 s2 hs2
            · obtain ⟨g1, g2, g3⟩ := handleText_c10 env m s w none
              refine ⟨?_, ?_, ?_⟩ <;>
                simp only [handleMessage, hauth, hsc, hps, hm, hie,
                  Bool.not_true, Bool.false_eq_true, if_false,
                  queueLen_some, oldUploaded_some]
              · omega
              · exact g2
              · intro s2 hs2
                injection hs2 with hs2
                subst hs2
                omega
  · have hauthf : isAuthorizedSender env (senderOfMsg m) = false := by
      cases hv : isAuthorizedSender env (senderOfMsg m)
      · rfl
      · exact absurd hv hauth
    by_cases hsc : (matchCommand (normalizeText m.body)
        startCommands).isSome = true <;>
      refine ⟨?_, ?_, ?_⟩ <;>
        simp [handleMessage, hauthf, hsc, uploadsOf_cons, uploadsOf_nil,
          uploadOkCount_cons, uploadOkCount_nil, receivedCount_cons,
          receivedCount_nil, queueLen]

theorem stepE_c10 (env : Env) (st : StepR) (e : Event)
    (h : InvC10 st) : InvC10 (stepE env st e) := by
  obtain ⟨h1, h2, h3⟩ := h
  have hold : oldUploaded st.session ≤ uploadOkCount st.eff := by
    cases hsess : st.session with
    | none => simp [oldUploaded_none]
    | some s0 => simpa [oldUploaded_some] using h3 s0 hsess
  cases e with
  | msg m =>
    obtain ⟨g1, g2, g3⟩ := handleMessage_c10 env st.world st.session m
    refine ⟨?_, ?_, ?_⟩
    · simp only [stepE, uploadsOf_append, receivedCount_append,
        List.length_append]
      omega
    · simp only [stepE, uploadsOf_append, uploadOkCount_append,
        List.length_append]
      omega
    · intro s2 hs2
      simp only [stepE] at hs2 ⊢
      have hg := g3 s2 hs2
      rw [uploadOkCount_append]
      omega
  | vote v =>
    obtain ⟨g1, g2, g3⟩ := hpv_c10 env st.world st.session v
    refine ⟨?_, ?_, ?_⟩
    · simp only [stepE, uploadsOf_append, receivedCount_append,
        List.length_append]
      omega
    · simp only [stepE, uploadsOf_append, uploadOkCount_append,
        List.length_append]
      omega
    · intro s2 hs2
      simp only [stepE] at hs2 ⊢
      have hg := g3 s2 hs2
      rw [uploadOkCount_append]
      omega

theorem runEvents_c10 (env : Env) (events : List Event) :
    ∀ st : StepR, InvC10 st → InvC10 (runEvents env st events) := by
  induction events with
  | nil => intro st h; exact h
  | cons e rest ih =>
    intro st h
    exact ih (stepE env st e) (stepE_c10 env st e h)

/-- C10: flushing the pending queue uploads exactly the buffered attachments
in receipt order, empties the queue first (so a repeated flush uploads
nothing), and adds exactly the number of successful uploads to the session
counter; globally, across any event sequence, uploads never exceed received
attachments, successes never exceed upload attempts, and the session counter
never exceeds the received attachments. -/
theorem attachments_uploaded_once (env : Env) (w0 : World)
    (events : List Event) :
    (∀ (s : TicketSession) (w : World) (tid : String), s.ticketId = some tid →
      uploadsOf (uploadPendingAttachments env s w).eff = s.attachments ∧
      (uploadPendingAttachments env s w).session.attachments = [] ∧
      (uploadPendingAttachments env s w).session.uploadedCount =
        s.uploadedCount +
          uploadOkCount (uploadPendingAttachments env s w).eff ∧
      (uploadPendingAttachments env
          (uploadPendingAttachments env s w).session
          (uploadPendingAttachments env s w).world).eff = []) ∧
    ((uploadsOf (runEvents env ⟨w0, some freshSession, []⟩ events).eff).length
        ≤ receivedCount (runEvents env ⟨w0, some freshSession, []⟩ events).eff ∧
     uploadOkCount (runEvents env ⟨w0, some freshSession, []⟩ events).eff ≤
      (uploadsOf (runEvents env ⟨w0, some freshSession, []⟩ events).eff).length ∧
     (∀ s, (runEvents env ⟨w0, some freshSession, []⟩ events).session = some s →
       s.uploadedCount ≤
         receivedCount (runEvents env ⟨w0, some freshSession, []⟩ events).eff)) := by
  constructor
  · intro s w tid ht
    obtain ⟨p1, p2, p3, _, _, p6⟩ := (upa_spec env s w).2 tid ht
    exact ⟨p1, p2, p3, p6⟩
  · have hinit : InvC10 ⟨w0, some freshSession, []⟩ := by
      refine ⟨?_, ?_, ?_⟩
      · simp [uploadsOf_nil, receivedCount_nil, queueLen_some, freshSession]
      · simp [uploadsOf_nil, uploadOkCount_nil]
      · intro s hs
        injection hs with hs
        subst hs
        simp [uploadOkCount_nil, freshSession]
    obtain ⟨q1, q2, q3⟩ := runEvents_c10 env events
      ⟨w0, some freshSession, []⟩ hinit
    refine ⟨by omega, q2, ?_⟩
    intro s hs
    have := q3 s hs
    omega

theorem attachments_uploaded_once_witness :
    sessionWithTicket.ticketId = some "77" ∧
    uploadsOf (uploadPendingAttachments envForTests sessionWithTicket
        worldEmpty).eff = sessionWithTicket.attachments :=
  ⟨rfl, ((attachments_uploaded_once envForTests worldEmpty []).1
    sessionWithTicket worldEmpty "77" rfl).1⟩

